import Mathlib

/-!
lightningd: subdaemon request tracking, message reading and channel failure.

A shallow embedding of `lightningd/subd.c`, `lightningd/channel.c`, `lightningd/jsonrpc.c`
and `common/wireaddr.c`.

* C structs become Lean structures with the same field names.
* Pointers that are only compared or passed on (`struct peer *`, `struct io_conn *`,
  `struct command *`, tal contexts) are natural numbers; a nullable pointer is an `Option`.
* A C function that mutates its arguments returns the new value of what it mutated.
* Calls that leave the translated files (logging, the wallet, the gossip daemon, callbacks
  stored in function pointers, `close(2)`) are recorded, in program order, in a trace of events.
* `fatal`, `errx` and a failed `assert` end the process: the functions that can reach one
  return an outcome that says so.
* Code under `#if DEVELOPER` reads developer options; they are an `Option`, absent in a
  build without `DEVELOPER`.
-/

namespace Lightning

/-! ## Bytes, names and the constants of absent headers -/

/-- One octet of a wire message (`u8`). -/
abbrev u8 := Fin 256

/-- Constants of `lightningd/subd.h` and `common/status.h`. Neither header is among the
translated sources, so every definition that uses one of them takes this record as a
parameter and no value is assumed. -/
structure wire_consts where
  SUBD_REPLY_OFFSET : Int
  SUBD_REPLYFAIL_OFFSET : Int
  STATUS_TRACE : Int
  STATUS_FAIL : Int
  STATUS_FAIL_MASTER_IO : Int
  STATUS_FAIL_HSM_IO : Int
  STATUS_FAIL_GOSSIP_IO : Int
  STATUS_FAIL_INTERNAL_ERROR : Int
  STATUS_FAIL_PEER_IO : Int
  STATUS_FAIL_PEER_BAD : Int
  deriving DecidableEq, Repr

/-- Modelled from the spec: `strends` of ccan/str (not under src/), the runtime name-suffix
convention the spec describes: true when `str` ends with `suffix`. -/
def strends (str suffix : String) : Bool :=
  suffix.data.isSuffixOf str.data

/-- Modelled from the spec: `strstarts` of ccan/str (not under src/): true when `str`
begins with `pre`. -/
def strstarts (str pre : String) : Bool :=
  pre.data.isPrefixOf str.data

/-! ## `struct subd_req` and the request list -/

/-- The value of the function pointer `replycb`: either the static `ignore_reply` of subd.c
or a caller's function, identified by its address. -/
inductive reply_fn where
  | ignore_reply
  | fn (addr : Nat)
  deriving DecidableEq, Repr

/-- The C `struct subd_req` without its list node: the position in `subd.reqs` plays that
role. `disabler` is the `char` allocated off the caller's context, identified by that
context. -/
structure subd_req where
  type : Int
  replycb : reply_fn
  replycb_data : Nat
  num_reply_fds : Nat
  disabler : Option Nat
  deriving DecidableEq, Repr

/-- The destructor `disable_cb(disabler, sr)`. -/
def disable_cb (sr : subd_req) : subd_req :=
  { sr with replycb := reply_fn.ignore_reply, disabler := none }

/-- Freeing the context `ctx`: tal frees its children, among them every disabler that
`add_req` allocated off it, and each runs its destructor `disable_cb` on its request. -/
def tal_free_ctx (ctx : Nat) (reqs : List subd_req) : List subd_req :=
  reqs.map (fun sr => if sr.disabler = some ctx then disable_cb sr else sr)

/-- How a call that does not return ends the process. -/
inductive abort where
  | assertion (expr : String)
  | fatal (fmt : String)
  | errx (fmt : String)
  | undefined (what : String)
  deriving DecidableEq, Repr

/-- The function `add_req(ctx, sd, type, num_fds_in, replycb, replycb_data)` on the request
list of `sd`; `msgname` is `sd->msgname`. The assertion on the reply name comes before the
list insertion. -/
def add_req (k : wire_consts) (msgname : Int → String) (ctx : Option Nat)
    (reqs : List subd_req) (type : Int) (num_fds_in : Nat)
    (replycb : reply_fn) (replycb_data : Nat) : Except abort (List subd_req) :=
  let sr : subd_req :=
    { type := type, replycb := replycb, replycb_data := replycb_data,
      num_reply_fds := num_fds_in, disabler := ctx }
  if strends (msgname (sr.type + k.SUBD_REPLY_OFFSET)) "_REPLY" then
    Except.ok (reqs ++ [sr])
  else
    Except.error (abort.assertion "strends(sd->msgname(sr->type + SUBD_REPLY_OFFSET), _REPLY)")

/-- What `get_req` hands back: the position of the entry it returns a pointer to, the entry
as `get_req` leaves it, and the whole list as `get_req` leaves it. -/
structure found_req where
  idx : Nat
  sr : subd_req
  reqs : List subd_req
  deriving DecidableEq, Repr

/-- The function `get_req(sd, reply_type)`: the `list_for_each` scan from the head; `none`
is the `NULL` result. The failure-reply match writes `num_reply_fds = 0` into the entry. -/
def get_req (k : wire_consts) (msgname : Int → String) (reply_type : Int) :
    List subd_req → Option found_req
  | [] => none
  | sr :: rest =>
    if sr.type + k.SUBD_REPLY_OFFSET = reply_type then
      some { idx := 0, sr := sr, reqs := sr :: rest }
    else if sr.type + k.SUBD_REPLYFAIL_OFFSET = reply_type
        ∧ strends (msgname reply_type) "_REPLYFAIL" = true then
      some { idx := 0, sr := { sr with num_reply_fds := 0 },
             reqs := { sr with num_reply_fds := 0 } :: rest }
    else
      (get_req k msgname reply_type rest).map
        (fun f => { idx := f.idx + 1, sr := f.sr, reqs := sr :: f.reqs })

/-- The values the constants have in the witnesses and examples below. -/
def sample_consts : wire_consts :=
  { SUBD_REPLY_OFFSET := 100, SUBD_REPLYFAIL_OFFSET := 200,
    STATUS_TRACE := 0x7FFF, STATUS_FAIL := 0x8000,
    STATUS_FAIL_MASTER_IO := 0x8000, STATUS_FAIL_HSM_IO := 0x8001,
    STATUS_FAIL_GOSSIP_IO := 0x8002, STATUS_FAIL_INTERNAL_ERROR := 0x8003,
    STATUS_FAIL_PEER_IO := 0x8004, STATUS_FAIL_PEER_BAD := 0x8005 }

/-- A `msgname` for the witnesses: requests 1 and 2, their replies 101 and 102, and the
failure reply 201 of request 1. -/
def sample_msgname (t : Int) : String :=
  if t = 1 then "WIRE_A"
  else if t = 2 then "WIRE_B"
  else if t = 101 then "WIRE_A_REPLY"
  else if t = 102 then "WIRE_B_REPLY"
  else if t = 201 then "WIRE_A_REPLYFAIL"
  else "INVALID"

/-! ## `struct subd`, the trace, and the helpers of `sd_msg_read` -/

/-- Log levels of lightningd/log.h, by the name of the logging call. -/
inductive log_level where
  | debug
  | info
  | unusual
  | broken
  deriving DecidableEq, Repr

/-- One entry of the outbound queue `sd->outq`: a message or a descriptor handoff. -/
inductive out_item where
  | msg (bytes : List u8)
  | fd (fd : Int)
  deriving DecidableEq, Repr

/-- The C `struct subd`. The function pointer `msgname` is passed next to the structure;
`msgcb` is the address of the dispatch callback, `none` when it is `NULL`. `fds_in` is
`none` when the pointer is `NULL`. -/
structure subd where
  pid : Int
  name : String
  must_not_exit : Bool
  msgcb : Option Nat
  peer : Option Nat
  conn : Option Nat
  msg_in : Option (List u8)
  fds_in : Option (List Int)
  num_fds_in_read : Nat
  reqs : List subd_req
  outq : List out_item
  deriving DecidableEq, Repr

/-- What leaves subd.c during one call, in program order. `log` keeps the format string of
the logging call and the bytes of its string argument (empty when it has none);
`log_malformed` is the `tal_hexstr` call and `log_broken` of `subdaemon_malformed_msg`,
with the peeked type and the length handed to `tal_hexstr`; `replycb` and `msgcb` are the
calls through the function pointers; `peer_fail_transient` carries the formatted reason;
`waitpid`, `kill` (with `SIGKILL`) and `sleep` are the system calls of the reaping code;
`tal_free_conn` is `tal_free(sd->conn)` and `io_new_conn` the connection made for a new
subdaemon. -/
inductive event where
  | db_begin_transaction
  | db_commit_transaction
  | log (level : log_level) (fmt : String) (str : List u8)
  | log_malformed (type : Int) (hexlen : Nat)
  | close (fd : Int)
  | io_fd_block (fd : Int)
  | replycb (fn : reply_fn) (data : Nat) (msg : Option (List u8)) (fds : Option (List Int))
  | msgcb (fn : Nat) (msg : Option (List u8)) (fds : Option (List Int))
  | peer_fail_permanent (peer : Nat) (reason : List u8)
  | peer_fail_transient (peer : Nat) (reason : String)
  | waitpid (pid : Int)
  | kill (pid : Int)
  | sleep (seconds : Nat)
  | tal_free_conn (conn : Nat)
  | io_new_conn (fd : Int) (conn : Nat)
  deriving DecidableEq, Repr

/-- The behaviour of the callers' callbacks, which are not part of subd.c. Each gets the
subdaemon as it is at the call and returns it as the callback leaves it, `none` when the
callback freed it (the case `mark_freed` detects); `msgcb` also returns its result. -/
structure callbacks where
  replycb : Nat → Nat → Option (List u8) → Option (List Int) → subd → Option subd
  msgcb : Nat → Option (List u8) → Option (List Int) → subd → Option subd × Nat

/-- Fields of `struct lightningd` that exist and are read only under `#if DEVELOPER`. -/
structure dev_options where
  dev_disconnect_fd : Int
  dev_subdaemon_fail : Bool
  no_reconnect : Bool
  deriving DecidableEq, Repr

/-- The part of `struct lightningd` the translated code reads: the developer options
(`none` in a build without `DEVELOPER`) and the gossip subdaemon. -/
structure lightningd where
  dev : Option dev_options
  gossip : Nat
  deriving DecidableEq, Repr

/-- The `#if DEVELOPER` test `sd->ld->dev_subdaemon_fail`; false when compiled out. -/
def dev_subdaemon_fail (ld : lightningd) : Bool :=
  match ld.dev with
  | some d => d.dev_subdaemon_fail
  | none => false

/-- The plan an io callback returns: `io_close(conn)`;
`io_read_wire(conn, sd, &sd->msg_in, sd_msg_read, sd)`; or
`io_recv_fd(conn, &sd->fds_in[slot], read_fds, sd)`. -/
inductive io_plan where
  | io_close
  | io_read_wire
  | io_recv_fd (slot : Nat)
  deriving DecidableEq, Repr

/-- The result of an io callback: the subdaemon afterwards (`none` once a callback freed
it), the trace, and the plan returned or the way the process ended. -/
structure io_result where
  sd : Option subd
  trace : List event
  out : Except abort io_plan

/-- The `tal_count` of an array pointer; 0 for `NULL`. -/
def tal_count {α : Type} (p : Option (List α)) : Nat :=
  match p with
  | some l => l.length
  | none => 0

/-- Subtraction in `size_t` (64 bits). -/
def size_sub (a b : Nat) : Nat :=
  (a + 2 ^ 64 - b % 2 ^ 64) % 2 ^ 64

/-- Modelled from the spec: `fromwire_peektype` of wire/ (not under src/): the big-endian
16-bit type field at the front of the message, -1 when the message is too short to hold
it. -/
def fromwire_peektype (msg : Option (List u8)) : Int :=
  match msg with
  | some (b0 :: b1 :: _) => (b0.val : Int) * 256 + (b1.val : Int)
  | _ => -1

/-- Modelled from the spec: `cisprint` of ccan/str (not under src/): the printable ASCII
characters, space to tilde. -/
def cisprint (c : u8) : Bool :=
  decide (32 ≤ c.val ∧ c.val ≤ 126)

/-- The function `string_from_msg(msg, &str_len)`: the string (`none` for `NULL`) and
`*str_len`. The length is `tal_count(msg) - sizeof(be16)` in `size_t`; when the message is
shorter than the header the loop reads past the buffer, which is undefined behaviour. -/
def string_from_msg (msg : Option (List u8)) : Except abort (Option (List u8) × Nat) :=
  let len := size_sub (tal_count msg) 2
  if tal_count msg < 2 then
    Except.error (abort.undefined "string_from_msg reads past the end of msg")
  else if ((msg.getD []).drop 2).all cisprint then
    Except.ok (some ((msg.getD []).drop 2), len)
  else
    Except.ok (none, 0)

/-- The function `subdaemon_malformed_msg(sd, msg)`: the trace and whether it returned. It
hands `tal_hexstr` the pointer `msg + sizeof(be16)` and the length
`tal_count(msg) - sizeof(be16)` in `size_t`; when the message is shorter than the header
that length has wrapped and `tal_hexstr` reads past the buffer, which is undefined
behaviour. -/
def subdaemon_malformed_msg (ld : lightningd) (msg : Option (List u8)) :
    List event × Except abort Unit :=
  ([event.log_malformed (fromwire_peektype msg) (size_sub (tal_count msg) 2)],
   if tal_count msg < 2 then
     Except.error (abort.undefined "tal_hexstr reads past the end of msg")
   else if dev_subdaemon_fail ld then
     Except.error (abort.fatal "Subdaemon %s sent malformed message")
   else Except.ok ())

/-- The function `log_status_fail(sd, type, str, str_len)`: the trace and the result; the
`switch` is read top to bottom. -/
def log_status_fail (k : wire_consts) (ld : lightningd) (type : Int) (str : List u8) :
    List event × Except abort Bool :=
  let log_str_broken (name : String) : List event × Except abort Bool :=
    ([event.log log_level.broken (name ++ ": %.*s") str],
     if dev_subdaemon_fail ld then Except.error (abort.fatal "Subdaemon %s hit error")
     else Except.ok true)
  let log_str_peer (name : String) : List event × Except abort Bool :=
    ([event.log log_level.info (name ++ ": %.*s") str], Except.ok true)
  if type = k.STATUS_FAIL_MASTER_IO then log_str_broken "STATUS_FAIL_MASTER_IO"
  else if type = k.STATUS_FAIL_HSM_IO then log_str_broken "STATUS_FAIL_HSM_IO"
  else if type = k.STATUS_FAIL_GOSSIP_IO then log_str_broken "STATUS_FAIL_GOSSIP_IO"
  else if type = k.STATUS_FAIL_INTERNAL_ERROR then log_str_broken "STATUS_FAIL_INTERNAL_ERROR"
  else if type = k.STATUS_FAIL_PEER_IO then log_str_peer "STATUS_FAIL_PEER_IO"
  else if type = k.STATUS_FAIL_PEER_BAD then log_str_peer "STATUS_FAIL_PEER_BAD"
  else ([], Except.ok false)

/-- The function `ignore_reply(sd, msg, fds, arg)`: it closes `fds[0 .. tal_count(fds)-1]`. -/
def ignore_reply (fds : Option (List Int)) : List event :=
  event.log log_level.debug "IGNORING REPLY" [] :: (fds.getD []).map event.close

/-- The indirect call `sr->replycb(sd, sd->msg_in, fds_in, sr->replycb_data)`. -/
def call_replycb (cb : callbacks) (sd : subd) (sr : subd_req) (fds_in : Option (List Int)) :
    List event × Option subd :=
  match sr.replycb with
  | reply_fn.ignore_reply =>
    (event.replycb reply_fn.ignore_reply sr.replycb_data sd.msg_in fds_in :: ignore_reply fds_in,
     some sd)
  | reply_fn.fn a =>
    ([event.replycb (reply_fn.fn a) sr.replycb_data sd.msg_in fds_in],
     cb.replycb a sr.replycb_data sd.msg_in fds_in sd)

/-- The function `sd_msg_reply(conn, sd, sr)`; `sr` points at entry `idx` of `sd->reqs`.
The request is unlinked and the descriptor array detached before the callback runs. -/
def sd_msg_reply (cb : callbacks) (conn : Nat) (sd : subd) (idx : Nat) (sr : subd_req) :
    io_result :=
  let fds_in := sd.fds_in
  let sd1 : subd := { sd with conn := none, reqs := sd.reqs.eraseIdx idx, fds_in := none }
  let r := call_replycb cb sd1 sr fds_in
  let tr := event.log log_level.info "REPLY %s with %zu fds" [] :: r.1
  match r.2 with
  | none => { sd := none, trace := tr, out := Except.ok io_plan.io_close }
  | some sd2 =>
    { sd := some { sd2 with conn := some conn }, trace := tr, out := Except.ok io_plan.io_read_wire }

/-- The label `out:` of `sd_msg_read`: commit, then return the plan. -/
def sd_out (sd : Option subd) (tr : List event) (plan : io_plan) : io_result :=
  { sd := sd, trace := tr ++ [event.db_commit_transaction], out := Except.ok plan }

/-- The label `close:` of `sd_msg_read`. -/
def sd_close (sd : Option subd) (tr : List event) : io_result :=
  sd_out sd tr io_plan.io_close

/-- The label `malformed:` of `sd_msg_read`, which falls through to `close:`. -/
def sd_malformed (ld : lightningd) (sd : subd) (tr : List event) : io_result :=
  let m := subdaemon_malformed_msg ld sd.msg_in
  match m.2 with
  | Except.error a => { sd := some sd, trace := tr ++ m.1, out := Except.error a }
  | Except.ok _ => sd_close (some sd) (tr ++ m.1)

/-- The label `next:` of `sd_msg_read`. -/
def sd_next (sd : subd) (tr : List event) : io_result :=
  sd_out (some { sd with msg_in := none, fds_in := none }) tr io_plan.io_read_wire

/-- The two statements `plan = ...; goto out;` of `sd_msg_read` for a plan computed by a
callee: the events so far, the callee's events, then the commit when the callee returned. -/
def sd_goto_out (tr : List event) (r : io_result) : io_result :=
  match r.out with
  | Except.ok plan => sd_out r.sd (tr ++ r.trace) plan
  | Except.error a => { sd := r.sd, trace := tr ++ r.trace, out := Except.error a }

/-- A process end inside `sd_msg_read`. -/
def sd_abort (sd : subd) (tr : List event) (a : abort) : io_result :=
  { sd := some sd, trace := tr, out := Except.error a }

set_option linter.unusedVariables false

mutual

/-- The function `read_fds(conn, sd)`. -/
def read_fds (k : wire_consts) (msgname : Int → String) (cb : callbacks) (ld : lightningd)
    (conn : Nat) (sd : subd) : io_result :=
  if h : sd.num_fds_in_read = tal_count sd.fds_in then
    let r := sd_msg_read k msgname cb ld conn sd
    { r with trace := (sd.fds_in.getD []).map event.io_fd_block ++ r.trace }
  else
    { sd := some { sd with num_fds_in_read := sd.num_fds_in_read + 1 }, trace := [],
      out := Except.ok (io_plan.io_recv_fd sd.num_fds_in_read) }
termination_by (if sd.num_fds_in_read = tal_count sd.fds_in then 4 else 1)
decreasing_by simp [h]

/-- The function `sd_collect_fds(conn, sd, num_fds)`. The new array is not initialised in
C; its slots hold -1 here and each is written by `io_recv_fd` before it is read. -/
def sd_collect_fds (k : wire_consts) (msgname : Int → String) (cb : callbacks)
    (ld : lightningd) (conn : Nat) (sd : subd) (num_fds : Nat) : io_result :=
  if sd.fds_in ≠ none then sd_abort sd [] (abort.assertion "!sd->fds_in")
  else
    read_fds k msgname cb ld conn
      { sd with fds_in := some (List.replicate num_fds (-1)), num_fds_in_read := 0 }
termination_by (if num_fds = 0 then 5 else 2)
decreasing_by
  simp [tal_count]
  by_cases h : num_fds = 0
  · simp [h]
  · have h2 : ¬ (0 = num_fds) := fun e => h e.symm
    simp [h, h2]

/-- The function `sd_msg_read(conn, sd)`. -/
def sd_msg_read (k : wire_consts) (msgname : Int → String) (cb : callbacks) (ld : lightningd)
    (conn : Nat) (sd : subd) : io_result :=
  let type := fromwire_peektype sd.msg_in
  let tr := [event.db_begin_transaction]
  if type = -1 then sd_malformed ld sd tr
  else
    match get_req k msgname type sd.reqs with
    | some f =>
      let sd1 : subd := { sd with reqs := f.reqs }
      if h : f.sr.num_reply_fds ≠ 0 ∧ sd1.fds_in = none then
        sd_goto_out tr (sd_collect_fds k msgname cb ld conn sd1 f.sr.num_reply_fds)
      else if f.sr.num_reply_fds ≠ tal_count sd1.fds_in then
        sd_abort sd1 tr (abort.assertion "sr->num_reply_fds == tal_count(sd->fds_in)")
      else
        sd_goto_out tr (sd_msg_reply cb conn sd1 f.idx f.sr)
    | none =>
      if type = k.STATUS_TRACE then
        match string_from_msg sd.msg_in with
        | Except.error a => sd_abort sd tr a
        | Except.ok (none, _) => sd_malformed ld sd tr
        | Except.ok (some str, _) =>
          sd_next sd (tr ++ [event.log log_level.debug "TRACE: %.*s" str])
      else if Int.land type k.STATUS_FAIL ≠ 0 then
        match string_from_msg sd.msg_in with
        | Except.error a => sd_abort sd tr a
        | Except.ok (none, _) => sd_malformed ld sd tr
        | Except.ok (some str, _) =>
          let l := log_status_fail k ld type str
          match l.2 with
          | Except.error a => sd_abort sd (tr ++ l.1) a
          | Except.ok false => sd_malformed ld sd (tr ++ l.1)
          | Except.ok true =>
            match sd.peer with
            | some peer =>
              if type = k.STATUS_FAIL_PEER_BAD then
                sd_close (some { sd with peer := none })
                  (tr ++ l.1 ++ [event.peer_fail_permanent peer str])
              else sd_close (some sd) (tr ++ l.1)
            | none => sd_close (some sd) (tr ++ l.1)
      else
        let tr1 := tr ++ [event.log log_level.info "UPDATE %s" []]
        match sd.msgcb with
        | none => sd_next sd tr1
        | some fn =>
          let r := cb.msgcb fn sd.msg_in sd.fds_in { sd with conn := none }
          let tr2 := tr1 ++ [event.msgcb fn sd.msg_in sd.fds_in]
          match r.1 with
          | none => sd_close none tr2
          | some sd2 =>
            let sd3 : subd := { sd2 with conn := some conn }
            if h : r.2 ≠ 0 then
              if sd3.fds_in ≠ none then sd_abort sd3 tr2 (abort.assertion "!sd->fds_in")
              else sd_goto_out tr2 (sd_collect_fds k msgname cb ld conn sd3 r.2)
            else sd_next sd3 tr2
termination_by 3
decreasing_by
  · simp [h.1]
  · simp [h]

end

set_option linter.unusedVariables true

/-! ## Reaping, shutdown, launching and sending -/

/-- The macros of `sys/wait.h` that subd.c applies to a wait status. They belong to the C
library, so they are a parameter. -/
structure wait_macros where
  WIFEXITED : Int → Bool
  WEXITSTATUS : Int → Int
  WIFSIGNALED : Int → Bool
  WTERMSIG : Int → Int

/-- What `waitpid(sd->pid, &status, WNOHANG)` finds in `destroy_subd`: it returns 0 (the
process has not exited; `kill_status` is the status the blocking `waitpid` stores after the
`kill`), -1, or the pid together with the status it stores. -/
inductive waitpid_result where
  | running (kill_status : Int)
  | failed
  | exited (status : Int)
  deriving DecidableEq, Repr

/-- The result of a subd.c function that is not an io callback: the subdaemon as the call
leaves it (`none` when there is none: freed, or never made), the trace, and whether the
call returned or ended the process. -/
structure sd_result where
  sd : Option subd
  trace : List event
  out : Except abort Unit

/-- The local `status` of `destroy_subd` after the `switch`. -/
def destroy_subd_status (wp : waitpid_result) : Int :=
  match wp with
  | waitpid_result.running kill_status => kill_status
  | waitpid_result.failed => -1
  | waitpid_result.exited status => status

/-- The local `fail_if_subd_fails` of `destroy_subd` after the `switch`: the developer
option, reset when the process had to be killed. -/
def destroy_subd_fail_if_subd_fails (ld : lightningd) (wp : waitpid_result) : Bool :=
  match wp with
  | waitpid_result.running _ => false
  | _ => dev_subdaemon_fail ld

/-- The reason `destroy_subd` formats for `peer_fail_transient`:
"Owning subdaemon %s died (%i)" with `sd->name` and `status`. -/
def owning_subdaemon_died (name : String) (status : Int) : String :=
  "Owning subdaemon " ++ name ++ " died (" ++ toString status ++ ")"

/-- The destructor `destroy_subd(sd)`. -/
def destroy_subd (w : wait_macros) (ld : lightningd) (sd : subd) (wp : waitpid_result) :
    sd_result :=
  let status := destroy_subd_status wp
  let tr0 : List event :=
    event.waitpid sd.pid ::
    (match wp with
     | waitpid_result.running _ =>
       [event.log log_level.debug "Status closed, but not exited. Killing" [],
        event.kill sd.pid, event.waitpid sd.pid]
     | waitpid_result.failed =>
       [event.log log_level.unusual "Status closed, but waitpid %i says %s" []]
     | waitpid_result.exited _ => [])
  if destroy_subd_fail_if_subd_fails ld wp && w.WIFSIGNALED status then
    { sd := some sd, trace := tr0,
      out := Except.error (abort.fatal "Subdaemon %s killed with signal %i") }
  else
    let tr1 : List event :=
      match sd.conn with
      | some conn => [event.tal_free_conn conn]
      | none => []
    let sd1 : subd := { sd with conn := none }
    let tr2 : List event :=
      match sd1.peer with
      | some peer => [event.peer_fail_transient peer (owning_subdaemon_died sd1.name status)]
      | none => []
    let sd2 : subd := { sd1 with peer := none }
    if sd2.must_not_exit then
      if w.WIFEXITED status then
        { sd := some sd2, trace := tr0 ++ tr1 ++ tr2,
          out := Except.error (abort.errx "%s failed (exit status %i), exiting.") }
      else
        { sd := some sd2, trace := tr0 ++ tr1 ++ tr2,
          out := Except.error (abort.errx "%s failed (signal %u), exiting.") }
    else
      { sd := some sd2, trace := tr0 ++ tr1 ++ tr2, out := Except.ok () }

/-- The `while (seconds)` loop of `subd_shutdown`. `poll i` is what the i-th call of
`waitpid(sd->pid, NULL, WNOHANG)` returns; `i` counts the calls made so far. The result
says whether the loop left through `return`, with the trace. -/
def subd_shutdown_wait (pid : Int) (poll : Nat → Int) : Nat → Nat → Bool × List event
  | 0, _ => (false, [])
  | seconds + 1, i =>
    if poll i > 0 then (true, [event.waitpid pid])
    else
      let r := subd_shutdown_wait pid poll seconds (i + 1)
      (r.1, event.waitpid pid :: event.sleep 1 :: r.2)

/-- The function `subd_shutdown(sd, seconds)`. `poll` gives the results of the polling
`waitpid` calls and `wp` what `destroy_subd` finds if the loop runs out. The destructor
`destroy_subd` is removed first, so the final `tal_free(sd)` does not run it again. -/
def subd_shutdown (w : wait_macros) (ld : lightningd) (sd : subd) (seconds : Nat)
    (poll : Nat → Int) (wp : waitpid_result) : sd_result :=
  let tr0 : List event :=
    event.log log_level.debug "Shutting down" [] ::
    (match sd.conn with
     | some conn => [event.tal_free_conn conn]
     | none => [])
  let sd1 : subd := { sd with conn := none }
  let l := subd_shutdown_wait sd1.pid poll seconds 0
  if l.1 then
    { sd := some sd1, trace := tr0 ++ l.2, out := Except.ok () }
  else
    let d := destroy_subd w ld { sd1 with must_not_exit := false } wp
    match d.out with
    | Except.error a => { sd := d.sd, trace := tr0 ++ l.2 ++ d.trace, out := Except.error a }
    | Except.ok _ => { sd := none, trace := tr0 ++ l.2 ++ d.trace, out := Except.ok () }

/-- The descriptors `subd` gets from `socketpair` and `pipe`. -/
structure spawn_fds where
  childmsg0 : Int
  childmsg1 : Int
  execfail0 : Int
  execfail1 : Int
  deriving DecidableEq, Repr

/-- What the system calls of the static function `subd` do, seen from the parent: which
call fails first, or that the child's `execl` failed (it reports `err` on the pipe), or
that the child runs. -/
inductive spawn_os where
  | socketpair_failed
  | pipe_failed (childmsg0 childmsg1 : Int)
  | fcntl_failed (fds : spawn_fds)
  | fork_failed (fds : spawn_fds)
  | exec_failed (fds : spawn_fds) (childpid : Nat) (err : Int)
  | started (fds : spawn_fds) (childpid : Nat)
  deriving DecidableEq, Repr

/-- The function `close_taken_fds(ap)`; the list holds each `int *` argument as the
descriptor and whether it was passed with `take()`. -/
def close_taken_fds (ap : List (Int × Bool)) : List event :=
  (ap.filter (fun a => a.2)).map (fun a => event.close a.1)

/-- The result of the static function `subd`: the value returned, `*msgfd` when it was
written, and the trace. -/
structure spawn_result where
  pid : Int
  msgfd : Option Int
  trace : List event
  deriving DecidableEq, Repr

/-- The static function `subd(dir, name, debug_subdaemon, msgfd, dev_disconnect_fd, ap)` in
the parent process (the name `subd` is the structure's); `ap` is `none` for `NULL`. -/
def subd_spawn (os : spawn_os) (ap : Option (List (Int × Bool))) : spawn_result :=
  let taken : List event :=
    match ap with
    | some l => close_taken_fds l
    | none => []
  match os with
  | spawn_os.socketpair_failed => { pid := -1, msgfd := none, trace := taken }
  | spawn_os.pipe_failed c0 c1 =>
    { pid := -1, msgfd := none, trace := [event.close c0, event.close c1] ++ taken }
  | spawn_os.fcntl_failed f =>
    { pid := -1, msgfd := none,
      trace := [event.close f.execfail0, event.close f.execfail1,
                event.close f.childmsg0, event.close f.childmsg1] ++ taken }
  | spawn_os.fork_failed f =>
    { pid := -1, msgfd := none,
      trace := [event.close f.execfail0, event.close f.execfail1,
                event.close f.childmsg0, event.close f.childmsg1] ++ taken }
  | spawn_os.exec_failed f childpid _ =>
    { pid := -1, msgfd := none,
      trace := [event.close f.childmsg1, event.close f.execfail1] ++ taken
        ++ [event.close f.execfail0, event.waitpid childpid] }
  | spawn_os.started f childpid =>
    { pid := childpid, msgfd := some f.childmsg0,
      trace := [event.close f.childmsg1, event.close f.execfail1] ++ taken
        ++ [event.close f.execfail0] }

/-- The function `subd_raw(ld, name)`: the value returned and the trace. -/
def subd_raw (os : spawn_os) : Int × List event :=
  let r := subd_spawn os none
  if r.pid = -1 then
    (-1, r.trace ++ [event.log log_level.unusual "subd %s failed: %s" []])
  else
    (r.msgfd.getD 0, r.trace)

/-- The static function `new_subd(ld, name, peer, msgname, msgcb, ap)`: the pointer returned
(`none` for `NULL`) and the trace. `conn` is the connection `io_new_conn` makes. -/
def new_subd (os : spawn_os) (conn : Nat) (name : String) (peer : Option Nat)
    (msgcb : Option Nat) (ap : Option (List (Int × Bool))) : Option subd × List event :=
  let r := subd_spawn os ap
  if r.pid = -1 then
    (none, r.trace ++ [event.log log_level.unusual "subd %s failed: %s" []])
  else
    (some { pid := r.pid, name := name, must_not_exit := false, msgcb := msgcb, peer := peer,
            conn := some conn, msg_in := none, fds_in := none, num_fds_in_read := 0,
            reqs := [], outq := [] },
     r.trace ++ [event.io_new_conn (r.msgfd.getD 0) conn,
                 event.log log_level.info "pid %u, msgfd %i" []])

/-- The function `new_global_subd(ld, name, msgname, msgcb, ...)`. It stores to
`sd->must_not_exit` without testing `sd`, which is undefined behaviour when `new_subd`
returned `NULL`. -/
def new_global_subd (os : spawn_os) (conn : Nat) (name : String) (msgcb : Option Nat)
    (ap : List (Int × Bool)) : sd_result :=
  let r := new_subd os conn name none msgcb (some ap)
  match r.1 with
  | none =>
    { sd := none, trace := r.2,
      out := Except.error (abort.undefined "sd->must_not_exit = true with sd == NULL") }
  | some sd =>
    { sd := some { sd with must_not_exit := true }, trace := r.2, out := Except.ok () }

/-- The function `new_peer_subd(ld, name, peer, msgname, msgcb, ...)`. -/
def new_peer_subd (os : spawn_os) (conn : Nat) (name : String) (peer : Option Nat)
    (msgcb : Option Nat) (ap : List (Int × Bool)) : sd_result :=
  let r := new_subd os conn name peer msgcb (some ap)
  { sd := r.1, trace := r.2, out := Except.ok () }

/-- The function `subd_send_msg(sd, msg_out)`; `msgname` is `sd->msgname`. The assertion
comes before `msg_enqueue`. -/
def subd_send_msg (msgname : Int → String) (sd : subd) (msg_out : List u8) : sd_result :=
  if strstarts (msgname (fromwire_peektype (some msg_out))) "INVALID" then
    { sd := some sd, trace := [],
      out := Except.error
        (abort.assertion "!strstarts(sd->msgname(fromwire_peektype(msg_out)), INVALID)") }
  else
    { sd := some { sd with outq := sd.outq ++ [out_item.msg msg_out] }, trace := [],
      out := Except.ok () }

/-- The function `subd_send_fd(sd, fd)`. -/
def subd_send_fd (sd : subd) (fd : Int) : subd :=
  { sd with outq := sd.outq ++ [out_item.fd fd] }

/-- The function
`subd_req_(ctx, sd, msg_out, fd_out, num_fds_in, replycb, replycb_data)`. When an assertion
fails the result holds the subdaemon as it is at that point. -/
def subd_req_ (k : wire_consts) (msgname : Int → String) (ctx : Option Nat) (sd : subd)
    (msg_out : List u8) (fd_out : Int) (num_fds_in : Nat) (replycb : reply_fn)
    (replycb_data : Nat) : sd_result :=
  let type := fromwire_peektype (some msg_out)
  let s := subd_send_msg msgname sd msg_out
  match s.out, s.sd with
  | Except.ok _, some sd1 =>
    let sd2 : subd := if fd_out ≥ 0 then subd_send_fd sd1 fd_out else sd1
    match add_req k msgname ctx sd2.reqs type num_fds_in replycb replycb_data with
    | Except.ok reqs => { sd := some { sd2 with reqs := reqs }, trace := [], out := Except.ok () }
    | Except.error a => { sd := some sd2, trace := [], out := Except.error a }
  | _, _ => s

/-! ## lightningd/channel.c -/

/-- The fields of `struct peer` that channel.c reads through `channel->peer`. -/
structure peer where
  id : Nat
  dbid : Nat
  direction : Nat
  deriving DecidableEq, Repr

/-- The message `towire_error(channel, &channel_id, data)`; the all-zero `channel_id` is 0. -/
structure wire_error where
  channel_id : Nat
  data : String
  deriving DecidableEq, Repr

/-- The fields of `struct channel` that channel.c uses. `state` is the value of the
`enum peer_state`; `owner`, `opening_cmd`, `scid` and `error` are nullable pointers. -/
structure channel where
  dbid : Nat
  peer : peer
  first_blocknum : Nat
  state : Nat
  local_shutdown_idx : Int
  owner : Option Nat
  opening_cmd : Option Nat
  scid : Option Nat
  error : Option wire_error
  deriving DecidableEq, Repr

/-- The two messages channel.c sends to the gossip daemon. -/
inductive gossip_msg where
  | gossip_disable_channel (scid : Nat) (direction : Nat) (active : Bool)
  | gossipctl_reach_peer (id : Nat)
  deriving DecidableEq, Repr

/-- What leaves channel.c during one call, in program order. `log` keeps the format string
and the formatted reason; `wallet_channel_save` carries the channel as it is saved;
`tal_free_channel` is the `tal_free(channel)` of `free_channel`, at which the destructor
`destroy_channel` runs. -/
inductive chan_event where
  | log (level : log_level) (fmt : String) (why : String)
  | subd_release_channel (owner : Nat) (dbid : Nat)
  | subd_send_msg (sd : Nat) (msg : gossip_msg)
  | wallet_channel_save (channel : channel)
  | wallet_channel_delete (dbid : Nat) (peer_dbid : Nat)
  | command_fail (cmd : Nat) (why : String)
  | drop_to_chain (dbid : Nat)
  | tal_free_channel (dbid : Nat)
  deriving DecidableEq, Repr

/-- The result of a channel.c function: the channel as the call leaves it, whether the call
freed it, the trace, and whether the call returned or ended the process. -/
structure chan_result where
  channel : channel
  freed : Bool
  trace : List chan_event
  out : Except abort Unit
  deriving Repr

/-- Modelled from the spec: `channel_persists` of lightningd/channel.h (not under src/): the
channel has reached its durable milestone, a property of its state alone. Which states
those are is the parameter `persisted`. -/
def channel_persists (persisted : Nat → Bool) (c : channel) : Bool :=
  persisted c.state

/-- Modelled from the spec: `channel_active` of lightningd/channel.h (not under src/): the
channel is in an active operating state, a property of its state alone. Which states those
are is the parameter `active`. -/
def channel_active (active : Nat → Bool) (c : channel) : Bool :=
  active c.state

/-- The function `channel_set_owner(channel, owner)`. -/
def channel_set_owner (c : channel) (owner : Option Nat) : channel × List chan_event :=
  ({ c with owner := owner },
   match c.owner with
   | some old_owner => [chan_event.subd_release_channel old_owner c.dbid]
   | none => [])

/-- The function `free_channel(channel, why)`. -/
def free_channel (c : channel) (why : String) : chan_result :=
  let failed : List chan_event :=
    match c.opening_cmd with
    | some cmd => [chan_event.command_fail cmd why]
    | none => []
  { channel := { c with opening_cmd := none },
    freed := true,
    trace := failed ++ [chan_event.wallet_channel_delete c.dbid c.peer.dbid,
                        chan_event.tal_free_channel c.dbid],
    out := Except.ok () }

/-- The function `channel_set_state(channel, old_state, state)`. -/
def channel_set_state (persisted : Nat → Bool) (c : channel) (old_state state : Nat) :
    chan_result :=
  let tr := [chan_event.log log_level.info "State changed from %s to %s" ""]
  if c.state ≠ old_state then
    { channel := c, freed := false, trace := tr,
      out := Except.error (abort.fatal "channel state %s should be %s") }
  else
    let c1 : channel := { c with state := state }
    if channel_persists persisted c1 then
      { channel := c1, freed := false,
        trace := tr ++ [chan_event.wallet_channel_save c1], out := Except.ok () }
    else
      { channel := c1, freed := false, trace := tr, out := Except.ok () }

/-- The function `channel_fail_permanent(channel, fmt, ...)`; `why` is the formatted
reason. -/
def channel_fail_permanent (persisted : Nat → Bool) (ld : lightningd) (c : channel)
    (why : String) : chan_result :=
  let tr0 : List chan_event :=
    match c.scid with
    | some scid =>
      [chan_event.subd_send_msg ld.gossip
        (gossip_msg.gossip_disable_channel scid c.peer.direction false)]
    | none => []
  let tr1 := tr0 ++ [chan_event.log log_level.unusual "Peer permanent failure in %s: %s" why]
  let c1 : channel :=
    match c.error with
    | none => { c with error := some { channel_id := 0, data := why } }
    | some _ => c
  let o := channel_set_owner c1 none
  if channel_persists persisted o.1 then
    { channel := o.1, freed := false,
      trace := tr1 ++ o.2 ++ [chan_event.drop_to_chain o.1.dbid], out := Except.ok () }
  else
    let f := free_channel o.1 why
    { f with trace := tr1 ++ o.2 ++ f.trace }

/-- The function `channel_internal_error(channel, fmt, ...)`. -/
def channel_internal_error (persisted : Nat → Bool) (ld : lightningd) (c : channel)
    (why : String) : chan_result :=
  let r := channel_fail_permanent persisted ld c "Internal error"
  { r with trace := chan_event.log log_level.broken "Peer internal error %s: " why :: r.trace }

/-- The function `dev_disconnect_permanent(ld)` of subd.c, which exists under
`#if DEVELOPER`. `file` is what `read` finds at the current offset of the dev-disconnect
file, `none` when `read` fails. -/
def dev_disconnect_permanent (d : dev_options) (file : Option (List u8)) : Except abort Bool :=
  if d.dev_disconnect_fd = -1 then Except.ok false
  else
    match file with
    | none => Except.error (abort.fatal "Reading dev_disconnect file: %s")
    | some bytes => Except.ok (decide (bytes.take 8 = [112, 101, 114, 109, 102, 97, 105, 108]))

/-- The `#if DEVELOPER` hook at the top of `channel_fail_transient`; false when compiled
out. -/
def dev_hook (ld : lightningd) (file : Option (List u8)) : Except abort Bool :=
  match ld.dev with
  | some d => dev_disconnect_permanent d file
  | none => Except.ok false

/-- The `#if DEVELOPER` test `ld->no_reconnect`; false when compiled out. -/
def dev_no_reconnect (ld : lightningd) : Bool :=
  match ld.dev with
  | some d => d.no_reconnect
  | none => false

/-- The function `channel_fail_transient(channel, fmt, ...)`; `why` is the formatted reason
and `file` the state of the dev-disconnect file (see `dev_disconnect_permanent`). -/
def channel_fail_transient (persisted active : Nat → Bool) (ld : lightningd)
    (file : Option (List u8)) (c : channel) (why : String) : chan_result :=
  let tr := [chan_event.log log_level.info "Peer transient failure in %s: %s" why]
  match dev_hook ld file with
  | Except.error a => { channel := c, freed := false, trace := tr, out := Except.error a }
  | Except.ok true =>
    let r := channel_internal_error persisted ld c "dev_disconnect permfail"
    { r with trace := tr ++ r.trace }
  | Except.ok false =>
    let o := channel_set_owner c none
    if ¬ channel_persists persisted o.1 then
      let f := free_channel o.1 why
      { f with trace := tr ++ o.2
          ++ [chan_event.log log_level.info "Only reached state %s: forgetting" ""] ++ f.trace }
    else if channel_active active o.1 then
      if dev_no_reconnect ld then
        { channel := o.1, freed := false, trace := tr ++ o.2, out := Except.ok () }
      else
        { channel := o.1, freed := false,
          trace := tr ++ o.2 ++ [chan_event.subd_send_msg ld.gossip
            (gossip_msg.gossipctl_reach_peer o.1.peer.id)],
          out := Except.ok () }
    else
      { channel := o.1, freed := false, trace := tr ++ o.2, out := Except.ok () }

/-! ## The io loop around `read_fds` -/

/-- Modelled from the spec: the completion of
`io_recv_fd(conn, &sd->fds_in[slot], read_fds, sd)` in ccan/io (not under src/): the
descriptor received from the socket is stored in the slot, then the callback
`read_fds(conn, sd)` runs. -/
def io_recv_fd_done (k : wire_consts) (msgname : Int → String) (cb : callbacks)
    (ld : lightningd) (conn : Nat) (sd : subd) (slot : Nat) (fd : Int) : io_result :=
  read_fds k msgname cb ld conn { sd with fds_in := sd.fds_in.map (fun l => l.set slot fd) }

/-- The io loop while descriptors arrive, one receive step for each: a descriptor completes
the pending `io_recv_fd` plan of the last callback; `none` when a descriptor arrives and
the last callback did not ask for one. -/
def recv_fds (k : wire_consts) (msgname : Int → String) (cb : callbacks)
    (ld : lightningd) (conn : Nat) : List Int → io_result → Option io_result
  | [], r => some r
  | fd :: rest, r =>
    match r.out, r.sd with
    | Except.ok (io_plan.io_recv_fd slot), some sd =>
      recv_fds k msgname cb ld conn rest (io_recv_fd_done k msgname cb ld conn sd slot fd)
    | _, _ => none

/-- The subdaemon once `read_fds` has had all the descriptors `fds` stored in `sd->fds_in`. -/
def sd_fds_read (sd : subd) (fds : List Int) : subd :=
  { sd with fds_in := some fds, num_fds_in_read := fds.length }

/-- The subdaemon while `read_fds` waits for descriptor number `i` of `n`: the first `i`
slots are filled from `fds` and the counter is already past the slot being read. -/
def sd_fds_wait (sd : subd) (fds : List Int) (n i : Nat) : subd :=
  { sd with fds_in := some (fds.take i ++ List.replicate (n - i) (-1)),
            num_fds_in_read := i + 1 }

/-! ## `destroy_channel`, the destructor of a channel -/

/-- The result of `destroy_channel`: the channel as it is left, the list
`channel->peer->channels` afterwards, the trace, and whether `tal_free(channel->peer)`
ran. -/
structure destroy_result where
  destroyed : channel
  channels : List channel
  trace : List chan_event
  peer_freed : Bool
  deriving DecidableEq, Repr

/-- The function `destroy_channel(channel)`, where `channels` is the list
`channel->peer->channels` and `channel` its entry number `idx`. `list_del_from` on an entry
that is not in the list is undefined. -/
def destroy_channel (channels : List channel) (idx : Nat) : Except abort destroy_result :=
  match channels[idx]? with
  | none => Except.error (abort.undefined "list_del_from: the channel is not in the list")
  | some c =>
    let r := channel_set_owner c none
    let channels1 := channels.eraseIdx idx
    Except.ok { destroyed := r.1, channels := channels1, trace := r.2,
                peer_freed := channels1.isEmpty }

/-! ## common/wireaddr.c: reading an address from the wire -/

/-- The pair `*cursor`, `*max` of the wire readers: the `*max` bytes at `*cursor`; `none`
once `fromwire_fail` has set the cursor to `NULL` and `*max` to 0. -/
abbrev wire_cursor := Option (List u8)

/-- The value of `*max`. -/
def wire_max (c : wire_cursor) : Nat :=
  tal_count c

/-- Modelled from the spec: `fromwire_fail` of wire/fromwire.c (not under src/): the cursor
becomes `NULL` and `*max` 0. -/
def fromwire_fail (_c : wire_cursor) : wire_cursor :=
  none

/-- Modelled from the spec: `fromwire(cursor, max, copy, n)` of wire/fromwire.c (not under
src/): with fewer than `n` bytes left it zeroes the `n` bytes of `copy` and fails the
cursor; otherwise it copies `n` bytes and advances. The result is the cursor and the `n`
bytes stored at `copy`. -/
def fromwire (c : wire_cursor) (n : Nat) : wire_cursor × List u8 :=
  if wire_max c < n then (fromwire_fail c, List.replicate n 0)
  else (c.map (fun bytes => bytes.drop n), (c.getD []).take n)

/-- Modelled from the spec: `fromwire_u8` of wire/fromwire.c (not under src/): one byte, 0
when the read fails. -/
def fromwire_u8 (c : wire_cursor) : wire_cursor × Nat :=
  let r := fromwire c 1
  match r.1, r.2 with
  | some _, [b] => (r.1, b.val)
  | _, _ => (r.1, 0)

/-- Modelled from the spec: `fromwire_u16` of wire/fromwire.c (not under src/): two bytes,
big-endian, 0 when the read fails. -/
def fromwire_u16 (c : wire_cursor) : wire_cursor × Nat :=
  let r := fromwire c 2
  match r.1, r.2 with
  | some _, [b0, b1] => (r.1, b0.val * 256 + b1.val)
  | _, _ => (r.1, 0)

/-- Modelled from the spec: `fromwire_bool` of wire/fromwire.c (not under src/): one byte;
false when the read fails; a byte other than 0 and 1 fails the cursor and converts to
true. -/
def fromwire_bool (c : wire_cursor) : wire_cursor × Bool :=
  let r := fromwire c 1
  match r.1, r.2 with
  | some _, [b] =>
    if b.val ≠ 0 ∧ b.val ≠ 1 then (fromwire_fail r.1, true) else (r.1, decide (b.val ≠ 0))
  | _, _ => (r.1, false)

/-- Modelled from the spec: `fromwire_u8_array` of wire/fromwire.c (not under src/): it is
`fromwire` on an array of `num` bytes. -/
def fromwire_u8_array (c : wire_cursor) (num : Nat) : wire_cursor × List u8 :=
  fromwire c num

/-- The constant `TOR_V3_ADDRLEN` of wireaddr.h, the size of `addr->addr`. -/
def TOR_V3_ADDRLEN : Nat := 37

/-- The C `struct wireaddr`: `type` is the value of the `enum wire_addr_type`, `addr` the
bytes stored from the front of the array `addr->addr` by the call. -/
structure wireaddr where
  type : Nat
  addrlen : Nat
  addr : List u8
  port : Nat
  deriving DecidableEq, Repr

/-- The `switch (addr->type)` of `fromwire_wireaddr`: the value stored in the `u8` field
`addr->addrlen`, `none` for the `default:` case. For the padding type the operand is
`(u8)*max`, the subtraction is done in `int` and the result converted back to `u8`. -/
def wireaddr_addrlen (type : Nat) (max : Nat) : Option Nat :=
  if type = 1 then some 4
  else if type = 2 then some 16
  else if type = 0 then some ((((max % 256 : Nat) : Int) - 2) % 256).toNat
  else none

/-- The result of `fromwire_wireaddr`: the cursor, the address, and the value returned. -/
structure wireaddr_result where
  cursor : wire_cursor
  addr : wireaddr
  ret : Bool
  deriving DecidableEq, Repr

/-- The function `fromwire_wireaddr(cursor, max, addr)`. `fromwire` stores `addr->addrlen`
bytes at `addr->addr` whether it succeeds (the bytes read) or fails (zeroes); storing more
than the `TOR_V3_ADDRLEN` bytes of the array is undefined. In the `default:` case the
other fields are not written and are 0 here. -/
def fromwire_wireaddr (c : wire_cursor) : Except abort wireaddr_result :=
  let t := fromwire_u8 c
  match wireaddr_addrlen t.2 (wire_max t.1) with
  | none =>
    Except.ok { cursor := t.1, addr := { type := t.2, addrlen := 0, addr := [], port := 0 },
                ret := false }
  | some addrlen =>
    if TOR_V3_ADDRLEN < addrlen then
      Except.error (abort.undefined "fromwire writes addr->addrlen bytes past addr->addr")
    else
      let a := fromwire t.1 addrlen
      let p := fromwire_u16 a.1
      Except.ok { cursor := p.1,
                  addr := { type := t.2, addrlen := addrlen, addr := a.2, port := p.2 },
                  ret := p.1.isSome }

/-- The C `struct wireaddr_or_sockname`; `sockname` holds the bytes of `u.sockname` and
`wireaddr` is `u.wireaddr`, each when it is the member written. -/
structure wireaddr_or_sockname where
  is_sockname : Bool
  sockname : List u8
  wireaddr : Option wireaddr
  deriving DecidableEq, Repr

/-- The result of `fromwire_wireaddr_or_sockname`. -/
structure sockname_result where
  cursor : wire_cursor
  addr : wireaddr_or_sockname
  ret : Bool
  deriving DecidableEq, Repr

/-- The function `fromwire_wireaddr_or_sockname(cursor, max, addr)`. The size of
`addr->u.sockname` is set in a header that is not under src/, so it is the parameter
`sockname_size`; `memchr(addr->u.sockname, 0, sizeof(addr->u.sockname))` is the test that
the array holds a zero byte. -/
def fromwire_wireaddr_or_sockname (sockname_size : Nat) (c : wire_cursor) :
    Except abort sockname_result :=
  let b := fromwire_bool c
  if b.2 then
    let s := fromwire_u8_array b.1 sockname_size
    let c2 := if s.2.contains 0 then s.1 else fromwire_fail s.1
    Except.ok { cursor := c2,
                addr := { is_sockname := true, sockname := s.2, wireaddr := none },
                ret := c2.isSome }
  else
    match fromwire_wireaddr b.1 with
    | Except.error a => Except.error a
    | Except.ok r =>
      Except.ok { cursor := r.cursor,
                  addr := { is_sockname := false, sockname := [], wireaddr := some r.addr },
                  ret := r.ret }

/-! ## common/wireaddr.c: parsing an address given as text -/

/-- Modelled from the spec: `strchr(s, c)` of the C library (not under src/): the position
of the first `c` in the string, `none` for `NULL`. -/
def strchr (s : List Char) (c : Char) : Option Nat :=
  if s.indexOf c < s.length then some (s.indexOf c) else none

/-- Modelled from the spec: `strrchr(s, c)` of the C library (not under src/): the position
of the last `c` in the string, `none` for `NULL`. -/
def strrchr (s : List Char) (c : Char) : Option Nat :=
  if s.reverse.indexOf c < s.length then some (s.length - 1 - s.reverse.indexOf c) else none

/-- Modelled from the spec: `isspace` of the C library (not under src/) in the C locale:
space, tab, newline, vertical tab, form feed, carriage return. -/
def cisspace (c : Char) : Bool :=
  decide (c.toNat = 32 ∨ (9 ≤ c.toNat ∧ c.toNat ≤ 13))

/-- The decimal digits at the front of a string, read left to right onto `acc`, and the
rest of the string. -/
def strtol_digits : List Char → Nat → Nat × List Char
  | [], acc => (acc, [])
  | c :: rest, acc =>
    if c.isDigit then strtol_digits rest (acc * 10 + (c.toNat - 48)) else (acc, c :: rest)

/-- Modelled from the spec: `strtol(nptr, &endp, 10)` of the C library (not under src/),
with a 64-bit `long`: white space, an optional sign, decimal digits; the value, clamped to
the range of `long`, and the rest of the string at `endp`; with no digit the value is 0 and
`endp` is `nptr`. -/
def strtol (nptr : List Char) : Int × List Char :=
  let t := nptr.dropWhile cisspace
  let neg := t.head? = some '-'
  let u := if t.head? = some '-' ∨ t.head? = some '+' then t.drop 1 else t
  if (u.head?.map Char.isDigit) = some true then
    let r := strtol_digits u 0
    let v : Int := if neg then -(r.1 : Int) else (r.1 : Int)
    (max (-(2 ^ 63)) (min v (2 ^ 63 - 1)), r.2)
  else (0, nptr)

/-- What `separate_address_and_port` leaves: the value returned, `*addr` (`none` when it
was not written) and `*port`. -/
structure separated where
  ret : Bool
  addr : Option String
  port : Nat
  deriving DecidableEq, Repr

/-- The function `separate_address_and_port(ctx, arg, &addr, &port)`; `port` is `*port`
at the call. The result of `strtol` is converted to `u16` by the store into `*port`. -/
def separate_address_and_port (arg : String) (port : Nat) : separated :=
  let s := arg.data
  let with_port (addr : String) (portcolon : Option (List Char)) : separated :=
    match portcolon with
    | some after =>
      let r := strtol after
      let p := (r.1 % 65536).toNat
      { ret := decide (p ≠ 0) && decide (r.2 = []), addr := some addr, port := p }
    | none => { ret := true, addr := some addr, port := port }
  if strstarts arg "[" then
    match strchr s ']' with
    | none => { ret := false, addr := none, port := port }
    | some e =>
      with_port (String.mk ((s.drop 1).take (e - 1)))
        ((strchr (s.drop (e + 1)) ':').map (fun i => s.drop (e + 1 + i + 1)))
  else
    match strchr s ':' with
    | some i =>
      if some i ≠ strrchr s ':' ∨ i = 0 ∨ s.drop (i + 1) = [] then with_port arg none
      else with_port (String.mk (s.take i)) (some (s.drop (i + 1)))
    | none => with_port arg none

/-- The first address `getaddrinfo` found, by its `ai_family`. -/
inductive addrinfo where
  | af_inet (sin_addr : List u8)
  | af_inet6 (sin6_addr : List u8)
  | other
  deriving DecidableEq, Repr

/-- The name resolution of the C library, which wireaddr.c calls: `inet_pton` for
`AF_INET` and for `AF_INET6` (`none` when the result is not 1) and `getaddrinfo` on the
host name and the port printed with `%d` (the error text of `gai_strerror` on failure). -/
structure resolver where
  inet_pton4 : String → Option (List u8)
  inet_pton6 : String → Option (List u8)
  getaddrinfo : String → Nat → Except String addrinfo

/-- What `parse_wireaddr` and `wireaddr_from_hostname` leave: the value returned, `*addr`
when the call filled it in, and `*err_msg` (`none` for `NULL`). -/
structure parse_result where
  ret : Bool
  addr : Option wireaddr
  err_msg : Option String
  deriving DecidableEq, Repr

/-- The function `wireaddr_from_hostname(addr, hostname, port, err_msg)`; `err_msg` is
`*err_msg` at the call and `want_err` says that the pointer `err_msg` is not `NULL`. -/
def wireaddr_from_hostname (os : resolver) (hostname : String) (port : Nat)
    (want_err : Bool) (err_msg : Option String) : parse_result :=
  match os.getaddrinfo hostname port with
  | Except.error e =>
    { ret := false, addr := none, err_msg := if want_err then some e else err_msg }
  | Except.ok (addrinfo.af_inet a) =>
    { ret := true, addr := some { type := 1, addrlen := 4, addr := a, port := port },
      err_msg := err_msg }
  | Except.ok (addrinfo.af_inet6 a) =>
    { ret := true, addr := some { type := 2, addrlen := 16, addr := a, port := port },
      err_msg := err_msg }
  | Except.ok addrinfo.other => { ret := false, addr := none, err_msg := err_msg }

/-- The label `finish:` of `parse_wireaddr`. -/
def parse_wireaddr_finish (want_err : Bool) (r : parse_result) : parse_result :=
  if !r.ret && want_err && r.err_msg.isNone then
    { r with err_msg := some "Error parsing hostname" }
  else r

/-- The function `parse_wireaddr(arg, addr, defport, err_msg)`; `want_err` says that the
pointer `err_msg` is not `NULL`. -/
def parse_wireaddr (os : resolver) (arg : String) (defport : Nat) (want_err : Bool) :
    parse_result :=
  let sep := separate_address_and_port arg defport
  if !sep.ret then
    parse_wireaddr_finish want_err { ret := false, addr := none, err_msg := none }
  else
    let ip0 := sep.addr.getD ""
    let ip := if ip0 = "localhost" then "127.0.0.1"
              else if ip0 = "ip6-localhost" then "::1" else ip0
    match os.inet_pton4 ip with
    | some v4 =>
      parse_wireaddr_finish want_err
        { ret := true, addr := some { type := 1, addrlen := 4, addr := v4, port := sep.port },
          err_msg := none }
    | none =>
      match os.inet_pton6 ip with
      | some v6 =>
        parse_wireaddr_finish want_err
          { ret := true,
            addr := some { type := 2, addrlen := 16, addr := v6, port := sep.port },
            err_msg := none }
      | none =>
        parse_wireaddr_finish want_err
          (wireaddr_from_hostname os ip sep.port want_err none)

/-! ## lightningd/jsonrpc.c -/

/-- Modelled from the spec: the error codes of lightningd/jsonrpc_errors.h (not under
src/), taken as parameters. -/
structure rpc_consts where
  JSONRPC2_INVALID_REQUEST : Int
  JSONRPC2_METHOD_NOT_FOUND : Int
  JSONRPC2_INVALID_PARAMS : Int
  deriving DecidableEq, Repr

/-- The token types of jsmn.h. -/
inductive jsmntype where
  | JSMN_UNDEFINED
  | JSMN_OBJECT
  | JSMN_ARRAY
  | JSMN_STRING
  | JSMN_PRIMITIVE
  deriving DecidableEq, Repr

/-- A `jsmntok_t` together with the characters `buffer[start .. end)` it spans. -/
structure jsmntok where
  type : jsmntype
  text : String
  deriving DecidableEq, Repr

/-- Modelled from the spec: `json_tok_contents` and `json_tok_len` of lightningd/json.c
(not under src/): the characters of the token as they stand in the buffer, which for a
string token include the two quotation marks around it. -/
def json_tok_full (t : jsmntok) : String :=
  if t.type = jsmntype.JSMN_STRING then
    String.singleton (Char.ofNat 34) ++ t.text ++ String.singleton (Char.ofNat 34)
  else t.text

/-- Modelled from the spec: `json_tok_streq` of lightningd/json.c (not under src/): the
token is a string token whose characters are those of `str`. -/
def json_tok_streq (t : jsmntok) (str : String) : Bool :=
  decide (t.type = jsmntype.JSMN_STRING) && decide (t.text = str)

/-- Modelled from the spec: a request as `parse_request` looks at it: the type of `tok[0]`
and what `json_get_member` of lightningd/json.c (not under src/) finds for the labels
`method`, `params` and `id` (`none` for `NULL`). -/
structure request where
  type : jsmntype
  method : Option jsmntok
  params : Option jsmntok
  id : Option jsmntok
  deriving DecidableEq, Repr

/-- The fields of `struct json_command` that jsonrpc.c reads; `name` can be `NULL`, and
`dispatch` is the address of the handler. -/
structure json_command where
  name : Option String
  dispatch : Nat
  deprecated : Bool
  deriving DecidableEq, Repr

/-- The C `struct command`: `addr` is the address of the object, `jcon` says that
`cmd->jcon` is not `NULL`. -/
structure command where
  addr : Nat
  jcon : Bool
  pending : Bool
  id : String
  deriving DecidableEq, Repr

/-- The text queued by `json_done`, by the parts `tal_fmt` puts into it: an error response
with code, message, optional data and id, or a result with its id. -/
inductive json_output where
  | error (code : Int) (message : String) (data : Option String) (id : String)
  | result (result : String) (id : String)
  deriving DecidableEq, Repr

/-- The lists of `struct json_connection`: the commands in flight and the output queue. -/
structure json_connection where
  commands : List command
  output : List json_output
  deriving DecidableEq, Repr

/-- What leaves jsonrpc.c during one call, in program order. -/
inductive rpc_event where
  | log_debug (fmt : String) (arg : String)
  | tal_free_command (addr : Nat)
  | io_wake
  | db_begin_transaction
  | dispatch (fn : Nat) (cmd : Nat) (params : jsmntok)
  | db_commit_transaction
  deriving DecidableEq, Repr

/-- What a command handler does with the command before it returns: it completes it with
`command_success`, fails it with `command_fail_detailed` (`command_fail` is code -1),
calls `command_still_pending`, or none of these. -/
inductive handler_outcome where
  | success (result : String)
  | fail (code : Int) (message : String)
  | still_pending
  | nothing
  deriving DecidableEq, Repr

/-- The result of a jsonrpc.c function: the connection afterwards, the trace, and whether
the call returned or the process ended. -/
structure rpc_result where
  jcon : json_connection
  trace : List rpc_event
  out : Except abort Unit

/-- The function `find_cmd(buffer, tok)` over the command list of `get_cmdlist()`. -/
def find_cmd (cmdlist : List json_command) (tok : jsmntok) : Option json_command :=
  cmdlist.find? (fun cmd =>
    match cmd.name with
    | some name => json_tok_streq tok name
    | none => false)

/-- The function `cmd_in_jcon(jcon, cmd)`. -/
def cmd_in_jcon (jcon : json_connection) (cmd : command) : Bool :=
  jcon.commands.any (fun i => decide (i.addr = cmd.addr))

/-- The destructor `destroy_cmd(cmd)`, run by `tal_free(cmd)`. -/
def destroy_cmd (jcon : json_connection) (cmd : command) : json_connection :=
  if cmd.jcon then
    { jcon with commands := jcon.commands.eraseP (fun i => decide (i.addr = cmd.addr)) }
  else jcon

/-- The function `json_done(jcon, cmd, json)`; `cmd` can be `NULL`. -/
def json_done (jcon : json_connection) (cmd : Option command) (json : json_output) :
    json_connection × List rpc_event :=
  match cmd with
  | some c =>
    ({ destroy_cmd jcon c with output := (destroy_cmd jcon c).output ++ [json] },
     [rpc_event.tal_free_command c.addr, rpc_event.io_wake])
  | none => ({ jcon with output := jcon.output ++ [json] }, [rpc_event.io_wake])

/-- The function `connection_complete_error(jcon, cmd, id, errmsg, code, data)`; the
message is kept as given to `json_escape`. -/
def connection_complete_error (jcon : json_connection) (cmd : Option command)
    (id : Option String) (errmsg : String) (code : Int) (data : Option String) :
    rpc_result :=
  match id with
  | none => { jcon := jcon, trace := [], out := Except.error (abort.assertion "id != NULL") }
  | some id =>
    let r := json_done jcon cmd (json_output.error code errmsg data id)
    { jcon := r.1, trace := r.2, out := Except.ok () }

/-- The function `connection_complete_ok(jcon, cmd, id, result)`. -/
def connection_complete_ok (jcon : json_connection) (cmd : Option command)
    (id : Option String) (result : String) : rpc_result :=
  match id with
  | none => { jcon := jcon, trace := [], out := Except.error (abort.assertion "id != NULL") }
  | some id =>
    let r := json_done jcon cmd (json_output.result result id)
    { jcon := r.1, trace := r.2, out := Except.ok () }

/-- The function `command_fail_v(cmd, code, data, fmt, ap)` with the formatted text
`error`; `command_fail_detailed` passes its arguments on to it. -/
def command_fail_detailed (jcon : json_connection) (cmd : command) (code : Int)
    (data : Option String) (error : String) : rpc_result :=
  if !cmd.jcon then
    { jcon := jcon,
      trace := [rpc_event.log_debug "Command failed after jcon close" "",
                rpc_event.tal_free_command cmd.addr],
      out := Except.ok () }
  else if !cmd_in_jcon jcon cmd then
    { jcon := jcon, trace := [rpc_event.log_debug "Failing: %s" error],
      out := Except.error (abort.assertion "cmd_in_jcon(jcon, cmd)") }
  else
    let r := connection_complete_error jcon (some cmd) (some cmd.id) error code data
    { r with trace := rpc_event.log_debug "Failing: %s" error :: r.trace }

/-- The function `command_success(cmd, result)`. -/
def command_success (jcon : json_connection) (cmd : command) (result : String) :
    rpc_result :=
  if !cmd.jcon then
    { jcon := jcon,
      trace := [rpc_event.log_debug "Command returned result after jcon close" "",
                rpc_event.tal_free_command cmd.addr],
      out := Except.ok () }
  else if !cmd_in_jcon jcon cmd then
    { jcon := jcon, trace := [],
      out := Except.error (abort.assertion "cmd_in_jcon(jcon, cmd)") }
  else
    let r := connection_complete_ok jcon (some cmd) (some cmd.id) result
    match r.out with
    | Except.ok _ => { r with trace := r.trace ++ [rpc_event.log_debug "Success" ""] }
    | Except.error _ => r

/-- The function `json_command_malformed(jcon, id, error)`. -/
def json_command_malformed (k : rpc_consts) (jcon : json_connection) (id : String)
    (error : String) : rpc_result :=
  connection_complete_error jcon none (some id) error k.JSONRPC2_INVALID_REQUEST none

/-- The call `cmd->dispatch(c, jcon->buffer, params)` between the two store calls, and the
check after it. What the handler does is `handler`. -/
def parse_request_dispatch (handler : Nat → command → jsmntok → handler_outcome)
    (jcon : json_connection) (c : command) (cmd : json_command) (params : jsmntok) :
    rpc_result :=
  let tr := [rpc_event.db_begin_transaction, rpc_event.dispatch cmd.dispatch c.addr params]
  let r : rpc_result :=
    match handler cmd.dispatch c params with
    | handler_outcome.success result => command_success jcon c result
    | handler_outcome.fail code message => command_fail_detailed jcon c code none message
    | handler_outcome.still_pending =>
      let mark (i : command) : command :=
        if i.addr = c.addr then { i with pending := true } else i
      { jcon := { jcon with commands := jcon.commands.map mark },
        trace := [], out := Except.ok () }
    | handler_outcome.nothing => { jcon := jcon, trace := [], out := Except.ok () }
  match r.out with
  | Except.error a => { jcon := r.jcon, trace := tr ++ r.trace, out := Except.error a }
  | Except.ok _ =>
    let tr2 := tr ++ r.trace ++ [rpc_event.db_commit_transaction]
    if r.jcon.commands.any (fun i => decide (i.addr = c.addr) && !i.pending) then
      { jcon := r.jcon, trace := tr2, out := Except.error (abort.assertion "c->pending") }
    else { jcon := r.jcon, trace := tr2, out := Except.ok () }

/-- The function `parse_request(jcon, tok)`; `c_addr` is the address `tal` gives the new
command and `deprecated_apis` the global option. -/
def parse_request (k : rpc_consts) (cmdlist : List json_command) (deprecated_apis : Bool)
    (handler : Nat → command → jsmntok → handler_outcome) (jcon : json_connection)
    (req : request) (c_addr : Nat) : rpc_result :=
  if req.type ≠ jsmntype.JSMN_OBJECT then
    json_command_malformed k jcon "null" "Expected \x7b\x7d for json command"
  else
    match req.id with
    | none => json_command_malformed k jcon "null" "No id"
    | some id =>
      if id.type ≠ jsmntype.JSMN_STRING ∧ id.type ≠ jsmntype.JSMN_PRIMITIVE then
        json_command_malformed k jcon "null" "Expected string/primitive for id"
      else
        let c : command :=
          { addr := c_addr, jcon := true, pending := false, id := json_tok_full id }
        let jcon1 : json_connection := { jcon with commands := c :: jcon.commands }
        match req.method, req.params with
        | none, _ =>
          command_fail_detailed jcon1 c k.JSONRPC2_INVALID_REQUEST none "No method"
        | some _, none =>
          command_fail_detailed jcon1 c k.JSONRPC2_INVALID_REQUEST none "No params"
        | some method, some params =>
          if method.type ≠ jsmntype.JSMN_STRING then
            command_fail_detailed jcon1 c k.JSONRPC2_INVALID_REQUEST none
              "Expected string for method"
          else
            match find_cmd cmdlist method with
            | none =>
              command_fail_detailed jcon1 c k.JSONRPC2_METHOD_NOT_FOUND none
                ("Unknown command '" ++ method.text ++ "'")
            | some cmd =>
              if cmd.deprecated && !deprecated_apis then
                command_fail_detailed jcon1 c k.JSONRPC2_METHOD_NOT_FOUND none
                  ("Command '" ++ method.text ++ "' is deprecated")
              else parse_request_dispatch handler jcon1 c cmd params

/-- Modelled from the spec: `char_to_hex` of ccan/str/hex (not under src/): the value of a
hexadecimal digit, `none` for any other character. -/
def char_to_hex (c : Char) : Option Nat :=
  if 48 ≤ c.toNat ∧ c.toNat ≤ 57 then some (c.toNat - 48)
  else if 97 ≤ c.toNat ∧ c.toNat ≤ 102 then some (c.toNat - 97 + 10)
  else if 65 ≤ c.toNat ∧ c.toNat ≤ 70 then some (c.toNat - 65 + 10)
  else none

/-- Modelled from the spec: `hex_decode(str, slen, buf, bufsize)` of ccan/str/hex (not
under src/): it decodes pairs of digits while more than one character is left and fails on
a character that is no digit or when the buffer is full; it succeeds when the string and
the buffer end together. The result is the value returned and the bytes stored. -/
def hex_decode : List Char → Nat → Bool × List u8
  | c1 :: c2 :: rest, bufsize =>
    match char_to_hex c1, char_to_hex c2 with
    | some v1, some v2 =>
      match bufsize with
      | 0 => (false, [])
      | n + 1 =>
        let r := hex_decode rest n
        (r.1, Fin.ofNat (v1 * 16 + v2) :: r.2)
    | _, _ => (false, [])
  | [_], _ => (false, [])
  | [], bufsize => (decide (bufsize = 0), [])

/-- The function `json_param_sha256(ctx, buffer, tok, sha256)`: the text returned (`none`
for `NULL`) and the bytes stored in `**sha256`; `tok` holds the characters of the token and
`sizeof(struct sha256)` is 32. -/
def json_param_sha256 (tok : jsmntok) : Option String × List u8 :=
  let r := hex_decode tok.text.data 32
  if !r.1 then (none, r.2) else (some "Invalid sha256", r.2)

/-- The function `handle_param` for a parameter with the parse function `fn`, which gives
its error text or `none` for `NULL`. The result is `none` where `handle_param` returns
true; otherwise the code and text handed to `command_fail_detailed`. -/
def handle_param (k : rpc_consts) (paramname : String) (compulsory : Bool)
    (t : Option jsmntok) (fn : jsmntok → Option String) : Option (Int × String) :=
  match t with
  | none =>
    if compulsory then
      some (k.JSONRPC2_INVALID_PARAMS, "Missing '" ++ paramname ++ "' parameter")
    else none
  | some tok =>
    match fn tok with
    | some err =>
      some (k.JSONRPC2_INVALID_PARAMS,
            "'" ++ paramname ++ "' " ++ err ++ " '" ++ tok.text ++ "'")
    | none => none

/-! ## Scenarios: sequences of calls -/

/-- The arguments of one `add_req` call. -/
structure req_args where
  ctx : Option Nat
  type : Int
  num_fds_in : Nat
  replycb : reply_fn
  replycb_data : Nat
  deriving DecidableEq, Repr

/-- The request `add_req` builds from its arguments. -/
def req_of (a : req_args) : subd_req :=
  { type := a.type, replycb := a.replycb, replycb_data := a.replycb_data,
    num_reply_fds := a.num_fds_in, disabler := a.ctx }

/-- Calling `add_req` once per element, in order, on the same subdaemon. -/
def add_reqs (k : wire_consts) (msgname : Int → String) :
    List subd_req → List req_args → Except abort (List subd_req)
  | reqs, [] => Except.ok reqs
  | reqs, a :: rest =>
    match add_req k msgname a.ctx reqs a.type a.num_fds_in a.replycb a.replycb_data with
    | Except.ok reqs1 => add_reqs k msgname reqs1 rest
    | Except.error e => Except.error e

/-- Looking up each incoming type with `get_req`, in order; a matched request is unlinked
(the `list_del_init` of `sd_msg_reply`) before the next lookup. The result lists, per
incoming type, the position and the entry `get_req` returned, `none` for `NULL`. -/
def match_replies (k : wire_consts) (msgname : Int → String) :
    List subd_req → List Int → List (Option (Nat × subd_req))
  | _, [] => []
  | reqs, t :: ts =>
    match get_req k msgname t reqs with
    | none => none :: match_replies k msgname reqs ts
    | some f => some (f.idx, f.sr) :: match_replies k msgname (f.reqs.eraseIdx f.idx) ts

/-- Callbacks for the witnesses: they leave the subdaemon as it is and ask for no fds. -/
def sample_callbacks : callbacks :=
  { replycb := fun _ _ _ _ sd => some sd,
    msgcb := fun _ _ _ sd => (some sd, 0) }

/-- A subdaemon for the witnesses: no peer, no pending request, nothing read yet. -/
def sample_subd : subd :=
  { pid := 42, name := "lightning_channeld", must_not_exit := false, msgcb := some 9,
    peer := none, conn := some 1, msg_in := none, fds_in := none, num_fds_in_read := 0,
    reqs := [], outq := [] }

/-- The request of type 1 (`WIRE_A`) used in the witnesses. -/
def sample_req_a : subd_req :=
  { type := 1, replycb := reply_fn.fn 7, replycb_data := 70, num_reply_fds := 0,
    disabler := some 5 }

/-- The request of type 2 (`WIRE_B`) used in the witnesses. -/
def sample_req_b : subd_req :=
  { type := 2, replycb := reply_fn.fn 8, replycb_data := 80, num_reply_fds := 0,
    disabler := none }

/-- The witness subdaemon with requests 1 and 2 pending, in that order, after it has read
the message of type 102 (the reply to request 2) with an empty payload. -/
def sample_subd_ab : subd :=
  { sample_subd with msg_in := some [0, 102], reqs := [sample_req_a, sample_req_b] }

/-- A build without `DEVELOPER`. -/
def sample_ld : lightningd :=
  { dev := none, gossip := 3 }

/-- A `DEVELOPER` build run with `--dev-fail-on-subdaemon-fail`. -/
def sample_ld_dev_fail : lightningd :=
  { dev := some { dev_disconnect_fd := -1, dev_subdaemon_fail := true, no_reconnect := false },
    gossip := 3 }

/-- An event that hands the message on: a call of a reply callback, of the dispatch
callback `msgcb`, or of `peer_fail_permanent`. -/
def event.is_dispatch : event → Bool
  | event.replycb _ _ _ _ => true
  | event.msgcb _ _ _ => true
  | event.peer_fail_permanent _ _ => true
  | _ => false

/-- The witness subdaemon with a descriptor array of two fds and request 1 pending, whose
owner context 5 is then destroyed. -/
def sample_subd_fds : subd :=
  { sample_subd with msg_in := some [0, 101], fds_in := some [11, 12],
                     reqs := tal_free_ctx 5 [sample_req_a] }

/-- The witness subdaemon after it has read a trace message (type 0x7FFF) whose payload is
the single byte 7, which is not printable. -/
def sample_subd_trace : subd :=
  { sample_subd with msg_in := some [0x7F, 0xFF, 7] }

/-- A store-save call: `wallet_channel_save`. -/
def chan_event.is_save : chan_event → Bool
  | chan_event.wallet_channel_save _ => true
  | _ => false

/-- An event that disposes of the channel: the on-chain handoff `drop_to_chain`, the store
delete `wallet_channel_delete`, or the `tal_free(channel)` of `free_channel`. -/
def chan_event.is_disposal : chan_event → Bool
  | chan_event.drop_to_chain _ => true
  | chan_event.wallet_channel_delete _ _ => true
  | chan_event.tal_free_channel _ => true
  | _ => false

/-- The release of the old owner in `channel_set_owner`: `subd_release_channel`. -/
def chan_event.is_release : chan_event → Bool
  | chan_event.subd_release_channel _ _ => true
  | _ => false

/-- A reconnect request: a `gossipctl_reach_peer` message sent to a subdaemon. -/
def chan_event.is_reach_peer : chan_event → Bool
  | chan_event.subd_send_msg _ (gossip_msg.gossipctl_reach_peer _) => true
  | _ => false

/-- A channel for the witnesses: state 3, owned by subdaemon 17, with a short channel id
and a pending opening command. -/
def sample_channel : channel :=
  { dbid := 1, peer := { id := 99, dbid := 4, direction := 0 }, first_blocknum := 500000,
    state := 3, local_shutdown_idx := -1, owner := some 17, opening_cmd := some 21,
    scid := some 1234, error := none }

/-- For the witnesses: a channel persists from state 2 on. -/
def sample_persisted (state : Nat) : Bool :=
  decide (2 ≤ state)

/-- For the witnesses: the states 2 to 5 are the active ones. -/
def sample_active (state : Nat) : Bool :=
  decide (2 ≤ state ∧ state ≤ 5)

/-- A `DEVELOPER` build run without a dev-disconnect file and with reconnects enabled. -/
def sample_ld_dev : lightningd :=
  { dev := some { dev_disconnect_fd := -1, dev_subdaemon_fail := false, no_reconnect := false },
    gossip := 3 }

/-- The failing of a pending command: `command_fail`. -/
def chan_event.is_command_fail : chan_event → Bool
  | chan_event.command_fail _ _ => true
  | _ => false

/-- The witness channel with a protocol error already recorded. -/
def sample_channel_err : channel :=
  { sample_channel with error := some { channel_id := 0, data := "first" } }

/-- A failure raised on a peer: `peer_fail_permanent` or `peer_fail_transient`. -/
def event.is_peer_fail : event → Bool
  | event.peer_fail_permanent _ _ => true
  | event.peer_fail_transient _ _ => true
  | _ => false

/-- Whether a call ended the process through `errx`. -/
def ended_by_errx (out : Except abort Unit) : Bool :=
  match out with
  | Except.error (abort.errx _) => true
  | _ => false

/-- For the witnesses: the wait-status macros in the encoding of Linux, where the low seven
bits hold the terminating signal (0 for a normal exit, 127 for a stopped process) and the
next eight the exit status. -/
def sample_wait : wait_macros :=
  { WIFEXITED := fun s => decide (s % 128 = 0),
    WEXITSTATUS := fun s => (s / 256) % 256,
    WIFSIGNALED := fun s => decide (1 ≤ s % 128 ∧ s % 128 ≤ 126),
    WTERMSIG := fun s => s % 128 }

/-- The witness subdaemon when it owns the peer 4. -/
def sample_subd_peer : subd :=
  { sample_subd with peer := some 4 }

/-- A call into the store: `db_begin_transaction` or `db_commit_transaction`. -/
def event.is_db : event → Bool
  | event.db_begin_transaction => true
  | event.db_commit_transaction => true
  | _ => false

/-- A trace that is one transaction: a begin, events that are not store calls, a commit. -/
def one_transaction (tr : List event) : Prop :=
  ∃ mid, tr = event.db_begin_transaction :: mid ++ [event.db_commit_transaction]
    ∧ mid.filter event.is_db = []

/-- An io callback's result keeps to one transaction: if the call returned a plan, its
trace is one transaction. -/
def commits_once (r : io_result) : Prop :=
  ∀ plan, r.out = Except.ok plan → one_transaction r.trace

/-- The witness subdaemon when it owns peer 4 and has read the failure status 0x8005
(`STATUS_FAIL_PEER_BAD`) with the payload "A". -/
def sample_subd_peer_bad : subd :=
  { sample_subd with peer := some 4, msg_in := some [0x80, 5, 65] }

/-- The witness subdaemon when it owns peer 4 and has read the failure status 0x8003
(`STATUS_FAIL_INTERNAL_ERROR`) with the payload "A". -/
def sample_subd_internal : subd :=
  { sample_subd with peer := some 4, msg_in := some [0x80, 3, 65] }

/-- For the witnesses: the child process 1234 could not run the executable and reported
errno 2 on the pipe. -/
def sample_exec_failed : spawn_os :=
  spawn_os.exec_failed
    { childmsg0 := 5, childmsg1 := 6, execfail0 := 7, execfail1 := 8 } 1234 2

/-- The level of a logging event, `none` for any other event. -/
def event.level : event → Option log_level
  | event.log level _ _ => some level
  | event.log_malformed _ _ => some log_level.broken
  | _ => none

/-- The witness subdaemon with one pending request of type 1 that expects two descriptors
with its reply, after it has read the reply (type 101). -/
def sample_subd_expects : subd :=
  { sample_subd with msg_in := some [0, 101],
                     reqs := [{ sample_req_a with num_reply_fds := 2 }] }

/-- The witness subdaemon after it has read a message of one byte, too short for the type. -/
def sample_subd_short : subd :=
  { sample_subd with msg_in := some [7] }

/-- A call of a command handler through `cmd->dispatch`. -/
def rpc_event.is_dispatch : rpc_event → Bool
  | rpc_event.dispatch _ _ _ => true
  | _ => false

/-- A call answered with one error response and no handler: the output queue has grown by
exactly one error response with this code and id (and no data), no handler was called, the
commands in flight are those of before, and the call returned. -/
def answers_error_once (jcon : json_connection) (r : rpc_result) (code : Int)
    (id : String) : Prop :=
  ∃ msg, r.jcon.output = jcon.output ++ [json_output.error code msg none id] ∧
    r.trace.filter rpc_event.is_dispatch = [] ∧
    r.jcon.commands = jcon.commands ∧
    r.out = Except.ok ()

/-- The error codes of JSON-RPC 2.0, for the examples. -/
def sample_rpc_consts : rpc_consts :=
  { JSONRPC2_INVALID_REQUEST := -32600, JSONRPC2_METHOD_NOT_FOUND := -32601,
    JSONRPC2_INVALID_PARAMS := -32602 }

/-- A command list for the examples: `help`, and the deprecated `dev-old`. -/
def sample_cmdlist : List json_command :=
  [{ name := some "help", dispatch := 30, deprecated := false },
   { name := some "dev-old", dispatch := 31, deprecated := true }]

/-- A handler for the examples, which completes every command with the result `null`. -/
def sample_handler (_fn : Nat) (_c : command) (_params : jsmntok) : handler_outcome :=
  handler_outcome.success "null"

/-- A connection for the examples with nothing in flight and nothing queued. -/
def sample_jcon : json_connection :=
  { commands := [], output := [] }

/-- The id token `7` of the example requests. -/
def sample_id : jsmntok :=
  { type := jsmntype.JSMN_PRIMITIVE, text := "7" }

/-- The method token `nosuch` of the example request, which names no command. -/
def sample_method : jsmntok :=
  { type := jsmntype.JSMN_STRING, text := "nosuch" }

/-- The params token of the example request, an empty array. -/
def sample_params : jsmntok :=
  { type := jsmntype.JSMN_ARRAY, text := "[]" }

/-- An example request for the unknown method `nosuch` with id 7. -/
def sample_request : request :=
  { type := jsmntype.JSMN_OBJECT, method := some sample_method,
    params := some sample_params, id := some sample_id }

/-- A token of 64 hexadecimal digits, the encoding of 32 bytes. -/
def sample_sha256_tok : jsmntok :=
  { type := jsmntype.JSMN_STRING,
    text := "00112233445566778899aabbccddeeff00112233445566778899AABBCCDDEEFF" }

/-- The 32 bytes that `sample_sha256_tok` encodes. -/
def sample_sha256 : List u8 :=
  [0x00, 0x11, 0x22, 0x33, 0x44, 0x55, 0x66, 0x77, 0x88, 0x99, 0xaa, 0xbb, 0xcc, 0xdd, 0xee,
   0xff, 0x00, 0x11, 0x22, 0x33, 0x44, 0x55, 0x66, 0x77, 0x88, 0x99, 0xaa, 0xbb, 0xcc, 0xdd,
   0xee, 0xff]

/-- A token that is no hexadecimal text. -/
def sample_bad_tok : jsmntok :=
  { type := jsmntype.JSMN_STRING, text := "zz" }

/-- A resolver for the examples: `inet_pton` knows 127.0.0.1 and nothing else resolves. -/
def sample_resolver : resolver :=
  { inet_pton4 := fun ip => if ip = "127.0.0.1" then some [127, 0, 0, 1] else none,
    inet_pton6 := fun _ => none,
    getaddrinfo := fun _ _ => Except.error "Name or service not known" }

/-- Two `add_req` calls for the witnesses: request 1 expecting two fds, then request 2
expecting none. -/
def sample_args : List req_args :=
  [{ ctx := some 5, type := 1, num_fds_in := 2, replycb := reply_fn.fn 7, replycb_data := 70 },
   { ctx := none, type := 2, num_fds_in := 0, replycb := reply_fn.fn 8, replycb_data := 80 }]

/-! ## Theorems: the request FIFO -/

theorem add_reqs_ok (k : wire_consts) (msgname : Int → String) (args : List req_args) :
    ∀ (reqs0 reqs : List subd_req), add_reqs k msgname reqs0 args = Except.ok reqs →
      reqs = reqs0 ++ args.map req_of := by
  induction args with
  | nil =>
    intro reqs0 reqs h
    simp only [add_reqs, Except.ok.injEq] at h
    simp [h]
  | cons a rest ih =>
    intro reqs0 reqs h
    simp only [add_reqs, add_req] at h
    split at h
    · rename_i reqs1 h1
      split at h1
      · simp only [Except.ok.injEq] at h1
        have := ih _ _ h
        rw [this, ← h1]
        simp [req_of]
      · simp at h1
    · simp at h

theorem match_replies_head (k : wire_consts) (msgname : Int → String) (rs : List subd_req) :
    match_replies k msgname rs (rs.map (fun r => r.type + k.SUBD_REPLY_OFFSET))
      = rs.map (fun r => some (0, r)) := by
  induction rs with
  | nil => simp [match_replies]
  | cons r rest ih =>
    simp [match_replies, get_req, ih]

/-- C1: requests registered with `add_req` in the order r1..rN stand in that order in the
list, whatever their fd counts, and when the replies `type(r_i) + SUBD_REPLY_OFFSET` arrive
in that order, each matched request being unlinked before the next lookup, `get_req`
returns for the i-th reply the request r_i, which is then the head (position 0). -/
theorem get_req_matches_in_send_order (k : wire_consts) (msgname : Int → String)
    (args : List req_args) (reqs : List subd_req)
    (h : add_reqs k msgname [] args = Except.ok reqs) :
    reqs = args.map req_of ∧
    match_replies k msgname reqs (args.map (fun a => a.type + k.SUBD_REPLY_OFFSET))
      = (args.map req_of).map (fun r => some (0, r)) := by
  have hr := add_reqs_ok k msgname args [] reqs h
  simp only [List.nil_append] at hr
  subst hr
  refine ⟨rfl, ?_⟩
  have := match_replies_head k msgname (args.map req_of)
  simpa [List.map_map, Function.comp, req_of] using this

/-- Witness of C1: two requests with different fd counts. -/
theorem get_req_matches_in_send_order_witness :
    add_reqs sample_consts sample_msgname [] sample_args = Except.ok (sample_args.map req_of) ∧
    (sample_args.map req_of = sample_args.map req_of ∧
     match_replies sample_consts sample_msgname (sample_args.map req_of)
        (sample_args.map (fun a => a.type + sample_consts.SUBD_REPLY_OFFSET))
      = (sample_args.map req_of).map (fun r => some (0, r))) :=
  ⟨by rfl, get_req_matches_in_send_order sample_consts sample_msgname sample_args
    (sample_args.map req_of) (by rfl)⟩

theorem peektype_ge_two (msg : Option (List u8)) (h : fromwire_peektype msg ≠ -1) :
    2 ≤ tal_count msg := by
  unfold fromwire_peektype at h
  split at h
  · rename_i b0 b1 rest
    simp [tal_count]
  · exact absurd rfl h

theorem get_req_second (k : wire_consts) (msgname : Int → String) (a b : subd_req)
    (rest : List subd_req) (hab : a.type ≠ b.type)
    (hfail : ¬ (a.type + k.SUBD_REPLYFAIL_OFFSET = b.type + k.SUBD_REPLY_OFFSET
      ∧ strends (msgname (b.type + k.SUBD_REPLY_OFFSET)) "_REPLYFAIL" = true)) :
    get_req k msgname (b.type + k.SUBD_REPLY_OFFSET) (a :: b :: rest)
      = some { idx := 1, sr := b, reqs := a :: b :: rest } := by
  have h1 : ¬ (a.type + k.SUBD_REPLY_OFFSET = b.type + k.SUBD_REPLY_OFFSET) := by
    intro h
    exact hab (by omega)
  simp only [get_req, h1, hfail, if_false, if_true, Option.map_some', zero_add]

/-- C2 (counterexample): with request 1 at the head and request 2 behind it, the message of
type 2 + SUBD_REPLY_OFFSET is accepted: `get_req` returns the second entry and
`sd_msg_read` calls its reply callback. -/
theorem get_req_accepts_reply_behind_head :
    sample_req_a.type ≠ sample_req_b.type ∧
    get_req sample_consts sample_msgname
        (sample_req_b.type + sample_consts.SUBD_REPLY_OFFSET) [sample_req_a, sample_req_b]
      = some { idx := 1, sr := sample_req_b, reqs := [sample_req_a, sample_req_b] } ∧
    (sd_msg_read sample_consts sample_msgname sample_callbacks sample_ld 1 sample_subd_ab).trace
      = [event.db_begin_transaction, event.log log_level.info "REPLY %s with %zu fds" [],
         event.replycb (reply_fn.fn 8) 80 (some [0, 102]) none,
         event.db_commit_transaction] := by
  refine ⟨by decide, by decide, ?_⟩
  rw [sd_msg_read]
  decide

/-- C2 (amended): with two requests of different types A then B pending, A at the head, a
message of type B + SUBD_REPLY_OFFSET is accepted as a reply. `get_req` scans past the head
and returns the request B, at position 1, unless A + SUBD_REPLYFAIL_OFFSET is that same type
under a name ending in "_REPLYFAIL"; and `sd_msg_read`, when the descriptors B expects are
at hand, hands the message to `sd_msg_reply` for B, which calls B's reply callback. -/
theorem sd_msg_read_delivers_reply_behind_head (k : wire_consts) (msgname : Int → String)
    (cb : callbacks) (ld : lightningd) (conn : Nat) (sd : subd) (a b : subd_req)
    (rest : List subd_req)
    (hreqs : sd.reqs = a :: b :: rest) (hab : a.type ≠ b.type)
    (hmsg : fromwire_peektype sd.msg_in = b.type + k.SUBD_REPLY_OFFSET)
    (hdec : fromwire_peektype sd.msg_in ≠ -1)
    (hfail : ¬ (a.type + k.SUBD_REPLYFAIL_OFFSET = b.type + k.SUBD_REPLY_OFFSET
      ∧ strends (msgname (b.type + k.SUBD_REPLY_OFFSET)) "_REPLYFAIL" = true))
    (hfds : b.num_reply_fds = tal_count sd.fds_in) :
    get_req k msgname (b.type + k.SUBD_REPLY_OFFSET) sd.reqs
      = some { idx := 1, sr := b, reqs := sd.reqs } ∧
    sd_msg_read k msgname cb ld conn sd
      = sd_goto_out [event.db_begin_transaction] (sd_msg_reply cb conn sd 1 b) ∧
    event.replycb b.replycb b.replycb_data sd.msg_in sd.fds_in
      ∈ (sd_msg_read k msgname cb ld conn sd).trace := by
  have hg := get_req_second k msgname a b rest hab hfail
  have hsd : ({ sd with reqs := a :: b :: rest } : subd) = sd := by
    cases sd
    simp_all
  have hno : ¬ (b.num_reply_fds ≠ 0 ∧ sd.fds_in = none) := by
    rintro ⟨h0, hn⟩
    rw [hn] at hfds
    exact h0 (by simpa [tal_count] using hfds)
  have hdec2 : ¬ (b.type + k.SUBD_REPLY_OFFSET = -1) := by
    rw [← hmsg]
    exact hdec
  have hread : sd_msg_read k msgname cb ld conn sd
      = sd_goto_out [event.db_begin_transaction] (sd_msg_reply cb conn sd 1 b) := by
    rw [sd_msg_read]
    simp only [hmsg, hdec2, if_false, hreqs, hg, hsd]
    rw [dif_neg hno, if_neg (fun hne => hne hfds)]
  refine ⟨by rw [hreqs]; exact hg, hread, ?_⟩
  rw [hread]
  simp only [sd_goto_out, sd_msg_reply, call_replycb]
  cases hcb : b.replycb with
  | ignore_reply => simp [sd_out]
  | fn addr =>
    simp only
    cases cb.replycb addr b.replycb_data sd.msg_in sd.fds_in
        { sd with conn := none, reqs := sd.reqs.eraseIdx 1, fds_in := none } <;> simp [sd_out]

/-- Witness of C2 (amended): requests 1 and 2 pending, the reply 102 arrives. -/
theorem sd_msg_read_delivers_reply_behind_head_witness :
    (sample_subd_ab.reqs = [sample_req_a, sample_req_b] ∧
     sample_req_a.type ≠ sample_req_b.type ∧
     fromwire_peektype sample_subd_ab.msg_in
       = sample_req_b.type + sample_consts.SUBD_REPLY_OFFSET ∧
     sample_req_b.num_reply_fds = tal_count sample_subd_ab.fds_in) ∧
    get_req sample_consts sample_msgname
        (sample_req_b.type + sample_consts.SUBD_REPLY_OFFSET) sample_subd_ab.reqs
      = some { idx := 1, sr := sample_req_b, reqs := sample_subd_ab.reqs } ∧
    event.replycb sample_req_b.replycb sample_req_b.replycb_data sample_subd_ab.msg_in
        sample_subd_ab.fds_in
      ∈ (sd_msg_read sample_consts sample_msgname sample_callbacks sample_ld 1
          sample_subd_ab).trace :=
  have h := sd_msg_read_delivers_reply_behind_head sample_consts sample_msgname
    sample_callbacks sample_ld 1 sample_subd_ab sample_req_a sample_req_b [] rfl
    (by decide) (by decide) (by decide) (by decide) (by decide)
  ⟨⟨rfl, by decide, by decide, by decide⟩, h.1, h.2.2⟩

theorem get_req_append (k : wire_consts) (msgname : Int → String) (t : Int)
    (pre l : List subd_req) (hpre : get_req k msgname t pre = none) :
    get_req k msgname t (pre ++ l)
      = (get_req k msgname t l).map
          (fun f => { idx := f.idx + pre.length, sr := f.sr, reqs := pre ++ f.reqs }) := by
  induction pre with
  | nil =>
    simp only [List.nil_append, List.length_nil, Nat.add_zero]
    cases get_req k msgname t l with
    | none => rfl
    | some f => rfl
  | cons p rest ih =>
    simp only [get_req] at hpre
    split at hpre
    · simp at hpre
    · split at hpre
      · simp at hpre
      · rename_i h1 h2
        simp only [Option.map_eq_none'] at hpre
        rw [List.cons_append, get_req, if_neg h1, if_neg h2, ih hpre]
        cases get_req k msgname t l with
        | none => rfl
        | some f =>
          simp only [Option.map_some', List.length_cons, Nat.add_assoc, List.cons_append]

theorem get_req_head_replyfail (k : wire_consts) (msgname : Int → String)
    (post : List subd_req) (r : subd_req) (t : Int)
    (ht : t = r.type + k.SUBD_REPLYFAIL_OFFSET)
    (hoff : k.SUBD_REPLY_OFFSET ≠ k.SUBD_REPLYFAIL_OFFSET) :
    get_req k msgname t (r :: post)
      = if strends (msgname t) "_REPLYFAIL" = true then
          some { idx := 0, sr := { r with num_reply_fds := 0 },
                 reqs := { r with num_reply_fds := 0 } :: post }
        else
          (get_req k msgname t post).map
            (fun f => { idx := f.idx + 1, sr := f.sr, reqs := r :: f.reqs }) := by
  have h1 : ¬ (r.type + k.SUBD_REPLY_OFFSET = t) := by
    intro h
    exact hoff (by omega)
  by_cases hn : strends (msgname t) "_REPLYFAIL" = true
  · have h2 : r.type + k.SUBD_REPLYFAIL_OFFSET = t ∧ strends (msgname t) "_REPLYFAIL" = true :=
      ⟨ht.symm, hn⟩
    rw [get_req, if_neg h1, if_pos h2, if_pos hn]
  · have h2 : ¬ (r.type + k.SUBD_REPLYFAIL_OFFSET = t
        ∧ strends (msgname t) "_REPLYFAIL" = true) := fun h => hn h.2
    rw [get_req, if_neg h1, if_neg h2, if_neg hn]

/-- C3: for a pending request `r` and the incoming type `t = r.type + SUBD_REPLYFAIL_OFFSET`
that no earlier entry matches, `get_req` returns `r` exactly when the name of `t` ends in
"_REPLYFAIL"; and when it returns `r`, the entry's expected fd count is 0 afterwards, its
other fields and the rest of the list being as before. The reply and failure-reply offsets
are taken to differ. -/
theorem get_req_replyfail_needs_name (k : wire_consts) (msgname : Int → String)
    (pre post : List subd_req) (r : subd_req) (t : Int)
    (ht : t = r.type + k.SUBD_REPLYFAIL_OFFSET)
    (hoff : k.SUBD_REPLY_OFFSET ≠ k.SUBD_REPLYFAIL_OFFSET)
    (hpre : get_req k msgname t pre = none) :
    ((∃ f, get_req k msgname t (pre ++ r :: post) = some f ∧ f.idx = pre.length)
      ↔ strends (msgname t) "_REPLYFAIL" = true) ∧
    (∀ f, get_req k msgname t (pre ++ r :: post) = some f → f.idx = pre.length →
      f.sr = { r with num_reply_fds := 0 } ∧
      f.sr.num_reply_fds = 0 ∧
      f.reqs = pre ++ { r with num_reply_fds := 0 } :: post) := by
  rw [get_req_append k msgname t pre (r :: post) hpre,
    get_req_head_replyfail k msgname post r t ht hoff]
  by_cases hn : strends (msgname t) "_REPLYFAIL" = true
  · rw [if_pos hn]
    refine ⟨⟨fun _ => hn, fun _ => ⟨_, rfl, by simp⟩⟩, ?_⟩
    intro f hf _
    simp only [Option.map_some', Option.some.injEq] at hf
    subst hf
    exact ⟨rfl, rfl, rfl⟩
  · rw [if_neg hn]
    have hidx : ∀ f : found_req, ((get_req k msgname t post).map
        (fun f => ({ idx := f.idx + 1, sr := f.sr, reqs := r :: f.reqs } : found_req))).map
        (fun f => ({ idx := f.idx + pre.length, sr := f.sr, reqs := pre ++ f.reqs } : found_req))
          = some f → f.idx ≠ pre.length := by
      intro f hf
      cases hg : get_req k msgname t post with
      | none => simp [hg] at hf
      | some g =>
        simp only [hg, Option.map_some', Option.some.injEq] at hf
        subst hf
        simp only [ne_eq]
        omega
    refine ⟨⟨fun ⟨f, hf, hi⟩ => absurd hi (hidx f hf), fun h => absurd h hn⟩, ?_⟩
    intro f hf hi
    exact absurd hi (hidx f hf)

/-- Witness of C3: request 1 behind request 2, and the failure reply 201 of request 1. -/
theorem get_req_replyfail_needs_name_witness :
    ((201 : Int) = sample_req_a.type + sample_consts.SUBD_REPLYFAIL_OFFSET ∧
     sample_consts.SUBD_REPLY_OFFSET ≠ sample_consts.SUBD_REPLYFAIL_OFFSET ∧
     get_req sample_consts sample_msgname 201 [sample_req_b] = none) ∧
    ((∃ f, get_req sample_consts sample_msgname 201 ([sample_req_b] ++ sample_req_a :: [])
          = some f ∧ f.idx = [sample_req_b].length)
      ↔ strends (sample_msgname 201) "_REPLYFAIL" = true) :=
  ⟨⟨by decide, by decide, by decide⟩,
   (get_req_replyfail_needs_name sample_consts sample_msgname [sample_req_b] [] sample_req_a
      201 (by decide) (by decide) (by decide)).1⟩

/-- C4: destroying the owner context of pending requests (the destructor `disable_cb` of each
disabler allocated off it) leaves the request list with the same length and every entry at
its position with its type, expected fd count and callback data; an entry whose disabler
hung off that context gets `ignore_reply` as callback and a `NULL` disabler, and every other
entry is untouched. -/
theorem disable_cb_keeps_fifo (ctx : Nat) (reqs : List subd_req) :
    (tal_free_ctx ctx reqs).length = reqs.length ∧
    (tal_free_ctx ctx reqs).map (fun sr => (sr.type, sr.num_reply_fds, sr.replycb_data))
      = reqs.map (fun sr => (sr.type, sr.num_reply_fds, sr.replycb_data)) ∧
    (∀ i : Nat, (tal_free_ctx ctx reqs)[i]? = (reqs[i]?).map (fun sr =>
      if sr.disabler = some ctx then
        { type := sr.type, replycb := reply_fn.ignore_reply, replycb_data := sr.replycb_data,
          num_reply_fds := sr.num_reply_fds, disabler := none }
      else sr)) ∧
    (∀ sr : subd_req, (disable_cb sr).type = sr.type ∧
      (disable_cb sr).num_reply_fds = sr.num_reply_fds ∧
      (disable_cb sr).replycb_data = sr.replycb_data ∧
      (disable_cb sr).replycb = reply_fn.ignore_reply ∧ (disable_cb sr).disabler = none) := by
  refine ⟨by simp [tal_free_ctx], ?_, ?_, fun sr => ⟨rfl, rfl, rfl, rfl, rfl⟩⟩
  · simp only [tal_free_ctx, List.map_map]
    apply List.map_congr_left
    intro sr _
    by_cases h : sr.disabler = some ctx <;> simp [h, disable_cb]
  · intro i
    simp only [tal_free_ctx, List.getElem?_map]
    rfl

/-! ## Theorems: delivering replies and reading messages -/

/-- C5: for a pending request whose owner context `ctx` was destroyed before the reply
arrived, the entry in the list is the disabled one and `sd_msg_reply` on it returns (with
the plan to read the next message), calls `ignore_reply` and no caller's callback, and
closes every descriptor of the reply exactly once, in order: the trace is the `REPLY` log,
the call through `replycb`, the `IGNORING REPLY` log and one `close` per descriptor. -/
theorem sd_msg_reply_disabled_closes_fds (cb : callbacks) (conn : Nat) (sd : subd)
    (reqs : List subd_req) (idx ctx : Nat) (sr : subd_req)
    (hget : reqs[idx]? = some sr) (hctx : sr.disabler = some ctx)
    (hsd : sd.reqs = tal_free_ctx ctx reqs) :
    sd.reqs[idx]? = some (disable_cb sr) ∧
    (sd_msg_reply cb conn sd idx (disable_cb sr)).trace
      = [event.log log_level.info "REPLY %s with %zu fds" [],
         event.replycb reply_fn.ignore_reply sr.replycb_data sd.msg_in sd.fds_in,
         event.log log_level.debug "IGNORING REPLY" []]
        ++ (sd.fds_in.getD []).map event.close ∧
    (∀ addr data msg fds,
      event.replycb (reply_fn.fn addr) data msg fds
        ∉ (sd_msg_reply cb conn sd idx (disable_cb sr)).trace) ∧
    (∀ fd, (sd_msg_reply cb conn sd idx (disable_cb sr)).trace.count (event.close fd)
      = (sd.fds_in.getD []).count fd) ∧
    (sd_msg_reply cb conn sd idx (disable_cb sr)).out = Except.ok io_plan.io_read_wire := by
  have htr : (sd_msg_reply cb conn sd idx (disable_cb sr)).trace
      = [event.log log_level.info "REPLY %s with %zu fds" [],
         event.replycb reply_fn.ignore_reply sr.replycb_data sd.msg_in sd.fds_in,
         event.log log_level.debug "IGNORING REPLY" []]
        ++ (sd.fds_in.getD []).map event.close := by
    simp [sd_msg_reply, call_replycb, disable_cb, ignore_reply]
  refine ⟨?_, htr, ?_, ?_, ?_⟩
  · rw [hsd]
    simp [tal_free_ctx, hget, hctx]
  · intro addr data msg fds
    rw [htr]
    simp
  · intro fd
    rw [htr]
    have hinj : Function.Injective event.close := by
      intro x y h
      injection h
    simp [List.count_cons, List.count_map_of_injective _ _ hinj]
  · simp [sd_msg_reply, call_replycb, disable_cb]

/-- Witness of C5: request 1 was registered off context 5, the context is destroyed, and the
reply arrives with the descriptors 11 and 12. -/
theorem sd_msg_reply_disabled_closes_fds_witness :
    ([sample_req_a][0]? = some sample_req_a ∧ sample_req_a.disabler = some 5 ∧
     sample_subd_fds.reqs = tal_free_ctx 5 [sample_req_a]) ∧
    (sd_msg_reply sample_callbacks 1 sample_subd_fds 0 (disable_cb sample_req_a)).trace
      = [event.log log_level.info "REPLY %s with %zu fds" [],
         event.replycb reply_fn.ignore_reply sample_req_a.replycb_data sample_subd_fds.msg_in
           sample_subd_fds.fds_in,
         event.log log_level.debug "IGNORING REPLY" []]
        ++ (sample_subd_fds.fds_in.getD []).map event.close :=
  ⟨⟨by decide, by decide, by decide⟩,
   (sd_msg_reply_disabled_closes_fds sample_callbacks 1 sample_subd_fds [sample_req_a] 0 5
      sample_req_a (by decide) (by decide) (by decide)).2.1⟩

theorem string_from_msg_of_header (msg : Option (List u8)) (h : 2 ≤ tal_count msg) :
    string_from_msg msg
      = if ((msg.getD []).drop 2).all cisprint = true then
          Except.ok (some ((msg.getD []).drop 2), size_sub (tal_count msg) 2)
        else Except.ok (none, 0) := by
  have h2 : ¬ tal_count msg < 2 := by omega
  simp only [string_from_msg, h2, if_false]

theorem log_status_fail_unknown (k : wire_consts) (ld : lightningd) (type : Int)
    (str : List u8)
    (h : type ∉ [k.STATUS_FAIL_MASTER_IO, k.STATUS_FAIL_HSM_IO, k.STATUS_FAIL_GOSSIP_IO,
      k.STATUS_FAIL_INTERNAL_ERROR, k.STATUS_FAIL_PEER_IO, k.STATUS_FAIL_PEER_BAD]) :
    log_status_fail k ld type str = ([], Except.ok false) := by
  simp only [List.mem_cons, List.mem_singleton, List.not_mem_nil, or_false, not_or] at h
  obtain ⟨h1, h2, h3, h4, h5, h6⟩ := h
  simp only [log_status_fail, h1, h2, h3, h4, h5, h6, if_false]

theorem sd_malformed_short (ld : lightningd) (sd : subd) (tr : List event)
    (hlen : tal_count sd.msg_in < 2) :
    sd_malformed ld sd tr
      = { sd := some sd,
          trace := tr ++ [event.log_malformed (fromwire_peektype sd.msg_in)
            (size_sub (tal_count sd.msg_in) 2)],
          out := Except.error (abort.undefined "tal_hexstr reads past the end of msg") } := by
  simp [sd_malformed, subdaemon_malformed_msg, hlen]

theorem sd_malformed_eq (ld : lightningd) (sd : subd) (tr : List event)
    (hlen : 2 ≤ tal_count sd.msg_in) :
    sd_malformed ld sd tr
      = if dev_subdaemon_fail ld = true then
          { sd := some sd,
            trace := tr ++ [event.log_malformed (fromwire_peektype sd.msg_in)
              (size_sub (tal_count sd.msg_in) 2)],
            out := Except.error (abort.fatal "Subdaemon %s sent malformed message") }
        else
          { sd := some sd,
            trace := tr ++ [event.log_malformed (fromwire_peektype sd.msg_in)
              (size_sub (tal_count sd.msg_in) 2)] ++ [event.db_commit_transaction],
            out := Except.ok io_plan.io_close } := by
  have hlen2 : ¬ (tal_count sd.msg_in < 2) := by omega
  by_cases h : dev_subdaemon_fail ld = true
  · simp [sd_malformed, subdaemon_malformed_msg, h, hlen2]
  · simp [sd_malformed, subdaemon_malformed_msg, h, hlen2, sd_close, sd_out]

theorem sd_msg_read_malformed_eq (k : wire_consts) (msgname : Int → String)
    (cb : callbacks) (ld : lightningd) (conn : Nat) (sd : subd)
    (hmal : fromwire_peektype sd.msg_in = -1 ∨
      (get_req k msgname (fromwire_peektype sd.msg_in) sd.reqs = none ∧
        (((fromwire_peektype sd.msg_in = k.STATUS_TRACE
            ∨ Int.land (fromwire_peektype sd.msg_in) k.STATUS_FAIL ≠ 0)
          ∧ ((sd.msg_in.getD []).drop 2).all cisprint = false)
        ∨ (fromwire_peektype sd.msg_in ≠ k.STATUS_TRACE
          ∧ Int.land (fromwire_peektype sd.msg_in) k.STATUS_FAIL ≠ 0
          ∧ fromwire_peektype sd.msg_in ∉ [k.STATUS_FAIL_MASTER_IO, k.STATUS_FAIL_HSM_IO,
              k.STATUS_FAIL_GOSSIP_IO, k.STATUS_FAIL_INTERNAL_ERROR, k.STATUS_FAIL_PEER_IO,
              k.STATUS_FAIL_PEER_BAD])))) :
    sd_msg_read k msgname cb ld conn sd = sd_malformed ld sd [event.db_begin_transaction] := by
  rw [sd_msg_read]
  by_cases ht : fromwire_peektype sd.msg_in = -1
  · simp only [ht, if_true]
  · rcases hmal with h | ⟨hg, hrest⟩
    · exact absurd h ht
    · have hlen := peektype_ge_two sd.msg_in ht
      have hstr := string_from_msg_of_header sd.msg_in hlen
      simp only [ht, if_false, hg]
      rcases hrest with ⟨hty, hnp⟩ | ⟨hnt, hfl, hunk⟩
      · have hnp2 : ¬ (((sd.msg_in.getD []).drop 2).all cisprint = true) := by
          rw [hnp]
          simp
        rw [if_neg hnp2] at hstr
        by_cases htr : fromwire_peektype sd.msg_in = k.STATUS_TRACE
        · simp only [htr, if_true]
          simp only [hstr]
        · rcases hty with hty | hty
          · exact absurd hty htr
          · simp only [htr, if_false, hty, ne_eq, not_false_eq_true, if_true, hstr]
      · simp only [hnt, if_false, hfl, ne_eq, not_false_eq_true, if_true]
        by_cases hp : ((sd.msg_in.getD []).drop 2).all cisprint = true
        · rw [if_pos hp] at hstr
          simp only [hstr, log_status_fail_unknown k ld _ _ hunk, List.append_nil]
        · rw [if_neg hp] at hstr
          simp only [hstr]

/-- C6 (counterexample): in a `DEVELOPER` build run with `dev_subdaemon_fail`, a trace
message with an unprintable payload byte and no matching request is malformed, and
`sd_msg_read` does not return a plan: it ends the process in `fatal`. -/
theorem sd_msg_read_malformed_can_abort :
    (get_req sample_consts sample_msgname (fromwire_peektype sample_subd_trace.msg_in)
        sample_subd_trace.reqs = none ∧
     fromwire_peektype sample_subd_trace.msg_in = sample_consts.STATUS_TRACE ∧
     ((sample_subd_trace.msg_in.getD []).drop 2).all cisprint = false) ∧
    (sd_msg_read sample_consts sample_msgname sample_callbacks sample_ld_dev_fail 1
        sample_subd_trace).out
      = Except.error (abort.fatal "Subdaemon %s sent malformed message") ∧
    (sd_msg_read sample_consts sample_msgname sample_callbacks sample_ld_dev_fail 1
        sample_subd_trace).out
      ≠ Except.ok io_plan.io_close := by
  have h : (sd_msg_read sample_consts sample_msgname sample_callbacks sample_ld_dev_fail 1
        sample_subd_trace).out
      = Except.error (abort.fatal "Subdaemon %s sent malformed message") := by
    rw [sd_msg_read]
    rfl
  refine ⟨⟨by decide, by decide, by decide⟩, h, ?_⟩
  rw [h]
  intro hc
  cases hc

/-- C6 (amended): for every incoming message that has its 2-byte type and is malformed,
`sd_msg_read` invokes neither a reply callback, nor the dispatch callback, nor any peer
failure, and leaves the subdaemon as it was; it logs the message as malformed and returns
the close-connection plan after the commit, unless the developer option
`dev_subdaemon_fail` is set, in which case the process ends in `fatal` right after the log.
Malformed means here: no pending request matches the type and the message is a STATUS_TRACE
or STATUS_FAIL-flagged message whose string payload has a non-printable byte, or a
STATUS_FAIL-flagged message (other than STATUS_TRACE) that is not one of the six known
failure types. A message too short for its type (peeked type -1) is left out. -/
theorem sd_msg_read_malformed_closes (k : wire_consts) (msgname : Int → String)
    (cb : callbacks) (ld : lightningd) (conn : Nat) (sd : subd)
    (hdec : fromwire_peektype sd.msg_in ≠ -1)
    (hmal : get_req k msgname (fromwire_peektype sd.msg_in) sd.reqs = none ∧
        (((fromwire_peektype sd.msg_in = k.STATUS_TRACE
            ∨ Int.land (fromwire_peektype sd.msg_in) k.STATUS_FAIL ≠ 0)
          ∧ ((sd.msg_in.getD []).drop 2).all cisprint = false)
        ∨ (fromwire_peektype sd.msg_in ≠ k.STATUS_TRACE
          ∧ Int.land (fromwire_peektype sd.msg_in) k.STATUS_FAIL ≠ 0
          ∧ fromwire_peektype sd.msg_in ∉ [k.STATUS_FAIL_MASTER_IO, k.STATUS_FAIL_HSM_IO,
              k.STATUS_FAIL_GOSSIP_IO, k.STATUS_FAIL_INTERNAL_ERROR, k.STATUS_FAIL_PEER_IO,
              k.STATUS_FAIL_PEER_BAD]))) :
    (sd_msg_read k msgname cb ld conn sd).out
      = (if dev_subdaemon_fail ld = true then
          Except.error (abort.fatal "Subdaemon %s sent malformed message")
        else Except.ok io_plan.io_close) ∧
    (sd_msg_read k msgname cb ld conn sd).trace
      = [event.db_begin_transaction,
         event.log_malformed (fromwire_peektype sd.msg_in) (size_sub (tal_count sd.msg_in) 2)]
        ++ (if dev_subdaemon_fail ld = true then [] else [event.db_commit_transaction]) ∧
    (∀ e ∈ (sd_msg_read k msgname cb ld conn sd).trace, e.is_dispatch = false) ∧
    (sd_msg_read k msgname cb ld conn sd).sd = some sd := by
  rw [sd_msg_read_malformed_eq k msgname cb ld conn sd (Or.inr hmal),
    sd_malformed_eq ld sd _ (peektype_ge_two sd.msg_in hdec)]
  by_cases h : dev_subdaemon_fail ld = true
  · simp [h, event.is_dispatch]
  · simp [h, event.is_dispatch]

/-- Witness of C6 (amended): the unprintable trace message in a build without `DEVELOPER`. -/
theorem sd_msg_read_malformed_closes_witness :
    (fromwire_peektype sample_subd_trace.msg_in ≠ -1 ∧
     get_req sample_consts sample_msgname (fromwire_peektype sample_subd_trace.msg_in)
        sample_subd_trace.reqs = none ∧
     fromwire_peektype sample_subd_trace.msg_in = sample_consts.STATUS_TRACE ∧
     ((sample_subd_trace.msg_in.getD []).drop 2).all cisprint = false) ∧
    (sd_msg_read sample_consts sample_msgname sample_callbacks sample_ld 1
        sample_subd_trace).out = Except.ok io_plan.io_close :=
  ⟨⟨by decide, by decide, by decide, by decide⟩,
   (sd_msg_read_malformed_closes sample_consts sample_msgname sample_callbacks sample_ld 1
      sample_subd_trace (by decide)
      ⟨by decide, Or.inl ⟨Or.inl (by decide), by decide⟩⟩).1⟩

/-! ## Theorems: channel state and channel failure -/

/-- C7: `channel_set_state(channel, old_state, state)` on a channel whose state is not
`old_state` ends the process in `fatal`; the channel, its state included, is as before and
no `wallet_channel_save` was issued (the only event is the log line). -/
theorem channel_set_state_unexpected_prior_is_fatal (persisted : Nat → Bool) (c : channel)
    (old_state state : Nat) (h : c.state ≠ old_state) :
    (channel_set_state persisted c old_state state).out
      = Except.error (abort.fatal "channel state %s should be %s") ∧
    (channel_set_state persisted c old_state state).channel = c ∧
    (channel_set_state persisted c old_state state).channel.state = c.state ∧
    (channel_set_state persisted c old_state state).trace.filter chan_event.is_save = [] ∧
    (∀ c1, chan_event.wallet_channel_save c1
      ∉ (channel_set_state persisted c old_state state).trace) := by
  simp [channel_set_state, h, chan_event.is_save]

/-- Witness of C7: the channel is in state 3 and the caller expects state 2. -/
theorem channel_set_state_unexpected_prior_is_fatal_witness :
    sample_channel.state ≠ 2 ∧
    (channel_set_state sample_persisted sample_channel 2 4).out
      = Except.error (abort.fatal "channel state %s should be %s") ∧
    (channel_set_state sample_persisted sample_channel 2 4).channel = sample_channel :=
  have h := channel_set_state_unexpected_prior_is_fatal sample_persisted sample_channel 2 4
    (by decide)
  ⟨by decide, h.1, h.2.1⟩

/-- C8: `channel_set_state(channel, old_state, state)` on a channel whose state is
`old_state` returns, sets the state to `state` and changes no other field; it issues exactly
one `wallet_channel_save`, of the updated channel, when `channel_persists` holds after the
update, and none otherwise. -/
theorem channel_set_state_updates_and_saves (persisted : Nat → Bool) (c : channel)
    (old_state state : Nat) (h : c.state = old_state) :
    (channel_set_state persisted c old_state state).out = Except.ok () ∧
    (channel_set_state persisted c old_state state).channel = { c with state := state } ∧
    (channel_set_state persisted c old_state state).freed = false ∧
    (channel_set_state persisted c old_state state).trace.filter chan_event.is_save
      = (if channel_persists persisted { c with state := state } = true then
          [chan_event.wallet_channel_save { c with state := state }]
        else []) := by
  by_cases hp : channel_persists persisted { c with state := state } = true
  · simp [channel_set_state, h, hp, chan_event.is_save]
  · simp [channel_set_state, h, hp, chan_event.is_save]

/-- Witness of C8: from state 3 to state 4, which persists. -/
theorem channel_set_state_updates_and_saves_witness :
    sample_channel.state = 3 ∧
    (channel_set_state sample_persisted sample_channel 3 4).channel
      = { sample_channel with state := 4 } ∧
    (channel_set_state sample_persisted sample_channel 3 4).trace.filter chan_event.is_save
      = (if channel_persists sample_persisted { sample_channel with state := 4 } = true then
          [chan_event.wallet_channel_save { sample_channel with state := 4 }]
        else []) :=
  have h := channel_set_state_updates_and_saves sample_persisted sample_channel 3 4
    (by decide)
  ⟨by decide, h.2.1, h.2.2.2⟩

/-- C9: `channel_fail_permanent` returns with the owner detached (`owner` is `NULL`, the
old owner, if any, released before the channel is disposed of). A persisted channel is
handed to `drop_to_chain` exactly once and is not freed: no `free_channel`, so no store
delete and no `tal_free`. A channel that is not persisted is freed by `free_channel` exactly
once (one store delete, one `tal_free`) and `drop_to_chain` is not called. -/
theorem channel_fail_permanent_disposition (persisted : Nat → Bool) (ld : lightningd)
    (c : channel) (why : String) :
    (channel_fail_permanent persisted ld c why).out = Except.ok () ∧
    (channel_fail_permanent persisted ld c why).channel.owner = none ∧
    (channel_fail_permanent persisted ld c why).freed = !(channel_persists persisted c) ∧
    (channel_fail_permanent persisted ld c why).trace.filter chan_event.is_disposal
      = (if channel_persists persisted c = true then [chan_event.drop_to_chain c.dbid]
        else [chan_event.wallet_channel_delete c.dbid c.peer.dbid,
              chan_event.tal_free_channel c.dbid]) ∧
    (channel_fail_permanent persisted ld c why).trace.filter
        (fun e => e.is_release || e.is_disposal)
      = (match c.owner with
          | some owner => [chan_event.subd_release_channel owner c.dbid]
          | none => [])
        ++ (if channel_persists persisted c = true then [chan_event.drop_to_chain c.dbid]
          else [chan_event.wallet_channel_delete c.dbid c.peer.dbid,
                chan_event.tal_free_channel c.dbid]) := by
  obtain ⟨dbid, p, fb, st, lsi, owner, cmd, scid, err⟩ := c
  by_cases hp : persisted st = true
  · cases err <;> cases owner <;> cases scid <;> cases cmd <;>
      simp [channel_fail_permanent, channel_set_owner, channel_persists, hp,
        chan_event.is_disposal, chan_event.is_release]
  · cases err <;> cases owner <;> cases scid <;> cases cmd <;>
      simp [channel_fail_permanent, channel_set_owner, channel_persists, hp, free_channel,
        chan_event.is_disposal, chan_event.is_release]

/-- C10: when the developer disconnect-permfail hook does not fire, `channel_fail_transient`
returns and sends exactly one `gossipctl_reach_peer` request, for the channel's peer and to
the gossip subdaemon, when the channel is persisted, is in an active state and the
no-reconnect switch is off; in every other case (not persisted, not active, or no-reconnect
set) it sends none. -/
theorem channel_fail_transient_reconnects_once (persisted active : Nat → Bool)
    (ld : lightningd) (file : Option (List u8)) (c : channel) (why : String)
    (h : dev_hook ld file = Except.ok false) :
    (channel_fail_transient persisted active ld file c why).out = Except.ok () ∧
    (channel_fail_transient persisted active ld file c why).trace.filter
        chan_event.is_reach_peer
      = (if channel_persists persisted c = true ∧ channel_active active c = true
            ∧ dev_no_reconnect ld = false then
          [chan_event.subd_send_msg ld.gossip (gossip_msg.gossipctl_reach_peer c.peer.id)]
        else []) := by
  obtain ⟨dbid, p, fb, st, lsi, owner, cmd, scid, err⟩ := c
  by_cases hp : persisted st = true <;> by_cases ha : active st = true <;>
    by_cases hn : dev_no_reconnect ld = true <;>
    cases owner <;> cases cmd <;>
    simp [channel_fail_transient, h, channel_set_owner, channel_persists, channel_active,
      hp, ha, hn, free_channel, chan_event.is_reach_peer]

/-- Witness of C10: a persisted, active channel in a `DEVELOPER` build with no
dev-disconnect file and reconnects enabled. -/
theorem channel_fail_transient_reconnects_once_witness :
    dev_hook sample_ld_dev none = Except.ok false ∧
    (channel_fail_transient sample_persisted sample_active sample_ld_dev none sample_channel
        "Owning subdaemon died").trace.filter chan_event.is_reach_peer
      = (if channel_persists sample_persisted sample_channel = true
            ∧ channel_active sample_active sample_channel = true
            ∧ dev_no_reconnect sample_ld_dev = false then
          [chan_event.subd_send_msg sample_ld_dev.gossip
            (gossip_msg.gossipctl_reach_peer sample_channel.peer.id)]
        else []) :=
  ⟨by rfl,
   (channel_fail_transient_reconnects_once sample_persisted sample_active sample_ld_dev none
      sample_channel "Owning subdaemon died" (by rfl)).2⟩

/-- C11: when the developer disconnect-permfail hook does not fire, `channel_fail_transient`
returns with the owner detached (the old owner, if any, released once) and frees the channel
exactly when it is not persisted: then by `free_channel` with the formatted reason, on the
channel without its owner. A persisted channel is not freed (no command failed, no store
delete, no `tal_free`), and in both cases the state is as before. -/
theorem channel_fail_transient_frees_iff_not_persisted (persisted active : Nat → Bool)
    (ld : lightningd) (file : Option (List u8)) (c : channel) (why : String)
    (h : dev_hook ld file = Except.ok false) :
    (channel_fail_transient persisted active ld file c why).out = Except.ok () ∧
    (channel_fail_transient persisted active ld file c why).channel.owner = none ∧
    (channel_fail_transient persisted active ld file c why).trace.filter chan_event.is_release
      = (match c.owner with
          | some owner => [chan_event.subd_release_channel owner c.dbid]
          | none => []) ∧
    (channel_fail_transient persisted active ld file c why).freed
      = !(channel_persists persisted c) ∧
    (channel_fail_transient persisted active ld file c why).trace.filter
        (fun e => e.is_command_fail || e.is_disposal)
      = (if channel_persists persisted c = true then []
        else (free_channel { c with owner := none } why).trace) ∧
    (channel_fail_transient persisted active ld file c why).channel.state = c.state := by
  obtain ⟨dbid, p, fb, st, lsi, owner, cmd, scid, err⟩ := c
  by_cases hp : persisted st = true <;> by_cases ha : active st = true <;>
    by_cases hn : dev_no_reconnect ld = true <;>
    cases owner <;> cases cmd <;>
    simp [channel_fail_transient, h, channel_set_owner, channel_persists, channel_active,
      hp, ha, hn, free_channel, chan_event.is_release, chan_event.is_command_fail,
      chan_event.is_disposal]

/-- Witness of C11: a channel in state 1, which does not persist, with an owner and a
pending command. -/
theorem channel_fail_transient_frees_iff_not_persisted_witness :
    dev_hook sample_ld_dev none = Except.ok false ∧
    (channel_fail_transient sample_persisted sample_active sample_ld_dev none
        { sample_channel with state := 1 } "Owning subdaemon died").freed
      = !(channel_persists sample_persisted { sample_channel with state := 1 }) :=
  ⟨by rfl,
   (channel_fail_transient_frees_iff_not_persisted sample_persisted sample_active
      sample_ld_dev none { sample_channel with state := 1 } "Owning subdaemon died"
      (by rfl)).2.2.2.1⟩

/-- C12: `free_channel(channel, why)` returns; a pending opening command is failed exactly
once, with exactly the text `why`, and without a pending command no command is failed; the
channel's reference to the command is `NULL` when the channel is freed, its other fields
being as before; and there is exactly one store delete, for the channel's id and its peer's,
followed by the `tal_free` of the channel, which comes last. -/
theorem free_channel_fails_pending_command (c : channel) (why : String) :
    (free_channel c why).out = Except.ok () ∧
    (free_channel c why).trace.filter chan_event.is_command_fail
      = (match c.opening_cmd with
          | some cmd => [chan_event.command_fail cmd why]
          | none => []) ∧
    (free_channel c why).channel = { c with opening_cmd := none } ∧
    (free_channel c why).freed = true ∧
    (free_channel c why).trace.filter chan_event.is_disposal
      = [chan_event.wallet_channel_delete c.dbid c.peer.dbid,
         chan_event.tal_free_channel c.dbid] ∧
    (free_channel c why).trace.getLast? = some (chan_event.tal_free_channel c.dbid) ∧
    (free_channel c why).trace.length = (if c.opening_cmd.isSome = true then 3 else 2) := by
  obtain ⟨dbid, p, fb, st, lsi, owner, cmd, scid, err⟩ := c
  cases cmd <;>
    simp [free_channel, chan_event.is_command_fail, chan_event.is_disposal]

/-- C13 (counterexample): the channel has the error "first" recorded and fails permanently
with the reason "second"; the recorded error is still the one with the text "first", so the
new reason was not appended. -/
theorem channel_fail_permanent_keeps_first_error :
    sample_channel_err.error = some { channel_id := 0, data := "first" } ∧
    (channel_fail_permanent sample_persisted sample_ld sample_channel_err "second").channel.error
      = some { channel_id := 0, data := "first" } ∧
    (channel_fail_permanent sample_persisted sample_ld sample_channel_err "second").channel.error
      = sample_channel_err.error := by
  decide

/-- C13 (amended): `channel_fail_permanent` records the failure reason in the channel's
protocol error only when none is recorded: then it composes one from the reason text, an
error message addressed to the all-zero channel id. When an error is already recorded it
leaves that error as it is; the new reason goes to the log only. -/
theorem channel_fail_permanent_records_first_error (persisted : Nat → Bool) (ld : lightningd)
    (c : channel) (why : String) :
    (channel_fail_permanent persisted ld c why).channel.error
      = (match c.error with
          | none => some { channel_id := 0, data := why }
          | some e => some e) ∧
    chan_event.log log_level.unusual "Peer permanent failure in %s: %s" why
      ∈ (channel_fail_permanent persisted ld c why).trace := by
  obtain ⟨dbid, p, fb, st, lsi, owner, cmd, scid, err⟩ := c
  by_cases hp : persisted st = true <;> cases err <;> cases scid <;>
    simp [channel_fail_permanent, channel_set_owner, channel_persists, hp, free_channel]

/-! ## Theorems: reaping and shutdown -/

theorem destroy_subd_out (w : wait_macros) (ld : lightningd) (sd : subd)
    (wp : waitpid_result) :
    (destroy_subd w ld sd wp).out
      = (if (destroy_subd_fail_if_subd_fails ld wp
              && w.WIFSIGNALED (destroy_subd_status wp)) = true then
          Except.error (abort.fatal "Subdaemon %s killed with signal %i")
        else if sd.must_not_exit = true then
          (if w.WIFEXITED (destroy_subd_status wp) = true then
            Except.error (abort.errx "%s failed (exit status %i), exiting.")
          else Except.error (abort.errx "%s failed (signal %u), exiting."))
        else Except.ok ()) := by
  by_cases hf : (destroy_subd_fail_if_subd_fails ld wp
      && w.WIFSIGNALED (destroy_subd_status wp)) = true
  · simp [destroy_subd, hf]
  · by_cases hm : sd.must_not_exit = true
    · by_cases he : w.WIFEXITED (destroy_subd_status wp) = true
      · simp [destroy_subd, hf, hm, he]
      · simp [destroy_subd, hf, hm, he]
    · simp [destroy_subd, hf, hm]

theorem destroy_subd_peer_fail (w : wait_macros) (ld : lightningd) (sd : subd)
    (wp : waitpid_result) :
    (destroy_subd w ld sd wp).trace.filter event.is_peer_fail
      = (if (destroy_subd_fail_if_subd_fails ld wp
              && w.WIFSIGNALED (destroy_subd_status wp)) = true then []
        else
          match sd.peer with
          | some peer =>
            [event.peer_fail_transient peer
              (owning_subdaemon_died sd.name (destroy_subd_status wp))]
          | none => []) ∧
    (destroy_subd w ld sd wp).sd
      = (if (destroy_subd_fail_if_subd_fails ld wp
              && w.WIFSIGNALED (destroy_subd_status wp)) = true then some sd
        else some { sd with conn := none, peer := none }) := by
  obtain ⟨pid, name, mne, msgcb, peer, conn, msg_in, fds_in, nfr, reqs, outq⟩ := sd
  by_cases hf : (destroy_subd_fail_if_subd_fails ld wp
      && w.WIFSIGNALED (destroy_subd_status wp)) = true
  · cases wp <;> simp [destroy_subd, hf, event.is_peer_fail]
  · by_cases he : w.WIFEXITED (destroy_subd_status wp) = true <;>
      cases wp <;> cases peer <;> cases conn <;> cases mne <;>
      simp [destroy_subd, hf, he, event.is_peer_fail]

/-- C14: how `destroy_subd` ends. If the developer option is in force and the process was
killed by a signal it ends in `fatal`; otherwise, for a subdaemon flagged `must_not_exit`,
it ends in `errx`, whatever the wait status (an exit status, zero or not, or a signal); and
otherwise it returns. So a flagged subdaemon never lets `destroy_subd` return, and an
unflagged one never ends the process through `errx`. -/
theorem destroy_subd_must_not_exit_is_fatal (w : wait_macros) (ld : lightningd) (sd : subd)
    (wp : waitpid_result) :
    (destroy_subd w ld sd wp).out
      = (if (destroy_subd_fail_if_subd_fails ld wp
              && w.WIFSIGNALED (destroy_subd_status wp)) = true then
          Except.error (abort.fatal "Subdaemon %s killed with signal %i")
        else if sd.must_not_exit = true then
          (if w.WIFEXITED (destroy_subd_status wp) = true then
            Except.error (abort.errx "%s failed (exit status %i), exiting.")
          else Except.error (abort.errx "%s failed (signal %u), exiting."))
        else Except.ok ()) ∧
    (sd.must_not_exit && (destroy_subd w ld sd wp).out.toBool) = false ∧
    (!sd.must_not_exit && ended_by_errx (destroy_subd w ld sd wp).out) = false := by
  refine ⟨destroy_subd_out w ld sd wp, ?_, ?_⟩
  · rw [destroy_subd_out]
    by_cases hf : (destroy_subd_fail_if_subd_fails ld wp
        && w.WIFSIGNALED (destroy_subd_status wp)) = true <;>
      by_cases hm : sd.must_not_exit = true <;>
      by_cases he : w.WIFEXITED (destroy_subd_status wp) = true <;>
      simp [hf, hm, he, Except.toBool]
  · rw [destroy_subd_out]
    by_cases hf : (destroy_subd_fail_if_subd_fails ld wp
        && w.WIFSIGNALED (destroy_subd_status wp)) = true <;>
      by_cases hm : sd.must_not_exit = true <;>
      by_cases he : w.WIFEXITED (destroy_subd_status wp) = true <;>
      simp [hf, hm, he, ended_by_errx]

/-- C15 (counterexample): in a `DEVELOPER` build run with `dev_subdaemon_fail`, a subdaemon
that owns peer 4 is reaped with wait status 9 (killed by signal 9): `destroy_subd` ends in
`fatal` before it looks at the peer, so the peer reference is still set and no failure was
raised. -/
theorem destroy_subd_can_abort_before_peer_failure :
    sample_subd_peer.peer = some 4 ∧
    (destroy_subd sample_wait sample_ld_dev_fail sample_subd_peer
        (waitpid_result.exited 9)).out
      = Except.error (abort.fatal "Subdaemon %s killed with signal %i") ∧
    (destroy_subd sample_wait sample_ld_dev_fail sample_subd_peer
        (waitpid_result.exited 9)).trace.filter event.is_peer_fail = [] ∧
    (destroy_subd sample_wait sample_ld_dev_fail sample_subd_peer
        (waitpid_result.exited 9)).sd = some sample_subd_peer := by
  refine ⟨by decide, by rfl, by decide, by decide⟩

/-- C15 (amended): unless `destroy_subd` ends in the developer `fatal` (option
`dev_subdaemon_fail`, process reaped as killed by a signal), which happens before the peer
is looked at, it clears the peer reference of a subdaemon that still owns a peer and raises
exactly one transient failure on that peer, with the reason "Owning subdaemon <name> died
(<status>)"; when the subdaemon owns no peer, no failure is raised. -/
theorem destroy_subd_fails_owned_peer_once (w : wait_macros) (ld : lightningd) (sd : subd)
    (wp : waitpid_result) :
    (destroy_subd w ld sd wp).trace.filter event.is_peer_fail
      = (if (destroy_subd_fail_if_subd_fails ld wp
              && w.WIFSIGNALED (destroy_subd_status wp)) = true then []
        else
          match sd.peer with
          | some peer =>
            [event.peer_fail_transient peer
              (owning_subdaemon_died sd.name (destroy_subd_status wp))]
          | none => []) ∧
    (destroy_subd w ld sd wp).sd
      = (if (destroy_subd_fail_if_subd_fails ld wp
              && w.WIFSIGNALED (destroy_subd_status wp)) = true then some sd
        else some { sd with conn := none, peer := none }) ∧
    owning_subdaemon_died sd.name (destroy_subd_status wp)
      = "Owning subdaemon " ++ sd.name ++ " died ("
          ++ toString (destroy_subd_status wp) ++ ")" :=
  ⟨(destroy_subd_peer_fail w ld sd wp).1, (destroy_subd_peer_fail w ld sd wp).2, rfl⟩

theorem subd_shutdown_wait_quiet (pid : Int) (poll : Nat → Int) (seconds : Nat) :
    ∀ i, (subd_shutdown_wait pid poll seconds i).2.filter event.is_peer_fail = [] := by
  induction seconds with
  | zero =>
    intro i
    simp [subd_shutdown_wait]
  | succ n ih =>
    intro i
    by_cases h : poll i > 0
    · simp [subd_shutdown_wait, h, event.is_peer_fail]
    · simp [subd_shutdown_wait, h, event.is_peer_fail, ih]

theorem subd_shutdown_wait_returns (pid : Int) (poll : Nat → Int) (seconds : Nat) :
    ∀ i, (subd_shutdown_wait pid poll seconds i).1
      = (List.range seconds).any (fun j => decide (0 < poll (i + j))) := by
  induction seconds with
  | zero =>
    intro i
    simp [subd_shutdown_wait]
  | succ n ih =>
    intro i
    rw [List.range_succ_eq_map]
    by_cases h : poll i > 0
    · simp [subd_shutdown_wait, h]
    · have h2 : ¬ (0 < poll i) := h
      simp only [subd_shutdown_wait, h, if_false, ih, List.any_cons, Nat.add_zero, h2,
        decide_False, Bool.false_or, List.any_map]
      congr 1
      funext j
      simp [Nat.add_assoc, Nat.add_comm 1 j]

/-- C16 (counterexample): `subd_shutdown` with a timeout of 0 seconds on a subdaemon that
owns peer 4 and is still running: the loop is skipped, `destroy_subd` kills the process
(wait status 9) and raises a transient failure on peer 4. -/
theorem subd_shutdown_can_fail_owned_peer :
    sample_subd_peer.peer = some 4 ∧
    (subd_shutdown sample_wait sample_ld sample_subd_peer 0 (fun _ => 0)
        (waitpid_result.running 9)).trace.filter event.is_peer_fail
      = [event.peer_fail_transient 4 (owning_subdaemon_died "lightning_channeld" 9)] ∧
    owning_subdaemon_died "lightning_channeld" 9
      = "Owning subdaemon lightning_channeld died (9)" := by
  refine ⟨by decide, by decide, by decide⟩

/-- C16 (amended): a deliberate `subd_shutdown` raises no failure on the owned peer when the
process exits within the timeout (one of the polls finds it gone: the function returns and
leaves the subdaemon, its peer reference included, in place) and when the subdaemon owns no
peer. When the timeout runs out it calls `destroy_subd` with `must_not_exit` cleared, and
for a subdaemon that still owns a peer that raises exactly one transient failure on the
peer, unless the developer `fatal` of `destroy_subd` comes first. A permanent failure is
never raised. -/
theorem subd_shutdown_peer_failures (w : wait_macros) (ld : lightningd) (sd : subd)
    (seconds : Nat) (poll : Nat → Int) (wp : waitpid_result) :
    (subd_shutdown w ld sd seconds poll wp).trace.filter event.is_peer_fail
      = (if (List.range seconds).any (fun j => decide (0 < poll j)) = true then []
        else if (destroy_subd_fail_if_subd_fails ld wp
              && w.WIFSIGNALED (destroy_subd_status wp)) = true then []
        else
          match sd.peer with
          | some peer =>
            [event.peer_fail_transient peer
              (owning_subdaemon_died sd.name (destroy_subd_status wp))]
          | none => []) ∧
    (subd_shutdown w ld sd seconds poll wp).sd
      = (if (List.range seconds).any (fun j => decide (0 < poll j)) = true then
          some { sd with conn := none }
        else if (destroy_subd_fail_if_subd_fails ld wp
              && w.WIFSIGNALED (destroy_subd_status wp)) = true then
          some { sd with conn := none, must_not_exit := false }
        else none) := by
  have hw := subd_shutdown_wait_returns sd.pid poll seconds 0
  simp only [Nat.zero_add] at hw
  have hq := subd_shutdown_wait_quiet sd.pid poll seconds 0
  have hd := destroy_subd_peer_fail w ld
    { sd with conn := none, must_not_exit := false } wp
  have ho := destroy_subd_out w ld
    { sd with conn := none, must_not_exit := false } wp
  by_cases hx : (List.range seconds).any (fun j => decide (0 < poll j)) = true
  · rw [hx] at hw
    cases hc : sd.conn <;>
      simp [subd_shutdown, hw, hx, hq, hc, event.is_peer_fail]
  · have hw2 : (subd_shutdown_wait sd.pid poll seconds 0).1 = false := by
      rw [hw]
      simpa using hx
    by_cases hf : (destroy_subd_fail_if_subd_fails ld wp
        && w.WIFSIGNALED (destroy_subd_status wp)) = true
    · rw [if_pos hf] at ho
      rw [if_pos hf] at hd
      cases hc : sd.conn <;>
        simp [subd_shutdown, hw2, hx, hq, hc, hf, ho, hd, event.is_peer_fail]
    · rw [if_neg hf, if_neg (by simp)] at ho
      rw [if_neg hf, if_neg hf] at hd
      cases hc : sd.conn <;>
        simp [subd_shutdown, hw2, hx, hq, hc, hf, ho, hd, event.is_peer_fail]

/-! ## Theorems: failure status messages and the transaction around a message -/

theorem log_status_fail_class (k : wire_consts) (ld : lightningd) (type : Int)
    (str : List u8) :
    (log_status_fail k ld type str).1.filter event.is_peer_fail = [] ∧
    (log_status_fail k ld type str).2
      = (if type ∈ [ k.STATUS_FAIL_MASTER_IO, k.STATUS_FAIL_HSM_IO, k.STATUS_FAIL_GOSSIP_IO,
            k.STATUS_FAIL_INTERNAL_ERROR] then
          (if dev_subdaemon_fail ld = true then
            Except.error (abort.fatal "Subdaemon %s hit error")
          else Except.ok true)
        else if type ∈ [ k.STATUS_FAIL_PEER_IO, k.STATUS_FAIL_PEER_BAD] then Except.ok true
        else Except.ok false) := by
  by_cases h1 : type = k.STATUS_FAIL_MASTER_IO
  · subst h1
    by_cases hd : dev_subdaemon_fail ld = true <;>
      simp [log_status_fail, hd, event.is_peer_fail]
  by_cases h2 : type = k.STATUS_FAIL_HSM_IO
  · subst h2
    by_cases hd : dev_subdaemon_fail ld = true <;>
      simp [log_status_fail, h1, hd, event.is_peer_fail]
  by_cases h3 : type = k.STATUS_FAIL_GOSSIP_IO
  · subst h3
    by_cases hd : dev_subdaemon_fail ld = true <;>
      simp [log_status_fail, h1, h2, hd, event.is_peer_fail]
  by_cases h4 : type = k.STATUS_FAIL_INTERNAL_ERROR
  · subst h4
    by_cases hd : dev_subdaemon_fail ld = true <;>
      simp [log_status_fail, h1, h2, h3, hd, event.is_peer_fail]
  by_cases h5 : type = k.STATUS_FAIL_PEER_IO
  · subst h5
    simp [log_status_fail, h1, h2, h3, h4, event.is_peer_fail]
  by_cases h6 : type = k.STATUS_FAIL_PEER_BAD
  · subst h6
    simp [log_status_fail, h1, h2, h3, h4, h5, event.is_peer_fail]
  simp [log_status_fail, h1, h2, h3, h4, h5, h6, event.is_peer_fail]


theorem sd_msg_read_failure_status_aux (k : wire_consts) (msgname : Int → String)
    (cb : callbacks) (ld : lightningd) (conn : Nat) (sd : subd)
    (hg : get_req k msgname (fromwire_peektype sd.msg_in) sd.reqs = none)
    (hdec : fromwire_peektype sd.msg_in ≠ -1)
    (hnt : fromwire_peektype sd.msg_in ≠ k.STATUS_TRACE)
    (hfl : Int.land (fromwire_peektype sd.msg_in) k.STATUS_FAIL ≠ 0)
    (hp : ((sd.msg_in.getD []).drop 2).all cisprint = true) :
    sd_msg_read k msgname cb ld conn sd
      = (match (log_status_fail k ld (fromwire_peektype sd.msg_in)
            ((sd.msg_in.getD []).drop 2)).2 with
          | Except.error a =>
            sd_abort sd ([event.db_begin_transaction]
              ++ (log_status_fail k ld (fromwire_peektype sd.msg_in)
                    ((sd.msg_in.getD []).drop 2)).1) a
          | Except.ok false =>
            sd_malformed ld sd ([event.db_begin_transaction]
              ++ (log_status_fail k ld (fromwire_peektype sd.msg_in)
                    ((sd.msg_in.getD []).drop 2)).1)
          | Except.ok true =>
            match sd.peer with
            | some peer =>
              if fromwire_peektype sd.msg_in = k.STATUS_FAIL_PEER_BAD then
                sd_close (some { sd with peer := none })
                  ([event.db_begin_transaction]
                    ++ (log_status_fail k ld (fromwire_peektype sd.msg_in)
                          ((sd.msg_in.getD []).drop 2)).1
                    ++ [event.peer_fail_permanent peer ((sd.msg_in.getD []).drop 2)])
              else
                sd_close (some sd) ([event.db_begin_transaction]
                  ++ (log_status_fail k ld (fromwire_peektype sd.msg_in)
                        ((sd.msg_in.getD []).drop 2)).1)
            | none =>
              sd_close (some sd) ([event.db_begin_transaction]
                ++ (log_status_fail k ld (fromwire_peektype sd.msg_in)
                      ((sd.msg_in.getD []).drop 2)).1)) := by
  have hlen := peektype_ge_two sd.msg_in hdec
  have hstr := string_from_msg_of_header sd.msg_in hlen
  rw [if_pos hp] at hstr
  rw [sd_msg_read]
  simp only [hdec, if_false, hg, hnt, hfl, ne_eq, not_false_eq_true, if_true, hstr]

/-- C17 (counterexample): in a `DEVELOPER` build run with `dev_subdaemon_fail`, the
failure status `STATUS_FAIL_INTERNAL_ERROR` with the printable payload "A", matching no
pending request, does not close the connection: `log_status_fail` ends the process in
`fatal`. -/
theorem sd_msg_read_failure_status_can_abort :
    (get_req sample_consts sample_msgname (fromwire_peektype sample_subd_internal.msg_in)
        sample_subd_internal.reqs = none ∧
     fromwire_peektype sample_subd_internal.msg_in = sample_consts.STATUS_FAIL_INTERNAL_ERROR ∧
     ((sample_subd_internal.msg_in.getD []).drop 2).all cisprint = true) ∧
    (sd_msg_read sample_consts sample_msgname sample_callbacks sample_ld_dev_fail 1
        sample_subd_internal).out
      = Except.error (abort.fatal "Subdaemon %s hit error") ∧
    (sd_msg_read sample_consts sample_msgname sample_callbacks sample_ld_dev_fail 1
        sample_subd_internal).out
      ≠ Except.ok io_plan.io_close := by
  have h : (sd_msg_read sample_consts sample_msgname sample_callbacks sample_ld_dev_fail 1
        sample_subd_internal).out
      = Except.error (abort.fatal "Subdaemon %s hit error") := by
    rw [sd_msg_read]
    rfl
  refine ⟨⟨by decide, by decide, by decide⟩, h, ?_⟩
  rw [h]
  intro hc
  cases hc

/-- C17 (amended): for every unsolicited failure-status message (flagged STATUS_FAIL, not
the trace type) with a printable payload `s` that matches no pending request, `sd_msg_read`
raises a failure on the owned peer if and only if the subdaemon owns a peer and the type is
STATUS_FAIL_PEER_BAD: it then clears the subdaemon's peer reference and calls
`peer_fail_permanent` exactly once with exactly the bytes of `s`. The connection is then
closed, except that with the developer option `dev_subdaemon_fail` set a message of one of
the four internal classes, or of none of the six known types, ends the process in `fatal`.
STATUS_FAIL_PEER_BAD is taken to differ from the four internal constants. -/
theorem sd_msg_read_fails_peer_on_peer_bad (k : wire_consts) (msgname : Int → String)
    (cb : callbacks) (ld : lightningd) (conn : Nat) (sd : subd)
    (hg : get_req k msgname (fromwire_peektype sd.msg_in) sd.reqs = none)
    (hdec : fromwire_peektype sd.msg_in ≠ -1)
    (hnt : fromwire_peektype sd.msg_in ≠ k.STATUS_TRACE)
    (hfl : Int.land (fromwire_peektype sd.msg_in) k.STATUS_FAIL ≠ 0)
    (hp : ((sd.msg_in.getD []).drop 2).all cisprint = true)
    (hd : k.STATUS_FAIL_PEER_BAD ∉ [ k.STATUS_FAIL_MASTER_IO, k.STATUS_FAIL_HSM_IO,
      k.STATUS_FAIL_GOSSIP_IO, k.STATUS_FAIL_INTERNAL_ERROR]) :
    (sd_msg_read k msgname cb ld conn sd).trace.filter event.is_peer_fail
      = (match sd.peer with
          | some peer =>
            if fromwire_peektype sd.msg_in = k.STATUS_FAIL_PEER_BAD then
              [event.peer_fail_permanent peer ((sd.msg_in.getD []).drop 2)]
            else []
          | none => []) ∧
    (sd_msg_read k msgname cb ld conn sd).sd
      = some (if fromwire_peektype sd.msg_in = k.STATUS_FAIL_PEER_BAD then
          { sd with peer := none } else sd) ∧
    (sd_msg_read k msgname cb ld conn sd).out
      = (if dev_subdaemon_fail ld = true
            ∧ fromwire_peektype sd.msg_in ∈ [ k.STATUS_FAIL_MASTER_IO, k.STATUS_FAIL_HSM_IO,
                k.STATUS_FAIL_GOSSIP_IO, k.STATUS_FAIL_INTERNAL_ERROR] then
          Except.error (abort.fatal "Subdaemon %s hit error")
        else if dev_subdaemon_fail ld = true
            ∧ fromwire_peektype sd.msg_in ∉ [ k.STATUS_FAIL_MASTER_IO, k.STATUS_FAIL_HSM_IO,
                k.STATUS_FAIL_GOSSIP_IO, k.STATUS_FAIL_INTERNAL_ERROR, k.STATUS_FAIL_PEER_IO,
                k.STATUS_FAIL_PEER_BAD] then
          Except.error (abort.fatal "Subdaemon %s sent malformed message")
        else Except.ok io_plan.io_close) := by
  rw [sd_msg_read_failure_status_aux k msgname cb ld conn sd hg hdec hnt hfl hp]
  have hlen : 2 ≤ tal_count sd.msg_in := peektype_ge_two sd.msg_in hdec
  obtain ⟨hq0, hl⟩ := log_status_fail_class k ld (fromwire_peektype sd.msg_in)
    ((sd.msg_in.getD []).drop 2)
  generalize fromwire_peektype sd.msg_in = t at *
  generalize log_status_fail k ld t ((sd.msg_in.getD []).drop 2) = l at *
  obtain ⟨tr, o⟩ := l
  simp only at hq0 hl
  subst hl
  have hq : ∀ a ∈ tr, a.is_peer_fail = false := by
    simpa [List.filter_eq_nil_iff] using hq0
  clear hg hdec hnt hfl hp
  obtain ⟨pid, name, mne, msgcb, peer, cn, msg_in, fds_in, nfr, reqs, outq⟩ := sd
  simp only
  have hd2 := hd
  have e1 : event.db_begin_transaction.is_peer_fail = false := rfl
  have e2 : event.db_commit_transaction.is_peer_fail = false := rfl
  have e3 : ∀ a b, (event.log_malformed a b).is_peer_fail = false := fun _ _ => rfl
  have e4 : ∀ a b, (event.peer_fail_permanent a b).is_peer_fail = true := fun _ _ => rfl
  simp only [List.mem_cons, List.mem_singleton, List.not_mem_nil, or_false] at hd2
  by_cases h4 : t ∈ [ k.STATUS_FAIL_MASTER_IO, k.STATUS_FAIL_HSM_IO,
      k.STATUS_FAIL_GOSSIP_IO, k.STATUS_FAIL_INTERNAL_ERROR]
  · have hb : t ≠ k.STATUS_FAIL_PEER_BAD := by
      intro e
      rw [e] at h4
      exact hd h4
    by_cases hdev : dev_subdaemon_fail ld = true
    · rw [if_pos h4, if_pos hdev]
      cases peer <;>
        simp [sd_abort, hq, hb, hdev, h4, hq0, e1, e2, e3, e4]
    · rw [if_pos h4, if_neg hdev]
      cases peer <;>
        simp [sd_close, sd_out, hq, hb, hdev, hq0, e1, e2, e3, e4]
  · rw [if_neg h4]
    by_cases h2 : t ∈ [ k.STATUS_FAIL_PEER_IO, k.STATUS_FAIL_PEER_BAD]
    · have h6 : t ∈ [ k.STATUS_FAIL_MASTER_IO, k.STATUS_FAIL_HSM_IO, k.STATUS_FAIL_GOSSIP_IO,
          k.STATUS_FAIL_INTERNAL_ERROR, k.STATUS_FAIL_PEER_IO, k.STATUS_FAIL_PEER_BAD] := by
        simp only [List.mem_cons, List.mem_singleton, List.not_mem_nil, or_false] at h2 ⊢
        tauto
      rw [if_pos h2]
      have hout : (if dev_subdaemon_fail ld = true
            ∧ t ∈ [ k.STATUS_FAIL_MASTER_IO, k.STATUS_FAIL_HSM_IO,
                k.STATUS_FAIL_GOSSIP_IO, k.STATUS_FAIL_INTERNAL_ERROR] then
          (Except.error (abort.fatal "Subdaemon %s hit error") : Except abort io_plan)
        else if dev_subdaemon_fail ld = true
            ∧ t ∉ [ k.STATUS_FAIL_MASTER_IO, k.STATUS_FAIL_HSM_IO,
                k.STATUS_FAIL_GOSSIP_IO, k.STATUS_FAIL_INTERNAL_ERROR, k.STATUS_FAIL_PEER_IO,
                k.STATUS_FAIL_PEER_BAD] then
          Except.error (abort.fatal "Subdaemon %s sent malformed message")
        else Except.ok io_plan.io_close) = Except.ok io_plan.io_close := by
        rw [if_neg (fun h => h4 h.2), if_neg (fun h => h.2 h6)]
      rw [hout]
      by_cases hb : t = k.STATUS_FAIL_PEER_BAD <;> cases peer <;>
        simp [sd_close, sd_out, hq, hb, hq0, e1, e2, e3, e4]
    · have hb : t ≠ k.STATUS_FAIL_PEER_BAD := by
        intro e
        apply h2
        simp [e]
      have h6 : t ∉ [ k.STATUS_FAIL_MASTER_IO, k.STATUS_FAIL_HSM_IO, k.STATUS_FAIL_GOSSIP_IO,
          k.STATUS_FAIL_INTERNAL_ERROR, k.STATUS_FAIL_PEER_IO, k.STATUS_FAIL_PEER_BAD] := by
        simp only [List.mem_cons, List.mem_singleton, List.not_mem_nil, or_false] at h2 h4 ⊢
        tauto
      rw [if_neg h2, sd_malformed_eq _ _ _ hlen]
      by_cases hdev : dev_subdaemon_fail ld = true
      · have hout : (if dev_subdaemon_fail ld = true
              ∧ t ∈ [ k.STATUS_FAIL_MASTER_IO, k.STATUS_FAIL_HSM_IO,
                  k.STATUS_FAIL_GOSSIP_IO, k.STATUS_FAIL_INTERNAL_ERROR] then
            (Except.error (abort.fatal "Subdaemon %s hit error") : Except abort io_plan)
          else if dev_subdaemon_fail ld = true
              ∧ t ∉ [ k.STATUS_FAIL_MASTER_IO, k.STATUS_FAIL_HSM_IO,
                  k.STATUS_FAIL_GOSSIP_IO, k.STATUS_FAIL_INTERNAL_ERROR, k.STATUS_FAIL_PEER_IO,
                  k.STATUS_FAIL_PEER_BAD] then
            Except.error (abort.fatal "Subdaemon %s sent malformed message")
          else Except.ok io_plan.io_close)
            = Except.error (abort.fatal "Subdaemon %s sent malformed message") := by
          rw [if_neg (fun h => h4 h.2), if_pos ⟨hdev, h6⟩]
        rw [hout]
        cases peer <;> simp [hq, hb, hdev, hq0, e1, e2, e3, e4]
      · have hout : (if dev_subdaemon_fail ld = true
              ∧ t ∈ [ k.STATUS_FAIL_MASTER_IO, k.STATUS_FAIL_HSM_IO,
                  k.STATUS_FAIL_GOSSIP_IO, k.STATUS_FAIL_INTERNAL_ERROR] then
            (Except.error (abort.fatal "Subdaemon %s hit error") : Except abort io_plan)
          else if dev_subdaemon_fail ld = true
              ∧ t ∉ [ k.STATUS_FAIL_MASTER_IO, k.STATUS_FAIL_HSM_IO,
                  k.STATUS_FAIL_GOSSIP_IO, k.STATUS_FAIL_INTERNAL_ERROR, k.STATUS_FAIL_PEER_IO,
                  k.STATUS_FAIL_PEER_BAD] then
            Except.error (abort.fatal "Subdaemon %s sent malformed message")
          else Except.ok io_plan.io_close) = Except.ok io_plan.io_close := by
          rw [if_neg (fun h => h4 h.2), if_neg (fun h => hdev h.1)]
        rw [hout]
        cases peer <;> simp [hq, hb, hdev, hq0, e1, e2, e3, e4]

/-- Witness of C17 (amended): the subdaemon owns peer 4 and reads STATUS_FAIL_PEER_BAD with
the payload "A". -/
theorem sd_msg_read_fails_peer_on_peer_bad_witness :
    (get_req sample_consts sample_msgname (fromwire_peektype sample_subd_peer_bad.msg_in)
        sample_subd_peer_bad.reqs = none ∧
     fromwire_peektype sample_subd_peer_bad.msg_in ≠ -1 ∧
     fromwire_peektype sample_subd_peer_bad.msg_in ≠ sample_consts.STATUS_TRACE ∧
     Int.land (fromwire_peektype sample_subd_peer_bad.msg_in) sample_consts.STATUS_FAIL ≠ 0 ∧
     ((sample_subd_peer_bad.msg_in.getD []).drop 2).all cisprint = true ∧
     sample_consts.STATUS_FAIL_PEER_BAD ∉ [ sample_consts.STATUS_FAIL_MASTER_IO,
       sample_consts.STATUS_FAIL_HSM_IO, sample_consts.STATUS_FAIL_GOSSIP_IO,
       sample_consts.STATUS_FAIL_INTERNAL_ERROR]) ∧
    (sd_msg_read sample_consts sample_msgname sample_callbacks sample_ld 1
        sample_subd_peer_bad).trace.filter event.is_peer_fail
      = (match sample_subd_peer_bad.peer with
          | some peer =>
            if fromwire_peektype sample_subd_peer_bad.msg_in
                = sample_consts.STATUS_FAIL_PEER_BAD then
              [event.peer_fail_permanent peer ((sample_subd_peer_bad.msg_in.getD []).drop 2)]
            else []
          | none => []) :=
  ⟨⟨by decide, by decide, by decide, by decide, by decide, by decide⟩,
   (sd_msg_read_fails_peer_on_peer_bad sample_consts sample_msgname sample_callbacks
      sample_ld 1 sample_subd_peer_bad (by decide) (by decide) (by decide) (by decide)
      (by decide) (by decide)).1⟩

theorem sd_collect_fds_starts (k : wire_consts) (msgname : Int → String) (cb : callbacks)
    (ld : lightningd) (conn : Nat) (sd : subd) (num_fds : Nat)
    (hn : num_fds ≠ 0) (hf : sd.fds_in = none) :
    sd_collect_fds k msgname cb ld conn sd num_fds
      = { sd := some { sd with fds_in := some (List.replicate num_fds (-1)),
                               num_fds_in_read := 1 },
          trace := [], out := Except.ok (io_plan.io_recv_fd 0) } := by
  rw [sd_collect_fds]
  simp only [hf, ne_eq, not_true_eq_false, if_false]
  rw [read_fds]
  have h0 : ¬ (0 = num_fds) := fun e => hn e.symm
  simp [tal_count, h0]

theorem sd_out_one_transaction (sd : Option subd) (mid : List event) (plan : io_plan)
    (hm : mid.filter event.is_db = []) :
    one_transaction (sd_out sd (event.db_begin_transaction :: mid) plan).trace :=
  ⟨mid, by simp [sd_out], hm⟩

theorem sd_msg_reply_no_db (cb : callbacks) (conn : Nat) (sd : subd) (idx : Nat)
    (sr : subd_req) :
    (sd_msg_reply cb conn sd idx sr).trace.filter event.is_db = [] ∧
    ∃ p, (sd_msg_reply cb conn sd idx sr).out = Except.ok p := by
  simp only [sd_msg_reply, call_replycb]
  cases sr.replycb with
  | ignore_reply => simp [ignore_reply, event.is_db]
  | fn a =>
    simp only
    cases cb.replycb a sr.replycb_data sd.msg_in sd.fds_in
      { sd with conn := none, reqs := sd.reqs.eraseIdx idx, fds_in := none } <;>
      simp [event.is_db]

theorem log_status_fail_no_db (k : wire_consts) (ld : lightningd) (type : Int)
    (str : List u8) : (log_status_fail k ld type str).1.filter event.is_db = [] := by
  simp only [log_status_fail]
  split_ifs <;> simp [event.is_db]

theorem commits_once_abort (sd : subd) (tr : List event) (a : abort) : commits_once (sd_abort sd tr a) := by
  intro plan h
  simp [sd_abort] at h

theorem commits_once_out (sd : Option subd) (tr mid : List event) (plan : io_plan)
    (ht : tr = event.db_begin_transaction :: mid) (hm : mid.filter event.is_db = []) :
    commits_once (sd_out sd tr plan) := by
  intro _ _
  subst ht
  exact sd_out_one_transaction sd mid plan hm

theorem commits_once_malformed (ld : lightningd) (sd : subd) (tr mid : List event)
    (ht : tr = event.db_begin_transaction :: mid) (hm : mid.filter event.is_db = []) :
    commits_once (sd_malformed ld sd tr) := by
  intro plan h
  subst ht
  by_cases hlen : tal_count sd.msg_in < 2
  · rw [sd_malformed_short ld sd _ hlen] at h
    simp at h
  · have hlen2 : 2 ≤ tal_count sd.msg_in := by omega
    rw [sd_malformed_eq ld sd _ hlen2] at h ⊢
    by_cases hd : dev_subdaemon_fail ld = true
    · simp [hd] at h
    · simp only [hd, if_false]
      refine ⟨mid ++ [event.log_malformed (fromwire_peektype sd.msg_in)
        (size_sub (tal_count sd.msg_in) 2)], by simp, ?_⟩
      simp [hm, event.is_db]

theorem commits_once_goto_out_tr (tr mid : List event) (r : io_result)
    (ht : tr = event.db_begin_transaction :: mid) (hm : mid.filter event.is_db = [])
    (hr : r.trace.filter event.is_db = []) :
    commits_once (sd_goto_out tr r) := by
  intro plan h
  subst ht
  simp only [sd_goto_out] at h ⊢
  split at h
  · rename_i p hp
    have := sd_out_one_transaction r.sd (mid ++ r.trace) p (by simp [hm, hr])
    simpa using this
  · simp at h

theorem commits_once_collect (k : wire_consts) (msgname : Int → String)
    (cb : callbacks) (ld : lightningd) (conn : Nat) (sd : subd) (num_fds : Nat)
    (tr mid : List event)
    (ht : tr = event.db_begin_transaction :: mid) (hm : mid.filter event.is_db = [])
    (hn : num_fds ≠ 0) (hf : sd.fds_in = none) :
    commits_once (sd_goto_out tr (sd_collect_fds k msgname cb ld conn sd num_fds)) := by
  rw [sd_collect_fds_starts k msgname cb ld conn sd num_fds hn hf]
  exact commits_once_goto_out_tr tr mid _ ht hm (by simp)

theorem sd_msg_read_commits_once (k : wire_consts) (msgname : Int → String)
    (cb : callbacks) (ld : lightningd) (conn : Nat) (sd : subd) :
    commits_once (sd_msg_read k msgname cb ld conn sd) := by
  rw [sd_msg_read]
  dsimp only
  repeat' split
  all_goals first
    | exact commits_once_abort _ _ _
    | exact commits_once_malformed _ _ _ _ rfl (by simp [event.is_db, log_status_fail_no_db])
    | exact commits_once_out _ _ _ _ rfl (by simp [event.is_db, log_status_fail_no_db])
    | exact commits_once_goto_out_tr _ _ _ rfl (by simp [event.is_db])
        (sd_msg_reply_no_db _ _ _ _ _).1
    | exact commits_once_collect _ _ _ _ _ _ _ _ _ rfl (by simp [event.is_db])
        (And.left (by assumption)) (And.right (by assumption))
    | exact commits_once_collect _ _ _ _ _ _ _ _ _ rfl (by simp [event.is_db])
        (by assumption) (not_not.mp (by assumption))

/-- C18: on every path of one `sd_msg_read` call that returns a plan, the trace is one
transaction: it starts with the one `db_begin_transaction`, ends with the one
`db_commit_transaction`, and what lies between holds no store call, so no second begin
(no re-entry of `sd_msg_read`), and holds every call of a reply callback, of `msgcb` and
of `peer_fail_permanent`. -/
theorem sd_msg_read_one_transaction (k : wire_consts) (msgname : Int → String)
    (cb : callbacks) (ld : lightningd) (conn : Nat) (sd : subd) (plan : io_plan)
    (h : (sd_msg_read k msgname cb ld conn sd).out = Except.ok plan) :
    (∃ mid, (sd_msg_read k msgname cb ld conn sd).trace
        = event.db_begin_transaction :: mid ++ [event.db_commit_transaction]
      ∧ mid.filter event.is_db = []
      ∧ ∀ e ∈ (sd_msg_read k msgname cb ld conn sd).trace, e.is_dispatch = true → e ∈ mid) ∧
    (sd_msg_read k msgname cb ld conn sd).trace.count event.db_begin_transaction = 1 ∧
    (sd_msg_read k msgname cb ld conn sd).trace.count event.db_commit_transaction = 1 ∧
    (sd_msg_read k msgname cb ld conn sd).trace.head? = some event.db_begin_transaction ∧
    (sd_msg_read k msgname cb ld conn sd).trace.getLast? = some event.db_commit_transaction := by
  obtain ⟨mid, ht, hm⟩ := sd_msg_read_commits_once k msgname cb ld conn sd plan h
  have hb : mid.count event.db_begin_transaction = 0 := by
    rw [List.count_eq_zero]
    intro hmem
    have : event.db_begin_transaction ∈ mid.filter event.is_db :=
      List.mem_filter.mpr ⟨hmem, rfl⟩
    rw [hm] at this
    exact List.not_mem_nil _ this
  have hc : mid.count event.db_commit_transaction = 0 := by
    rw [List.count_eq_zero]
    intro hmem
    have : event.db_commit_transaction ∈ mid.filter event.is_db :=
      List.mem_filter.mpr ⟨hmem, rfl⟩
    rw [hm] at this
    exact List.not_mem_nil _ this
  refine ⟨⟨mid, ht, hm, ?_⟩, ?_, ?_, ?_, ?_⟩
  · intro e he hdis
    rw [ht] at he
    simp only [List.cons_append, List.mem_cons, List.mem_append, List.mem_singleton,
      List.not_mem_nil, or_false] at he
    rcases he with he | he | he
    · rw [he] at hdis
      exact absurd hdis (by decide)
    · exact he
    · rw [he] at hdis
      exact absurd hdis (by decide)
  · rw [ht]
    simp [List.count_cons, hb]
  · rw [ht]
    simp [List.count_cons, hc]
  · rw [ht]
    simp
  · rw [ht]
    exact List.getLast?_concat _

/-- Witness of C18: the reply to request 2 is delivered while requests 1 and 2 are
pending. -/
theorem sd_msg_read_one_transaction_witness :
    (sd_msg_read sample_consts sample_msgname sample_callbacks sample_ld 1 sample_subd_ab).out
      = Except.ok io_plan.io_read_wire ∧
    (sd_msg_read sample_consts sample_msgname sample_callbacks sample_ld 1
        sample_subd_ab).trace.count event.db_begin_transaction = 1 ∧
    (sd_msg_read sample_consts sample_msgname sample_callbacks sample_ld 1
        sample_subd_ab).trace.count event.db_commit_transaction = 1 :=
  have h : (sd_msg_read sample_consts sample_msgname sample_callbacks sample_ld 1
      sample_subd_ab).out = Except.ok io_plan.io_read_wire := by
    rw [sd_msg_read]
    rfl
  have t := sd_msg_read_one_transaction sample_consts sample_msgname sample_callbacks
    sample_ld 1 sample_subd_ab io_plan.io_read_wire h
  ⟨h, t.2.1, t.2.2.1⟩

/-! ## Theorems: launching and sending -/

theorem spawn_failure_results (os : spawn_os) (conn : Nat) (name : String)
    (peer msgcb : Option Nat) (ap : List (Int × Bool))
    (h : (subd_spawn os none).pid = -1) :
    (subd_raw os).1 = -1 ∧
    (new_peer_subd os conn name peer msgcb ap).sd = none ∧
    (new_global_subd os conn name msgcb ap).out
      = Except.error (abort.undefined "sd->must_not_exit = true with sd == NULL") := by
  cases os <;> simp_all [subd_spawn, subd_raw, new_peer_subd, new_global_subd, new_subd]

/-- C19: the child could not run the executable, so `subd` returns -1. `subd_raw` returns
-1 and `new_peer_subd` returns `NULL`, no subdaemon left behind; but `new_global_subd`
does not return `NULL`: it stores to `sd->must_not_exit` through the `NULL` pointer that
`new_subd` handed back, which is undefined behaviour. -/
theorem new_global_subd_dereferences_null_on_spawn_failure :
    (subd_spawn sample_exec_failed (some [])).pid = -1 ∧
    (subd_spawn sample_exec_failed none).pid = -1 ∧
    (subd_raw sample_exec_failed).1 = -1 ∧
    (new_peer_subd sample_exec_failed 1 "lightning_channeld" (some 4) (some 9) []).sd = none ∧
    (new_peer_subd sample_exec_failed 1 "lightning_channeld" (some 4) (some 9) []).out
      = Except.ok () ∧
    (new_global_subd sample_exec_failed 1 "lightning_gossipd" (some 9) []).sd = none ∧
    (new_global_subd sample_exec_failed 1 "lightning_gossipd" (some 9) []).out
      = Except.error (abort.undefined "sd->must_not_exit = true with sd == NULL") := by
  refine ⟨by decide, by decide, by decide, by decide, by rfl, by decide, by rfl⟩

/-- C20: `subd_req_` on a message whose type name starts with "INVALID" fails the assertion
of `subd_send_msg` and leaves the subdaemon as it was, nothing enqueued. Otherwise it
appends the message to the outbound queue, then the descriptor handoff when `fd_out >= 0`,
and then, when the name of the reply type ends in "_REPLY", exactly one request at the tail
of the request list, with the peeked type of the message and `num_fds_in` as expected fd
count, the earlier requests staying in front in their order; when the reply name does not
end in "_REPLY" the assertion of `add_req` fails after the enqueueing. -/
theorem subd_req_enqueues_then_registers (k : wire_consts) (msgname : Int → String)
    (ctx : Option Nat) (sd : subd) (msg_out : List u8) (fd_out : Int) (num_fds_in : Nat)
    (replycb : reply_fn) (replycb_data : Nat) :
    subd_req_ k msgname ctx sd msg_out fd_out num_fds_in replycb replycb_data
      = (if strstarts (msgname (fromwire_peektype (some msg_out))) "INVALID" = true then
          { sd := some sd, trace := [],
            out := Except.error (abort.assertion
              "!strstarts(sd->msgname(fromwire_peektype(msg_out)), INVALID)") }
        else if strends (msgname (fromwire_peektype (some msg_out) + k.SUBD_REPLY_OFFSET))
            "_REPLY" = true then
          { sd := some
              { sd with
                outq := sd.outq ++ [out_item.msg msg_out]
                  ++ (if fd_out ≥ 0 then [out_item.fd fd_out] else []),
                reqs := sd.reqs ++
                  [{ type := fromwire_peektype (some msg_out), replycb := replycb,
                     replycb_data := replycb_data, num_reply_fds := num_fds_in,
                     disabler := ctx }] },
            trace := [], out := Except.ok () }
        else
          { sd := some
              { sd with
                outq := sd.outq ++ [out_item.msg msg_out]
                  ++ (if fd_out ≥ 0 then [out_item.fd fd_out] else []) },
            trace := [],
            out := Except.error (abort.assertion
              "strends(sd->msgname(sr->type + SUBD_REPLY_OFFSET), _REPLY)") }) := by
  by_cases h1 : strstarts (msgname (fromwire_peektype (some msg_out))) "INVALID" = true
  · simp [subd_req_, subd_send_msg, h1]
  · by_cases h2 : strends (msgname (fromwire_peektype (some msg_out) + k.SUBD_REPLY_OFFSET))
        "_REPLY" = true
    · by_cases hf : fd_out ≥ 0 <;>
        simp [subd_req_, subd_send_msg, subd_send_fd, add_req, h1, h2, hf]
    · by_cases hf : fd_out ≥ 0 <;>
        simp [subd_req_, subd_send_msg, subd_send_fd, add_req, h1, h2, hf]

/-! ## Theorems: the remaining claims on subd.c -/

theorem log_status_fail_levels (k : wire_consts) (ld : lightningd) (type : Int)
    (str : List u8) :
    (log_status_fail k ld type str).1.filterMap event.level
      = (if type ∈ [ k.STATUS_FAIL_MASTER_IO, k.STATUS_FAIL_HSM_IO, k.STATUS_FAIL_GOSSIP_IO,
            k.STATUS_FAIL_INTERNAL_ERROR] then [log_level.broken]
        else if type ∈ [ k.STATUS_FAIL_PEER_IO, k.STATUS_FAIL_PEER_BAD] then [log_level.info]
        else []) := by
  by_cases h1 : type = k.STATUS_FAIL_MASTER_IO
  · subst h1
    simp [log_status_fail, event.level]
  by_cases h2 : type = k.STATUS_FAIL_HSM_IO
  · subst h2
    simp [log_status_fail, h1, event.level]
  by_cases h3 : type = k.STATUS_FAIL_GOSSIP_IO
  · subst h3
    simp [log_status_fail, h1, h2, event.level]
  by_cases h4 : type = k.STATUS_FAIL_INTERNAL_ERROR
  · subst h4
    simp [log_status_fail, h1, h2, h3, event.level]
  by_cases h5 : type = k.STATUS_FAIL_PEER_IO
  · subst h5
    simp [log_status_fail, h1, h2, h3, h4, event.level]
  by_cases h6 : type = k.STATUS_FAIL_PEER_BAD
  · subst h6
    simp [log_status_fail, h1, h2, h3, h4, h5, event.level]
  simp [log_status_fail, h1, h2, h3, h4, h5, h6, event.level]

/-- C22 (counterexample): in a `DEVELOPER` build run with `dev_subdaemon_fail`,
`log_status_fail` on the known type STATUS_FAIL_INTERNAL_ERROR does not return true: it logs
at level broken and then ends the process in `fatal`. -/
theorem log_status_fail_internal_can_abort :
    dev_subdaemon_fail sample_ld_dev_fail = true ∧
    log_status_fail sample_consts sample_ld_dev_fail sample_consts.STATUS_FAIL_INTERNAL_ERROR
        [65]
      = ([event.log log_level.broken "STATUS_FAIL_INTERNAL_ERROR: %.*s" [65]],
         Except.error (abort.fatal "Subdaemon %s hit error")) ∧
    (log_status_fail sample_consts sample_ld_dev_fail sample_consts.STATUS_FAIL_INTERNAL_ERROR
        [65]).2 ≠ Except.ok true := by
  refine ⟨by decide, by rfl, ?_⟩
  intro h
  cases h

/-- C22 (amended): `log_status_fail` returns false exactly for a type that is none of the six
known failure-status types, and logs nothing then. For the four internal classes (master
I/O, HSM I/O, gossip I/O, internal error) it logs once at level broken and returns true,
except that when the developer subdaemon-fail flag is set it ends the process in `fatal`
after the log instead of returning. For the two peer-caused classes (peer I/O, peer bad) it
logs once at level info and returns true, whatever the flag: it never aborts the node for
them. -/
theorem log_status_fail_result_and_level (k : wire_consts) (ld : lightningd) (type : Int)
    (str : List u8) :
    (log_status_fail k ld type str).2
      = (if type ∈ [ k.STATUS_FAIL_MASTER_IO, k.STATUS_FAIL_HSM_IO, k.STATUS_FAIL_GOSSIP_IO,
            k.STATUS_FAIL_INTERNAL_ERROR] then
          (if dev_subdaemon_fail ld = true then
            Except.error (abort.fatal "Subdaemon %s hit error")
          else Except.ok true)
        else if type ∈ [ k.STATUS_FAIL_PEER_IO, k.STATUS_FAIL_PEER_BAD] then Except.ok true
        else Except.ok false) ∧
    (log_status_fail k ld type str).1.filterMap event.level
      = (if type ∈ [ k.STATUS_FAIL_MASTER_IO, k.STATUS_FAIL_HSM_IO, k.STATUS_FAIL_GOSSIP_IO,
            k.STATUS_FAIL_INTERNAL_ERROR] then [log_level.broken]
        else if type ∈ [ k.STATUS_FAIL_PEER_IO, k.STATUS_FAIL_PEER_BAD] then [log_level.info]
        else []) ∧
    (log_status_fail k ld type str).1.length
      = (if type ∈ [ k.STATUS_FAIL_MASTER_IO, k.STATUS_FAIL_HSM_IO, k.STATUS_FAIL_GOSSIP_IO,
            k.STATUS_FAIL_INTERNAL_ERROR, k.STATUS_FAIL_PEER_IO, k.STATUS_FAIL_PEER_BAD]
          then 1 else 0) ∧
    ((log_status_fail k ld type str).2 = Except.ok false
      ↔ type ∉ [ k.STATUS_FAIL_MASTER_IO, k.STATUS_FAIL_HSM_IO, k.STATUS_FAIL_GOSSIP_IO,
          k.STATUS_FAIL_INTERNAL_ERROR, k.STATUS_FAIL_PEER_IO, k.STATUS_FAIL_PEER_BAD]) := by
  refine ⟨(log_status_fail_class k ld type str).2, log_status_fail_levels k ld type str,
    ?_, ?_⟩
  · simp only [log_status_fail]
    split_ifs <;> simp_all
  · rw [(log_status_fail_class k ld type str).2]
    by_cases h4 : type ∈ [ k.STATUS_FAIL_MASTER_IO, k.STATUS_FAIL_HSM_IO,
        k.STATUS_FAIL_GOSSIP_IO, k.STATUS_FAIL_INTERNAL_ERROR]
    · have h6 : type ∈ [ k.STATUS_FAIL_MASTER_IO, k.STATUS_FAIL_HSM_IO,
          k.STATUS_FAIL_GOSSIP_IO, k.STATUS_FAIL_INTERNAL_ERROR, k.STATUS_FAIL_PEER_IO,
          k.STATUS_FAIL_PEER_BAD] := by
        simp only [List.mem_cons, List.mem_singleton, List.not_mem_nil, or_false] at h4 ⊢
        tauto
      by_cases hd : dev_subdaemon_fail ld = true <;> simp [h4, h6, hd]
    · by_cases h2 : type ∈ [ k.STATUS_FAIL_PEER_IO, k.STATUS_FAIL_PEER_BAD]
      · have h6 : type ∈ [ k.STATUS_FAIL_MASTER_IO, k.STATUS_FAIL_HSM_IO,
            k.STATUS_FAIL_GOSSIP_IO, k.STATUS_FAIL_INTERNAL_ERROR, k.STATUS_FAIL_PEER_IO,
            k.STATUS_FAIL_PEER_BAD] := by
          simp only [List.mem_cons, List.mem_singleton, List.not_mem_nil, or_false] at h2 ⊢
          tauto
        simp [h4, h2, h6]
      · have h6 : type ∉ [ k.STATUS_FAIL_MASTER_IO, k.STATUS_FAIL_HSM_IO,
            k.STATUS_FAIL_GOSSIP_IO, k.STATUS_FAIL_INTERNAL_ERROR, k.STATUS_FAIL_PEER_IO,
            k.STATUS_FAIL_PEER_BAD] := by
          simp only [List.mem_cons, List.mem_singleton, List.not_mem_nil, or_false]
            at h2 h4 ⊢
          tauto
        simp [h4, h2, h6]

theorem set_append_replicate (pre : List Int) (m : Nat) (x fd : Int) :
    (pre ++ List.replicate (m + 1) x).set pre.length fd
      = (pre ++ [fd]) ++ List.replicate m x := by
  induction pre with
  | nil => simp [List.replicate_succ]
  | cons a t ih => simpa using ih

theorem io_recv_fd_done_more (k : wire_consts) (msgname : Int → String) (cb : callbacks)
    (ld : lightningd) (conn : Nat) (sd : subd) (pre : List Int) (m : Nat) (fd : Int)
    (hf : sd.fds_in = some (pre ++ List.replicate (m + 2) (-1)))
    (hr : sd.num_fds_in_read = pre.length + 1) :
    io_recv_fd_done k msgname cb ld conn sd pre.length fd
      = { sd := some { sd with fds_in := some ((pre ++ [fd]) ++ List.replicate (m + 1) (-1)),
                               num_fds_in_read := (pre ++ [fd]).length + 1 },
          trace := [],
          out := Except.ok (io_plan.io_recv_fd (pre ++ [fd]).length) } := by
  rw [io_recv_fd_done, read_fds]
  simp [hf, hr, tal_count, List.replicate_succ]

theorem io_recv_fd_done_last (k : wire_consts) (msgname : Int → String) (cb : callbacks)
    (ld : lightningd) (conn : Nat) (sd : subd) (pre : List Int) (fd : Int)
    (hf : sd.fds_in = some (pre ++ List.replicate 1 (-1)))
    (hr : sd.num_fds_in_read = pre.length + 1) :
    io_recv_fd_done k msgname cb ld conn sd pre.length fd
      = read_fds k msgname cb ld conn
          { sd with fds_in := some (pre ++ [fd]), num_fds_in_read := pre.length + 1 } := by
  rw [io_recv_fd_done]
  simp [hf, ← hr, set_append_replicate]


theorem recv_fds_partial (k : wire_consts) (msgname : Int → String) (cb : callbacks)
    (ld : lightningd) (conn : Nat) (fs : List Int) :
    ∀ (sd : subd) (pre : List Int) (m : Nat),
      sd.fds_in = some (pre ++ List.replicate (fs.length + (m + 1)) (-1)) →
      sd.num_fds_in_read = pre.length + 1 →
      recv_fds k msgname cb ld conn fs
          { sd := some sd, trace := [], out := Except.ok (io_plan.io_recv_fd pre.length) }
        = some { sd := some { sd with
                    fds_in := some ((pre ++ fs) ++ List.replicate (m + 1) (-1)),
                    num_fds_in_read := (pre ++ fs).length + 1 },
                 trace := [],
                 out := Except.ok (io_plan.io_recv_fd (pre ++ fs).length) } := by
  induction fs with
  | nil =>
    intro sd pre m hf hr
    obtain ⟨pid, name, mne, msgcb, peer, c, msg_in, fds_in, nr, reqs, outq⟩ := sd
    simp only at hf hr
    subst hf
    subst hr
    simp [recv_fds]
  | cons d rest ih =>
    intro sd pre m hf hr
    have hf2 : sd.fds_in = some (pre ++ List.replicate ((rest.length + m) + 2) (-1)) := by
      rw [hf]
      simp only [List.length_cons]
      congr 3
      omega
    rw [recv_fds]
    simp only
    rw [io_recv_fd_done_more k msgname cb ld conn sd pre (rest.length + m) d hf2 hr]
    have h3 := ih { sd with fds_in := some ((pre ++ [d]) ++ List.replicate (rest.length + m + 1) (-1)),
                            num_fds_in_read := (pre ++ [d]).length + 1 } (pre ++ [d]) m
      (by simp only [Nat.add_assoc]) rfl
    rw [h3]
    simp

theorem recv_fds_complete (k : wire_consts) (msgname : Int → String) (cb : callbacks)
    (ld : lightningd) (conn : Nat) (fs : List Int) :
    ∀ (sd : subd) (pre : List Int) (d : Int),
      sd.fds_in = some (pre ++ List.replicate (fs.length + 1) (-1)) →
      sd.num_fds_in_read = pre.length + 1 →
      recv_fds k msgname cb ld conn (fs ++ [d])
          { sd := some sd, trace := [], out := Except.ok (io_plan.io_recv_fd pre.length) }
        = some (read_fds k msgname cb ld conn
            { sd with fds_in := some (pre ++ (fs ++ [d])),
                      num_fds_in_read := (pre ++ (fs ++ [d])).length }) := by
  induction fs with
  | nil =>
    intro sd pre d hf hr
    rw [List.nil_append, recv_fds]
    simp only
    rw [io_recv_fd_done_last k msgname cb ld conn sd pre d hf hr, recv_fds]
    simp
  | cons a rest ih =>
    intro sd pre d hf hr
    have hf2 : sd.fds_in = some (pre ++ List.replicate (rest.length + 2) (-1)) := by
      rw [hf]
      simp only [List.length_cons]
    rw [List.cons_append, recv_fds]
    simp only
    rw [io_recv_fd_done_more k msgname cb ld conn sd pre rest.length a hf2 hr]
    have h3 := ih { sd with fds_in := some ((pre ++ [a]) ++ List.replicate (rest.length + 1) (-1)),
                            num_fds_in_read := (pre ++ [a]).length + 1 } (pre ++ [a]) d rfl rfl
    rw [h3]
    simp


theorem get_req_unchanged (k : wire_consts) (msgname : Int → String) (t : Int)
    (l : List subd_req) :
    ∀ f, get_req k msgname t l = some f → f.sr.num_reply_fds ≠ 0 → f.reqs = l := by
  induction l with
  | nil =>
    intro f h
    simp [get_req] at h
  | cons a rest ih =>
    intro f h hn
    rw [get_req] at h
    split at h
    · cases h
      rfl
    · split at h
      · cases h
        exact absurd rfl hn
      · cases hg : get_req k msgname t rest with
        | none =>
          rw [hg] at h
          cases h
        | some g =>
          rw [hg] at h
          simp only [Option.map_some'] at h
          cases h
          simp only at hn ⊢
          rw [ih g hg hn]

/-- C23: for every n >= 1 and a subdaemon with no descriptor array, `sd_collect_fds(conn,
sd, n)` asks for one descriptor, and as the descriptors arrive each of the first n - 1
completions of `read_fds` asks for the next one without entering `sd_msg_read` (empty trace,
plan `io_recv_fd` on the next slot); the n-th completion sets the n descriptors blocking and
enters `sd_msg_read` for the same message with `fds_in` holding exactly the n descriptors.
So exactly n receive steps happen. When the message is the reply to a request expecting n
descriptors, that re-entered call passes the assertion
`sr->num_reply_fds == tal_count(sd->fds_in)` and goes on to `sd_msg_reply`. -/
theorem sd_collect_fds_receives_n_fds (k : wire_consts) (msgname : Int → String)
    (cb : callbacks) (ld : lightningd) (conn : Nat) (sd : subd) (fds : List Int)
    (hn : 1 ≤ fds.length) (hnone : sd.fds_in = none) :
    (∀ i, i < fds.length →
      recv_fds k msgname cb ld conn (fds.take i)
          (sd_collect_fds k msgname cb ld conn sd fds.length)
        = some { sd := some (sd_fds_wait sd fds fds.length i), trace := [],
                 out := Except.ok (io_plan.io_recv_fd i) }) ∧
    recv_fds k msgname cb ld conn fds (sd_collect_fds k msgname cb ld conn sd fds.length)
      = some { sd := (sd_msg_read k msgname cb ld conn (sd_fds_read sd fds)).sd,
               trace := fds.map event.io_fd_block
                 ++ (sd_msg_read k msgname cb ld conn (sd_fds_read sd fds)).trace,
               out := (sd_msg_read k msgname cb ld conn (sd_fds_read sd fds)).out } ∧
    tal_count (sd_fds_read sd fds).fds_in = fds.length ∧
    (sd_fds_read sd fds).msg_in = sd.msg_in ∧
    (∀ f, fromwire_peektype sd.msg_in ≠ -1 →
      get_req k msgname (fromwire_peektype sd.msg_in) sd.reqs = some f →
      f.sr.num_reply_fds = fds.length →
      sd_msg_read k msgname cb ld conn (sd_fds_read sd fds)
        = sd_goto_out [event.db_begin_transaction]
            (sd_msg_reply cb conn (sd_fds_read sd fds) f.idx f.sr)) := by
  have hn0 : fds.length ≠ 0 := by omega
  rw [sd_collect_fds_starts k msgname cb ld conn sd fds.length hn0 hnone]
  refine ⟨?_, ?_, rfl, rfl, ?_⟩
  · intro i hi
    have hlen : (fds.take i).length = i := by
      rw [List.length_take]
      omega
    have h := recv_fds_partial k msgname cb ld conn (fds.take i)
      { sd with fds_in := some (List.replicate fds.length (-1)), num_fds_in_read := 1 }
      [] (fds.length - i - 1)
      (by
        simp only [List.nil_append, hlen]
        congr 2
        omega)
      rfl
    simp only [List.length_nil, List.nil_append, hlen] at h
    rw [h]
    have e : fds.length - i - 1 + 1 = fds.length - i := by omega
    simp only [sd_fds_wait, e]
  · rcases List.eq_nil_or_concat fds with h | ⟨init, d, h⟩
    · rw [h] at hn
      simp at hn
    · rw [List.concat_eq_append] at h
      subst h
      have h := recv_fds_complete k msgname cb ld conn init
        { sd with fds_in := some (List.replicate (init ++ [d]).length (-1)),
                  num_fds_in_read := 1 }
        [] d (by simp) rfl
      simp only [List.length_nil, List.nil_append] at h
      rw [h, read_fds]
      simp [tal_count, sd_fds_read]
  · intro f ht hg hf
    have hne : f.sr.num_reply_fds ≠ 0 := by omega
    have hreqs := get_req_unchanged k msgname _ sd.reqs f hg hne
    have hg2 : get_req k msgname (fromwire_peektype (sd_fds_read sd fds).msg_in)
        (sd_fds_read sd fds).reqs = some f := hg
    have hself : ({ sd_fds_read sd fds with reqs := f.reqs } : subd) = sd_fds_read sd fds := by
      rw [hreqs]
      rfl
    rw [sd_msg_read]
    have ht2 : ¬ (fromwire_peektype (sd_fds_read sd fds).msg_in = -1) := ht
    simp only [ht2, if_false, hg2, hself]
    have hfd : (sd_fds_read sd fds).fds_in = some fds := rfl
    simp [hfd, hf, tal_count]

/-- Witness of C23: request 1 expects two descriptors and its reply (type 101) has been read;
descriptors 11 and 12 arrive. -/
theorem sd_collect_fds_receives_n_fds_witness :
    (1 ≤ [(11 : Int), 12].length ∧ sample_subd_expects.fds_in = none) ∧
    recv_fds sample_consts sample_msgname sample_callbacks sample_ld 1 [11, 12]
        (sd_collect_fds sample_consts sample_msgname sample_callbacks sample_ld 1
          sample_subd_expects [(11 : Int), 12].length)
      = some { sd := (sd_msg_read sample_consts sample_msgname sample_callbacks sample_ld 1
                        (sd_fds_read sample_subd_expects [11, 12])).sd,
               trace := [(11 : Int), 12].map event.io_fd_block
                 ++ (sd_msg_read sample_consts sample_msgname sample_callbacks sample_ld 1
                        (sd_fds_read sample_subd_expects [11, 12])).trace,
               out := (sd_msg_read sample_consts sample_msgname sample_callbacks sample_ld 1
                        (sd_fds_read sample_subd_expects [11, 12])).out } :=
  ⟨⟨by decide, by decide⟩,
   (sd_collect_fds_receives_n_fds sample_consts sample_msgname sample_callbacks sample_ld 1
      sample_subd_expects [11, 12] (by decide) (by decide)).2.1⟩

/-- C30 (the code at a failing input): a message of one byte is too short for the 2-byte
type, so the peeked type is -1 and `sd_msg_read` goes to `malformed:`; there
`subdaemon_malformed_msg` computes `tal_count(msg) - sizeof(be16)` as 1 - 2 in `size_t`,
which wraps to 2^64 - 1, the length it hands to `tal_hexstr` together with `msg + 2`: a
read far past the message, which is undefined, so that `sd_msg_read` returns no plan. The
other helper is safe: `string_from_msg` is called only behind `type != -1`, where the
message has its header. -/
theorem sd_msg_read_short_message_wraps_length :
    tal_count sample_subd_short.msg_in = 1 ∧
    fromwire_peektype sample_subd_short.msg_in = -1 ∧
    (sd_msg_read sample_consts sample_msgname sample_callbacks sample_ld 1
        sample_subd_short).trace
      = [event.db_begin_transaction, event.log_malformed (-1) 18446744073709551615] ∧
    (sd_msg_read sample_consts sample_msgname sample_callbacks sample_ld 1
        sample_subd_short).out
      = Except.error (abort.undefined "tal_hexstr reads past the end of msg") ∧
    (subdaemon_malformed_msg sample_ld sample_subd_short.msg_in).1
      = [event.log_malformed (-1) (2 ^ 64 - 1)] ∧
    (∀ msg : Option (List u8), fromwire_peektype msg ≠ -1 → 2 ≤ tal_count msg) := by
  refine ⟨by decide, by decide, ?_, ?_, by decide, peektype_ge_two⟩
  · rw [sd_msg_read]
    decide
  · rw [sd_msg_read]
    rfl

/-! ## Theorems: destroying a channel -/

/-- C25: for every list of channels of a peer and every channel in it (entry `idx`),
`destroy_channel` returns; it leaves the channel without owner and calls
`subd_release_channel` on the old owner exactly when there was one; the peer's list
afterwards is the list before without entry `idx`, the other channels in their order; and
the peer is freed if and only if that list is empty, which is the case exactly when the
destroyed channel was the only one. -/
theorem destroy_channel_unlinks_and_frees_last (channels : List channel) (idx : Nat)
    (h : idx < channels.length) :
    ∃ r, destroy_channel channels idx = Except.ok r ∧
      r.destroyed = { channels[idx] with owner := none } ∧
      r.trace = (match channels[idx].owner with
                 | some old_owner => [chan_event.subd_release_channel old_owner channels[idx].dbid]
                 | none => []) ∧
      r.channels = channels.take idx ++ channels.drop (idx + 1) ∧
      r.channels.length + 1 = channels.length ∧
      (r.peer_freed = true ↔ r.channels = []) ∧
      (r.peer_freed = true ↔ channels.length = 1) := by
  have hget : channels[idx]? = some channels[idx] := List.getElem?_eq_getElem h
  have hlen : (channels.eraseIdx idx).length + 1 = channels.length := by
    rw [List.length_eraseIdx, if_pos h]
    omega
  have hd : destroy_channel channels idx
      = Except.ok { destroyed := (channel_set_owner channels[idx] none).1,
                    channels := channels.eraseIdx idx,
                    trace := (channel_set_owner channels[idx] none).2,
                    peer_freed := (channels.eraseIdx idx).isEmpty } := by
    simp only [destroy_channel, hget]
  refine ⟨_, hd, rfl, rfl, ?_, hlen, ?_, ?_⟩
  · exact List.eraseIdx_eq_take_drop_succ channels idx
  · simp only [List.isEmpty_iff]
  · simp only [List.isEmpty_iff]
    constructor
    · intro e
      rw [e] at hlen
      simpa using hlen.symm
    · intro e
      rw [e] at hlen
      exact List.length_eq_zero.mp (by omega)

/-- Witness of C25: a peer with two channels, of which the first is destroyed; and a peer
with one channel. -/
theorem destroy_channel_unlinks_and_frees_last_witness :
    (0 < [sample_channel, sample_channel_err].length ∧ 0 < [sample_channel].length) ∧
    (∃ r, destroy_channel [sample_channel, sample_channel_err] 0 = Except.ok r ∧
      r.channels = [sample_channel_err] ∧ r.peer_freed = false) ∧
    (∃ r, destroy_channel [sample_channel] 0 = Except.ok r ∧
      r.channels = [] ∧ r.peer_freed = true) := by
  refine ⟨⟨by decide, by decide⟩, ?_, ?_⟩
  · obtain ⟨r, h1, _, _, h4, _, _, h7⟩ :=
      destroy_channel_unlinks_and_frees_last [sample_channel, sample_channel_err] 0
        (by decide)
    refine ⟨r, h1, h4, ?_⟩
    cases hb : r.peer_freed
    · rfl
    · exact absurd (h7.mp hb) (by decide)
  · obtain ⟨r, h1, _, _, h4, _, _, h7⟩ :=
      destroy_channel_unlinks_and_frees_last [sample_channel] 0 (by decide)
    exact ⟨r, h1, h4, h7.mpr (by decide)⟩

/-! ## Theorems: common/wireaddr.c -/

theorem fromwire_bool_one (rest : List u8) :
    fromwire_bool (some (1 :: rest)) = (some rest, true) := by
  simp [fromwire_bool, fromwire, wire_max, tal_count]

theorem fromwire_wireaddr_or_sockname_one (sockname_size : Nat) (rest : List u8) :
    fromwire_wireaddr_or_sockname sockname_size (some (1 :: rest))
      = Except.ok
          { cursor := if (fromwire_u8_array (some rest) sockname_size).2.contains 0
                      then (fromwire_u8_array (some rest) sockname_size).1
                      else fromwire_fail (fromwire_u8_array (some rest) sockname_size).1,
            addr := { is_sockname := true,
                      sockname := (fromwire_u8_array (some rest) sockname_size).2,
                      wireaddr := none },
            ret := (if (fromwire_u8_array (some rest) sockname_size).2.contains 0
                    then (fromwire_u8_array (some rest) sockname_size).1
                    else fromwire_fail
                      (fromwire_u8_array (some rest) sockname_size).1).isSome } := by
  simp only [fromwire_wireaddr_or_sockname, fromwire_bool_one, if_true]

/-- C21: for every buffer whose first field is the boolean true (the byte 1, which says
`sockname`), `fromwire_wireaddr_or_sockname` returns, and it returns true if and only if
the rest of the buffer holds the whole `sockname` array (`sockname_size` bytes) and that
array has a zero byte; then the cursor stands behind the array and `u.sockname` holds its
bytes. When the array is there and has no zero byte, the cursor is failed (`NULL`) and the
result is false. -/
theorem fromwire_wireaddr_or_sockname_needs_terminator (sockname_size : Nat)
    (rest : List u8) :
    ∃ r, fromwire_wireaddr_or_sockname sockname_size (some (1 :: rest)) = Except.ok r ∧
      r.addr.is_sockname = true ∧
      (r.ret = true ↔ (sockname_size ≤ rest.length ∧ (0 : u8) ∈ rest.take sockname_size)) ∧
      (sockname_size ≤ rest.length → (0 : u8) ∉ rest.take sockname_size →
        r.cursor = none ∧ r.ret = false) ∧
      (r.ret = true →
        r.cursor = some (rest.drop sockname_size) ∧
        r.addr.sockname = rest.take sockname_size) := by
  by_cases hlen : rest.length < sockname_size
  · refine ⟨_, fromwire_wireaddr_or_sockname_one sockname_size rest, rfl,
      ?_, ?_, ?_⟩
    · simp [fromwire_u8_array, fromwire, wire_max, tal_count, hlen, fromwire_fail]
    · intro h
      omega
    · simp [fromwire_u8_array, fromwire, wire_max, tal_count, hlen, fromwire_fail]
  · have hle : sockname_size ≤ rest.length := by omega
    by_cases hz : (0 : u8) ∈ rest.take sockname_size
    · refine ⟨_, fromwire_wireaddr_or_sockname_one sockname_size rest,
        rfl, ?_, ?_, ?_⟩
      · simp [fromwire_u8_array, fromwire, wire_max, tal_count, hlen, hz, hle]
      · intro _ h
        exact absurd hz h
      · simp [fromwire_u8_array, fromwire, wire_max, tal_count, hlen, hz]
    · refine ⟨_, fromwire_wireaddr_or_sockname_one sockname_size rest,
        rfl, ?_, ?_, ?_⟩
      · simp [fromwire_u8_array, fromwire, wire_max, tal_count, hlen, hz, fromwire_fail]
      · intro _ _
        simp [fromwire_u8_array, fromwire, wire_max, tal_count, hlen, hz, fromwire_fail]
      · simp [fromwire_u8_array, fromwire, wire_max, tal_count, hlen, hz, fromwire_fail]

theorem fromwire_stores_n (c : wire_cursor) (n : Nat) : (fromwire c n).2.length = n := by
  unfold fromwire
  split
  · simp
  · rename_i h
    cases c with
    | none =>
      simp only [wire_max, tal_count, Nat.not_lt, Nat.le_zero_eq] at h
      simp [h]
    | some bytes =>
      simp only [wire_max, tal_count, Nat.not_lt] at h
      simp [h]

/-- C28 (the code at failing inputs): for the padding type `fromwire_wireaddr` takes the
length from `(u8)*max - 2`. With 60 bytes behind the type byte that is 58, more than the 37
bytes of `addr->addr`, and `fromwire` copies 58 bytes there. With one byte behind the type
byte the subtraction gives -1, stored in the `u8` as 255; with an empty buffer the type
read fails and yields 0, the padding type, `*max` is 0 and the length is 254: `fromwire`
then zeroes that many bytes of `addr->addr`. -/
theorem fromwire_wireaddr_padding_overruns_addr :
    TOR_V3_ADDRLEN = 37 ∧
    wireaddr_addrlen 0 60 = some 58 ∧
    (fromwire (some (List.replicate 60 7)) 58).2.length = 58 ∧
    fromwire_wireaddr (some (0 :: List.replicate 60 7))
      = Except.error (abort.undefined "fromwire writes addr->addrlen bytes past addr->addr") ∧
    wireaddr_addrlen 0 1 = some 255 ∧
    (fromwire (some [9]) 255).2.length = 255 ∧
    fromwire_wireaddr (some [0, 9])
      = Except.error (abort.undefined "fromwire writes addr->addrlen bytes past addr->addr") ∧
    fromwire_u8 (some []) = (none, 0) ∧
    wireaddr_addrlen 0 0 = some 254 ∧
    fromwire_wireaddr (some [])
      = Except.error (abort.undefined "fromwire writes addr->addrlen bytes past addr->addr") := by
  exact ⟨rfl, by decide, fromwire_stores_n _ _, by rfl, by decide, fromwire_stores_n _ _,
    by rfl, by decide, by decide, by rfl⟩

/-- C29 (the code at failing inputs): `separate_address_and_port` stores the result of
`strtol` in a `u16`, which reduces it modulo 65536. For `127.0.0.1:65537` it returns true
with the port 1, and `parse_wireaddr` succeeds with the port 1; for a port of twenty
nines `strtol` gives `LONG_MAX` and the port is 65535. Only a port that is 0 modulo 65536,
such as 65536, is rejected. -/
theorem separate_address_and_port_truncates_port :
    strtol "65537".data = (65537, []) ∧
    separate_address_and_port "127.0.0.1:65537" 9735
      = { ret := true, addr := some "127.0.0.1", port := 1 } ∧
    parse_wireaddr sample_resolver "127.0.0.1:65537" 9735 true
      = { ret := true,
          addr := some { type := 1, addrlen := 4, addr := [127, 0, 0, 1], port := 1 },
          err_msg := none } ∧
    separate_address_and_port "127.0.0.1:99999999999999999999" 9735
      = { ret := true, addr := some "127.0.0.1", port := 65535 } ∧
    separate_address_and_port "127.0.0.1:65536" 9735
      = { ret := false, addr := some "127.0.0.1", port := 0 } ∧
    separate_address_and_port "127.0.0.1:9735" 1
      = { ret := true, addr := some "127.0.0.1", port := 9735 } := by
  refine ⟨by decide, by decide, by decide, by decide, by decide, by decide⟩

/-! ## Theorems: lightningd/jsonrpc.c -/

theorem json_command_malformed_answers (k : rpc_consts) (jcon : json_connection)
    (id error : String) :
    answers_error_once jcon (json_command_malformed k jcon id error)
      k.JSONRPC2_INVALID_REQUEST id :=
  ⟨error, by
    simp [json_command_malformed, connection_complete_error, json_done,
      rpc_event.is_dispatch]⟩

theorem command_fail_detailed_answers (jcon : json_connection) (c_addr : Nat)
    (id : String) (code : Int) (error : String) :
    answers_error_once jcon
      (command_fail_detailed { jcon with commands :=
          { addr := c_addr, jcon := true, pending := false, id := id } :: jcon.commands }
        { addr := c_addr, jcon := true, pending := false, id := id } code none error)
      code id :=
  ⟨error, by
    simp [command_fail_detailed, cmd_in_jcon, connection_complete_error, json_done,
      destroy_cmd, rpc_event.is_dispatch]⟩

/-- C24: every request that fails a check of `parse_request` is answered with exactly one
error response, and no handler is called. A request that is no object, has no id, or has
an id that is neither a string nor a primitive gets the code JSONRPC2_INVALID_REQUEST with
the id `null`. Behind these checks the id of the response is the text of the request's id
token: a request without method or without params, or whose method is no string, gets
JSONRPC2_INVALID_REQUEST; a method that `find_cmd` does not find, or a deprecated command
while `deprecated_apis` is off, gets JSONRPC2_METHOD_NOT_FOUND. -/
theorem parse_request_failure_answers_once (k : rpc_consts) (cmdlist : List json_command)
    (deprecated_apis : Bool) (handler : Nat → command → jsmntok → handler_outcome)
    (jcon : json_connection) (req : request) (c_addr : Nat) :
    ((req.type ≠ jsmntype.JSMN_OBJECT ∨ req.id = none ∨
        (∃ t, req.id = some t ∧ t.type ≠ jsmntype.JSMN_STRING
          ∧ t.type ≠ jsmntype.JSMN_PRIMITIVE)) →
      answers_error_once jcon
        (parse_request k cmdlist deprecated_apis handler jcon req c_addr)
        k.JSONRPC2_INVALID_REQUEST "null") ∧
    (∀ t, req.type = jsmntype.JSMN_OBJECT → req.id = some t →
      (t.type = jsmntype.JSMN_STRING ∨ t.type = jsmntype.JSMN_PRIMITIVE) →
      ((req.method = none ∨ req.params = none ∨
          (∃ m, req.method = some m ∧ m.type ≠ jsmntype.JSMN_STRING)) →
        answers_error_once jcon
          (parse_request k cmdlist deprecated_apis handler jcon req c_addr)
          k.JSONRPC2_INVALID_REQUEST (json_tok_full t)) ∧
      (∀ m p, req.method = some m → req.params = some p →
        m.type = jsmntype.JSMN_STRING →
        (find_cmd cmdlist m = none ∨
          (∃ cmd, find_cmd cmdlist m = some cmd ∧ cmd.deprecated = true
            ∧ deprecated_apis = false)) →
        answers_error_once jcon
          (parse_request k cmdlist deprecated_apis handler jcon req c_addr)
          k.JSONRPC2_METHOD_NOT_FOUND (json_tok_full t))) := by
  obtain ⟨type, method, params, id⟩ := req
  refine ⟨?_, ?_⟩
  · intro h
    simp only at h
    by_cases hty : type ≠ jsmntype.JSMN_OBJECT
    · simp only [parse_request, hty, ne_eq, not_false_eq_true, if_true]
      exact json_command_malformed_answers k jcon _ _
    · have hty2 : type = jsmntype.JSMN_OBJECT := not_not.mp hty
      rcases h with h | h | ⟨t, h1, h2, h3⟩
      · exact absurd hty2 h
      · subst h
        simp only [parse_request, hty2, ne_eq, not_true_eq_false, if_false]
        exact json_command_malformed_answers k jcon _ _
      · subst h1
        simp only [parse_request, hty2, ne_eq, not_true_eq_false, if_false, h2, h3,
          not_false_eq_true, and_self, if_true]
        exact json_command_malformed_answers k jcon _ _
  · intro t hty hid htt
    simp only at hty hid
    subst hty
    subst hid
    have hcond : ¬ (t.type ≠ jsmntype.JSMN_STRING ∧ t.type ≠ jsmntype.JSMN_PRIMITIVE) := by
      intro hc
      rcases htt with h | h
      · exact hc.1 h
      · exact hc.2 h
    refine ⟨?_, ?_⟩
    · intro h
      simp only at h
      simp only [parse_request, ne_eq, not_true_eq_false, if_false]
      rw [if_neg hcond]
      cases method with
      | none => exact command_fail_detailed_answers jcon c_addr _ _ _
      | some m =>
        cases params with
        | none => exact command_fail_detailed_answers jcon c_addr _ _ _
        | some p =>
          rcases h with h | h | ⟨m2, h1, h2⟩
          · cases h
          · cases h
          · cases h1
            simp only [h2, not_false_eq_true, if_true]
            exact command_fail_detailed_answers jcon c_addr _ _ _
    · intro m p hm hp hmt hf
      simp only at hm hp
      subst hm
      subst hp
      simp only [parse_request, ne_eq, not_true_eq_false, if_false]
      rw [if_neg hcond]
      simp only [hmt, not_true_eq_false, if_false]
      rcases hf with hf | ⟨cmd, hf, hd, ha⟩
      · simp only [hf]
        exact command_fail_detailed_answers jcon c_addr _ _ _
      · simp only [hf, hd, ha, Bool.not_false, Bool.and_self, if_true]
        exact command_fail_detailed_answers jcon c_addr _ _ _

/-- C24 (witness): the request for the unknown method `nosuch` with id 7 is answered with
JSONRPC2_METHOD_NOT_FOUND and the id 7, and no handler runs. -/
theorem parse_request_failure_answers_once_witness :
    find_cmd sample_cmdlist sample_method = none ∧
    answers_error_once sample_jcon
      (parse_request sample_rpc_consts sample_cmdlist false sample_handler sample_jcon
        sample_request 500)
      sample_rpc_consts.JSONRPC2_METHOD_NOT_FOUND (json_tok_full sample_id) :=
  ⟨by decide,
   ((parse_request_failure_answers_once sample_rpc_consts sample_cmdlist false sample_handler
      sample_jcon sample_request 500).2 sample_id rfl rfl (Or.inr rfl)).2
     sample_method sample_params rfl rfl rfl (Or.inl (by decide))⟩

/-- C27 (the code at failing inputs): `json_param_sha256` returns `NULL` exactly when
`hex_decode` fails. For the token of 64 hexadecimal digits, which `hex_decode` decodes into
32 bytes, it returns the text `Invalid sha256`, and `handle_param` fails the command with
it; for the token `zz`, which `hex_decode` rejects, it returns `NULL`, and `handle_param`
accepts the parameter. -/
theorem json_param_sha256_inverts_hex_decode :
    (∀ tok, (json_param_sha256 tok).1 = none ↔ (hex_decode tok.text.data 32).1 = false) ∧
    hex_decode sample_sha256_tok.text.data 32 = (true, sample_sha256) ∧
    json_param_sha256 sample_sha256_tok = (some "Invalid sha256", sample_sha256) ∧
    handle_param sample_rpc_consts "payment_hash" true (some sample_sha256_tok)
        (fun t => (json_param_sha256 t).1)
      = some (-32602,
          "'payment_hash' Invalid sha256 " ++
          "'00112233445566778899aabbccddeeff00112233445566778899AABBCCDDEEFF'") ∧
    (hex_decode sample_bad_tok.text.data 32).1 = false ∧
    (json_param_sha256 sample_bad_tok).1 = none ∧
    handle_param sample_rpc_consts "payment_hash" true (some sample_bad_tok)
        (fun t => (json_param_sha256 t).1) = none := by
  refine ⟨?_, by decide, by decide, by decide, by decide, by decide, by decide⟩
  intro tok
  simp only [json_param_sha256]
  cases h : (hex_decode tok.text.data 32).1 <;> simp

end Lightning
